import Mathlib

/-!
# Face-replacement backend: region calculators, masks, colour matching, handlers

A shallow embedding of `backend/controllers/product.controller.js` and
`backend/controllers/enhanced-cutout-controller.js`.

## Numbers

JavaScript numbers are IEEE-754 binary64 values.  Every number that occurs in
the embedded code is non-negative (image dimensions, channel means, positive
literals), so only the non-negative half is modelled.  A finite value is
represented by the natural number `k` of units of `2 ^ (-1074)` it contains
(`2 ^ (-1074)` is the smallest positive binary64 value, so every finite
binary64 value is a whole number of units).  Arithmetic is exact arithmetic
followed by rounding to the nearest representable value, ties to even.
-/

namespace JS

/-- The binary64 value `1.0`, in units of `2 ^ (-1074)`. -/
def one : Nat := 1 <<< 1074

/-- The exponent of `one`: `one = 2 ^ oneExponent`. -/
def oneExponent : Nat := 1074

/-- Number of binary digits of `n`, by structural recursion on a fuel argument; 64
digits are taken at a time while `n` has more than 64. -/
def bitLength : Nat → Nat → Nat
  | 0, _ => 0
  | fuel + 1, n =>
    if n = 0 then 0
    else if 1 <<< 64 ≤ n then bitLength fuel (n >>> 64) + 64
    else bitLength fuel (n / 2) + 1

/-- Number of binary digits of `n` (`0` for `n = 0`). -/
def size (n : Nat) : Nat := bitLength n n

/-- Rounds the exact quotient `n / d` (a number of units, `0 < d`) to the nearest
binary64 value, ties to even, with unbounded exponent.  A value below `2 ^ 53`
units (subnormal, or in the first normal binade) is rounded to a whole number of
units; a larger value keeps 53 significant bits, that is, it is rounded to a
multiple of `2 ^ s` with `s = size (n / d) - 53`. -/
def roundNearestEven (n d : Nat) : Nat :=
  let s := size (n / d) - 53
  let q := n / (d <<< s)
  let r := n % (d <<< s)
  let m :=
    if 2 * r < d <<< s then q
    else if d <<< s < 2 * r then q + 1
    else if q % 2 = 0 then q else q + 1
  m <<< s

/-- The binary64 value denoted by the decimal literal `num / den`. -/
def lit (num den : Nat) : Nat := roundNearestEven (num * one) den

/-- The binary64 value of a (small) natural number. -/
def ofNat (n : Nat) : Nat := n * one

/-- First value that is too large to be finite: `2 ^ 1024`, in units. -/
def overflowThreshold : Nat := 1 <<< 2098

end JS

/-- A non-negative JavaScript number. -/
inductive JSNum where
  | nan : JSNum
  | inf : JSNum
  | fin (units : Nat) : JSNum
  deriving DecidableEq, Repr

namespace JSNum

/-- Result of a rounded operation: `Infinity` on overflow. -/
def ofRounded (k : Nat) : JSNum :=
  if JS.overflowThreshold ≤ k then inf else fin k

/-- Decimal literal. -/
def lit (num den : Nat) : JSNum := fin (JS.lit num den)

/-- JavaScript `a / b` on non-negative numbers. -/
def div : JSNum → JSNum → JSNum
  | nan, _ => nan
  | _, nan => nan
  | inf, inf => nan
  | inf, fin _ => inf
  | fin _, inf => fin 0
  | fin a, fin b =>
    if b = 0 then (if a = 0 then nan else inf)
    else ofRounded (JS.roundNearestEven (a * JS.one) b)

/-- JavaScript `a * b` on non-negative numbers. -/
def mul : JSNum → JSNum → JSNum
  | nan, _ => nan
  | _, nan => nan
  | inf, inf => inf
  | inf, fin b => if b = 0 then nan else inf
  | fin a, inf => if a = 0 then nan else inf
  | fin a, fin b => ofRounded (JS.roundNearestEven (a * b) JS.one)

/-- JavaScript `a > b`: false as soon as one side is `NaN`. -/
def gt : JSNum → JSNum → Bool
  | nan, _ => false
  | _, nan => false
  | inf, inf => false
  | inf, fin _ => true
  | fin _, inf => false
  | fin a, fin b => decide (b < a)

/-- JavaScript `Math.max(a, b)`: `NaN` as soon as one argument is `NaN`. -/
def max : JSNum → JSNum → JSNum
  | nan, _ => nan
  | _, nan => nan
  | inf, _ => inf
  | _, inf => inf
  | fin a, fin b => fin (Max.max a b)

/-- JavaScript `Math.min(a, b)`: `NaN` as soon as one argument is `NaN`. -/
def min : JSNum → JSNum → JSNum
  | nan, _ => nan
  | _, nan => nan
  | inf, y => y
  | x, inf => x
  | fin a, fin b => fin (Min.min a b)

end JSNum

/-! ## Images and the `sharp` library -/

/-- An encoded image: the bytes of a Node.js `Buffer`. -/
abbrev Buffer := List Nat

/-- The message of a thrown JavaScript error. -/
abbrev Error := String

/-- JavaScript `try { body } catch (error) { handler error }`. -/
def jsTry {α : Type} (body : Except Error α) (handler : Error → Except Error α) :
    Except Error α :=
  match body with
  | .ok a => .ok a
  | .error e => handler e

/-- The fields of `sharp(...).metadata()` that the code reads. -/
structure Metadata where
  width : Nat
  height : Nat
  deriving DecidableEq, Repr

/-- A pixel rectangle `{left, top, width, height}`. -/
structure Region where
  left : Nat
  top : Nat
  width : Nat
  height : Nat
  deriving DecidableEq, Repr

/-- `Math.floor(n * c)` for an integer `n` and a binary64 constant `c` (in units): the
product is rounded to binary64 before the floor is taken.  `n` is an image dimension
or a part of one, far below `2 ^ 53`, so it is a binary64 value itself and the
product cannot overflow. -/
def floorMul (n : Nat) (c : Nat) : Nat :=
  JS.roundNearestEven (JS.ofNat n * c) JS.one / JS.one

/-- The region lies inside an image of the given size. -/
def Region.within (r : Region) (width height : Nat) : Prop :=
  0 ≤ r.left ∧ 0 ≤ r.top ∧ r.left + r.width ≤ width ∧ r.top + r.height ≤ height

instance (r : Region) (w h : Nat) : Decidable (r.within w h) := by
  unfold Region.within; infer_instance

/-- Two binary64 constants (in units) that can serve as the offset and the extent of a
region along one axis: both are in the normal range and they add up to less than one. -/
def axisOk (c₁ c₂ : Nat) : Prop :=
  2 ^ 52 ≤ c₁ ∧ 2 ^ 52 ≤ c₂ ∧ (c₁ + c₂) * (2 ^ 53 + 1) ≤ JS.one * 2 ^ 53

instance (c₁ c₂ : Nat) : Decidable (axisOk c₁ c₂) := by
  unfold axisOk; infer_instance

/-- The binary64 constant `c` (in units) is the decimal `p / q` rounded to nearest: it
is in the normal range and within a relative `2 ^ (-53)` of `p / q`. -/
def litNear (c p q : Nat) : Prop :=
  0 < q ∧ p ≤ 100 ∧ 2 ^ 52 ≤ c ∧ c * q * 2 ^ 53 ≤ p * JS.one * (2 ^ 53 + 1) ∧
    p * JS.one * (2 ^ 53 - 1) ≤ c * q * 2 ^ 53

instance (c p q : Nat) : Decidable (litNear c p q) := by
  unfold litNear; infer_instance

/-- The constant `c` is not below the decimal `p / q` by more than a relative
`2 ^ (-54)` (it may be above it). -/
def litNotFarBelow (c p q : Nat) : Prop :=
  (p * JS.one - c * q) * 2 ^ 54 ≤ c * q

instance (c p q : Nat) : Decidable (litNotFarBelow c p q) := by
  unfold litNotFarBelow; infer_instance

/-- The rectangle `r` lies inside the rectangle `outer`. -/
def Region.inside (r outer : Region) : Prop :=
  outer.left ≤ r.left ∧ outer.top ≤ r.top ∧
    r.left + r.width ≤ outer.left + outer.width ∧ r.top + r.height ≤ outer.top + outer.height

instance (r outer : Region) : Decidable (r.inside outer) := by
  unfold Region.inside; infer_instance

/-! ## SVG documents (the masks are SVG text rendered by `sharp`) -/

/-- A gradient `<stop>` with `stop-color:white`: offset and `stop-opacity`. -/
structure Stop where
  offset : ℚ
  opacity : ℚ
  deriving DecidableEq

/-- The `fill` of a shape.  Lengths are fractions of the bounding box of the painted
shape (`gradientUnits` defaults to `objectBoundingBox`).  `<radialGradient>` has the
geometry attributes `cx`, `cy`, `r` (default `50%`); the attributes `rx` and `ry`
written in the source are not attributes of `<radialGradient>` and have no effect. -/
inductive Paint where
  | black : Paint
  | linearGradient (x1 y1 x2 y2 : ℚ) (stops : List Stop) : Paint
  | radialGradient (cx cy r : ℚ) (stops : List Stop) : Paint
  deriving DecidableEq

/-- A shape; lengths are fractions of the viewport width (horizontal) or height
(vertical). -/
inductive Shape where
  | rect (x y width height : ℚ) : Shape
  | ellipse (cx cy rx ry : ℚ) : Shape
  deriving DecidableEq

/-- A rendered element. -/
structure Element where
  shape : Shape
  fill : Paint
  deriving DecidableEq

/-- An `<svg width height>` document: its rendered elements in document order
(elements inside `<defs>` are not rendered). -/
structure SvgDoc where
  width : Nat
  height : Nat
  elements : List Element
  deriving DecidableEq

/-! ## The `sharp` image library -/

/-- `blend` of a composite layer. -/
inductive Blend where
  | destIn : Blend
  | over : Blend
  deriving DecidableEq, Repr

/-- `fit` of a resize. -/
inductive Fit where
  | fill : Fit
  | contain : Fit
  deriving DecidableEq, Repr

/-- One chained `sharp` operation with the options given in the source. -/
inductive SharpOp where
  | extract (region : Region) : SharpOp
  | modulate (brightness saturation : JSNum) (hue : Option JSNum) : SharpOp
  | median (size : Nat) : SharpOp
  | sharpen (sigma m1 m2 : JSNum) : SharpOp
  | resize (width height : Nat) (fit : Fit) (lanczos3 : Bool) (transparentBackground : Bool) :
      SharpOp
  | blur (sigma : JSNum) : SharpOp
  | composite (input : Buffer) (left top : Option Nat) (blend : Blend) : SharpOp
  | png (quality compressionLevel : Option Nat) (progressive : Option Bool) : SharpOp
  deriving DecidableEq

/-- The argument of `sharp(...)`. -/
inductive SharpInput where
  | buffer (b : Buffer) : SharpInput
  | svg (doc : SvgDoc) : SharpInput
  | create (width height channels : Nat) (r g b : Nat) (alpha : JSNum) : SharpInput
  deriving DecidableEq

/-- Statistics of one channel: the only field read is `mean`. -/
structure ChannelStats where
  mean : JSNum
  deriving DecidableEq, Repr

/-- Result of `.stats()`. -/
structure Stats where
  channels : List ChannelStats
  deriving DecidableEq, Repr

/-- The `sharp` library, an external collaborator: what its three terminal calls
return for an input and a chain of operations.  Each may throw. -/
structure Sharp where
  metadata : SharpInput → Except Error Metadata
  stats : SharpInput → List SharpOp → Except Error Stats
  toBuffer : SharpInput → List SharpOp → Except Error Buffer

/-- `stats.channels[i].mean`: reading `.mean` of a missing channel throws a `TypeError`. -/
def Stats.channelMean (s : Stats) (i : Nat) : Except Error JSNum :=
  match s.channels.get? i with
  | some c => .ok c.mean
  | none => .error "TypeError: Cannot read properties of undefined (reading 'mean')"

namespace ProductController

/-- Result of `analyzeUserImageExtended` / `analyzeUserImageForShoulders`. -/
structure UserAnalysis where
  metadata : Metadata
  faceRegion : Region
  aspectRatio : JSNum
  deriving DecidableEq, Repr

/-- Result of `analyzeProductImageExtended` / `analyzeProductImageForShoulders`. -/
structure ProductAnalysis where
  metadata : Metadata
  modelFaceRegion : Region
  aspectRatio : JSNum
  deriving DecidableEq, Repr

/-- `analyzeUserImageExtended` (product.controller.js, lines 92-113). -/
def analyzeUserImageExtended (sharp : Sharp) (userFaceBuffer : Buffer) :
    Except Error UserAnalysis :=
  jsTry
    (do
      let metadata ← sharp.metadata (.buffer userFaceBuffer)
      let faceRegion : Region :=
        { left := floorMul metadata.width (JS.lit 1 10)
          top := floorMul metadata.height (JS.lit 2 100)
          width := floorMul metadata.width (JS.lit 8 10)
          height := floorMul metadata.height (JS.lit 9 10) }
      pure
        { metadata := metadata
          faceRegion := faceRegion
          aspectRatio :=
            JSNum.div (.fin (JS.ofNat faceRegion.width)) (.fin (JS.ofNat faceRegion.height)) })
    (fun error => .error error)

/-- `analyzeProductImageExtended` (product.controller.js, lines 116-137). -/
def analyzeProductImageExtended (sharp : Sharp) (productImageBuffer : Buffer) :
    Except Error ProductAnalysis :=
  jsTry
    (do
      let metadata ← sharp.metadata (.buffer productImageBuffer)
      let modelFaceRegion : Region :=
        { left := floorMul metadata.width (JS.lit 25 100)
          top := floorMul metadata.height (JS.lit 2 100)
          width := floorMul metadata.width (JS.lit 5 10)
          height := floorMul metadata.height (JS.lit 65 100) }
      pure
        { metadata := metadata
          modelFaceRegion := modelFaceRegion
          aspectRatio :=
            JSNum.div (.fin (JS.ofNat modelFaceRegion.width))
              (.fin (JS.ofNat modelFaceRegion.height)) })
    (fun error => .error error)

/-- `analyzeUserImageForShoulders` (product.controller.js, lines 405-426). -/
def analyzeUserImageForShoulders (sharp : Sharp) (userFaceBuffer : Buffer) :
    Except Error UserAnalysis :=
  jsTry
    (do
      let metadata ← sharp.metadata (.buffer userFaceBuffer)
      let faceRegion : Region :=
        { left := floorMul metadata.width (JS.lit 5 100)
          top := floorMul metadata.height (JS.lit 1 100)
          width := floorMul metadata.width (JS.lit 9 10)
          height := floorMul metadata.height (JS.lit 95 100) }
      pure
        { metadata := metadata
          faceRegion := faceRegion
          aspectRatio :=
            JSNum.div (.fin (JS.ofNat faceRegion.width)) (.fin (JS.ofNat faceRegion.height)) })
    (fun error => .error error)

/-- `analyzeProductImageForShoulders` (product.controller.js, lines 429-450). -/
def analyzeProductImageForShoulders (sharp : Sharp) (productImageBuffer : Buffer) :
    Except Error ProductAnalysis :=
  jsTry
    (do
      let metadata ← sharp.metadata (.buffer productImageBuffer)
      let modelFaceRegion : Region :=
        { left := floorMul metadata.width (JS.lit 2 10)
          top := floorMul metadata.height (JS.lit 1 100)
          width := floorMul metadata.width (JS.lit 6 10)
          height := floorMul metadata.height (JS.lit 7 10) }
      pure
        { metadata := metadata
          modelFaceRegion := modelFaceRegion
          aspectRatio :=
            JSNum.div (.fin (JS.ofNat modelFaceRegion.width))
              (.fin (JS.ofNat modelFaceRegion.height)) })
    (fun error => .error error)

end ProductController

namespace EnhancedCutoutController

/-- The rectangle on which `performOrganicFaceReplacement` places the face
(enhanced-cutout-controller.js, lines 81-82 and 93-94): `targetLeft`, `targetTop`,
`targetWidth`, `targetHeight`. -/
def organicTarget (productMetadata : Metadata) : Region :=
  { left := floorMul productMetadata.width (JS.lit 325 1000)
    top := floorMul productMetadata.height (JS.lit 8 100)
    width := floorMul productMetadata.width (JS.lit 35 100)
    height := floorMul productMetadata.height (JS.lit 45 100) }

end EnhancedCutoutController

/-! ## Opacity of a rendered SVG document

The alpha channel of the rendered mask is what the `dest-in` blend uses.  The model
is the SVG painting model sampled at pixel centres: every element is painted
source-over in document order, a gradient takes the opacity interpolated linearly
between its stops and keeps the first or last stop outside them.  The mask is a PNG
with 8 bits of alpha: the opacity of a pixel is stored rounded to a multiple of
`1 / 255`. -/

namespace Svg

/-- Opacity of a gradient at offset `t`. -/
def stopsOpacity : List Stop → ℚ → ℚ
  | [], _ => 0
  | [s], _ => s.opacity
  | s₁ :: s₂ :: rest, t =>
    if t ≤ s₁.offset then s₁.opacity
    else if t < s₂.offset then
      s₁.opacity + (t - s₁.offset) / (s₂.offset - s₁.offset) * (s₂.opacity - s₁.opacity)
    else stopsOpacity (s₂ :: rest) t

/-- Square root of a non-negative rational to 16 fractional binary digits, rounded
down. -/
def sqrtFix (x : ℚ) : ℚ := (Nat.sqrt ⌊x * 2 ^ 32⌋₊ : ℚ) / 2 ^ 16

/-- Opacity of a paint at the point `(x, y)`, in fractions of the bounding box of the
painted shape. -/
def paintOpacity : Paint → ℚ → ℚ → ℚ
  | .black, _, _ => 1
  | .linearGradient x1 y1 x2 y2 stops, x, y =>
    stopsOpacity stops
      (((x - x1) * (x2 - x1) + (y - y1) * (y2 - y1)) / ((x2 - x1) ^ 2 + (y2 - y1) ^ 2))
  | .radialGradient cx cy r stops, x, y =>
    stopsOpacity stops (sqrtFix (((x - cx) ^ 2 + (y - cy) ^ 2) / r ^ 2))

/-- Opacity contributed by one element at the point `(u, v)`, in fractions of the
viewport: the paint inside the shape, nothing outside. -/
def elementOpacity (e : Element) (u v : ℚ) : ℚ :=
  match e.shape with
  | .rect x y w h =>
    if x ≤ u ∧ u ≤ x + w ∧ y ≤ v ∧ v ≤ y + h then
      paintOpacity e.fill ((u - x) / w) ((v - y) / h)
    else 0
  | .ellipse cx cy rx ry =>
    if ((u - cx) / rx) ^ 2 + ((v - cy) / ry) ^ 2 ≤ 1 then
      paintOpacity e.fill ((u - (cx - rx)) / (2 * rx)) ((v - (cy - ry)) / (2 * ry))
    else 0

/-- Source-over: opacity after painting `top` over `bottom`. -/
def over (top bottom : ℚ) : ℚ := top + bottom * (1 - top)

/-- Opacity at the point `(u, v)` after painting the elements in order on a
transparent canvas. -/
def opacityAt (elements : List Element) (u v : ℚ) : ℚ :=
  elements.foldl (fun acc e => over (elementOpacity e u v) acc) 0

/-- Centre of pixel `k` along an axis of `n` pixels, as a fraction of the axis. -/
def centre (n k : Nat) : ℚ := (2 * k + 1) / (2 * n)

/-- Opacity of the pixel in column `i` and row `j` before it is stored: the opacity of
the painting sampled at the pixel centre, an exact fraction. -/
def pixelOpacity (doc : SvgDoc) (i j : Nat) : ℚ :=
  opacityAt doc.elements (centre doc.width i) (centre doc.height j)

/-- The 8-bit alpha stored in the PNG for an opacity: `opacity * 255`, rounded to
nearest.  Opacities below `1 / 510` are stored as 0. -/
def alpha8 (opacity : ℚ) : Nat := ⌊opacity * 255 + 1 / 2⌋₊

/-- The alpha channel (0 to 255) of the pixel in column `i` and row `j` of the rendered
mask, which is what the `dest-in` blend uses. -/
def pixelAlpha (doc : SvgDoc) (i j : Nat) : Nat := alpha8 (pixelOpacity doc i j)

end Svg

namespace ProductController

/-- The `svgMask` text of `createTransparentSeamlessMask`
(product.controller.js, lines 284-304). -/
def transparentSeamlessMaskSvg (width height : Nat) : SvgDoc :=
  let faceGrad : Paint :=
    .radialGradient (1 / 2) (35 / 100) (1 / 2)
      [⟨0, 1⟩, ⟨60 / 100, 1⟩, ⟨80 / 100, 9 / 10⟩, ⟨95 / 100, 3 / 10⟩, ⟨1, 0⟩]
  let shoulderGrad : Paint :=
    .radialGradient (1 / 2) (85 / 100) (1 / 2)
      [⟨0, 8 / 10⟩, ⟨50 / 100, 6 / 10⟩, ⟨80 / 100, 3 / 10⟩, ⟨1, 0⟩]
  { width := width
    height := height
    elements :=
      [ { shape := .rect 0 0 1 1, fill := faceGrad },
        { shape := .rect 0 (60 / 100) 1 (40 / 100), fill := shoulderGrad } ] }

/-- The `svgMask` text of `createPerfectShoulderMask`
(product.controller.js, lines 624-644). -/
def perfectShoulderMaskSvg (width height : Nat) : SvgDoc :=
  let topGrad : Paint :=
    .linearGradient 0 0 0 1
      [⟨0, 1⟩, ⟨40 / 100, 1⟩, ⟨70 / 100, 8 / 10⟩, ⟨90 / 100, 4 / 10⟩, ⟨1, 0⟩]
  let centerGrad : Paint :=
    .radialGradient (1 / 2) (30 / 100) (1 / 2)
      [⟨0, 1⟩, ⟨70 / 100, 1⟩, ⟨90 / 100, 6 / 10⟩, ⟨1, 0⟩]
  { width := width
    height := height
    elements :=
      [ { shape := .rect 0 0 1 1, fill := topGrad },
        { shape := .ellipse (1 / 2) (30 / 100) (45 / 100) (35 / 100), fill := centerGrad } ] }

/-- `createTransparentSeamlessMask` (product.controller.js, lines 281-323). -/
def createTransparentSeamlessMask (sharp : Sharp) (width height : Nat) : Except Error Buffer :=
  jsTry
    (sharp.toBuffer (.svg (transparentSeamlessMaskSvg width height)) [.png none none none])
    (fun _ =>
      sharp.toBuffer (.create width height 4 255 255 255 (JSNum.lit 8 10))
        [.png none none none])

/-- `createPerfectShoulderMask` (product.controller.js, lines 622-651). -/
def createPerfectShoulderMask (sharp : Sharp) (width height : Nat) : Except Error Buffer :=
  jsTry
    (sharp.toBuffer (.svg (perfectShoulderMaskSvg width height)) [.png none none none])
    (fun error => .error error)

end ProductController

namespace EnhancedCutoutController

/-- The `svgMask` text of `createOrganicFaceMask`
(enhanced-cutout-controller.js, lines 123-158).  The `<ellipse id="neckShape">`
inside `<defs>` is not rendered. -/
def organicFaceMaskSvg (width height : Nat) : SvgDoc :=
  let organicFace : Paint :=
    .radialGradient (1 / 2) (40 / 100) (1 / 2)
      [⟨0, 1⟩, ⟨40 / 100, 1⟩, ⟨60 / 100, 98 / 100⟩, ⟨75 / 100, 9 / 10⟩, ⟨85 / 100, 7 / 10⟩,
        ⟨92 / 100, 4 / 10⟩, ⟨97 / 100, 15 / 100⟩, ⟨1, 0⟩]
  let organicNeck : Paint :=
    .radialGradient (1 / 2) 0 (1 / 2)
      [⟨0, 8 / 10⟩, ⟨50 / 100, 6 / 10⟩, ⟨80 / 100, 3 / 10⟩, ⟨1, 0⟩]
  { width := width
    height := height
    elements :=
      [ { shape := .rect 0 0 1 1, fill := .black },
        { shape := .ellipse (1 / 2) (40 / 100) (35 / 100) (45 / 100), fill := organicFace },
        { shape := .ellipse (1 / 2) (75 / 100) (25 / 100) (20 / 100), fill := organicNeck } ] }

/-- `createOrganicFaceMask` (enhanced-cutout-controller.js, lines 120-167). -/
def createOrganicFaceMask (sharp : Sharp) (width height : Nat) : Except Error Buffer :=
  jsTry
    (sharp.toBuffer (.svg (organicFaceMaskSvg width height)) [.png none none none])
    (fun error => .error error)

end EnhancedCutoutController

/-! ## product.controller.js: the seamless and the advanced pipelines -/

namespace ProductController

/-- `extractUserFaceWithShoulders` (lines 140-165). -/
def extractUserFaceWithShoulders (sharp : Sharp) (userFaceBuffer : Buffer)
    (analysis : UserAnalysis) : Except Error Buffer :=
  jsTry
    (sharp.toBuffer (.buffer userFaceBuffer)
      [ .extract analysis.faceRegion,
        .modulate (JSNum.lit 101 100) (JSNum.lit 99 100) (some (.fin 0)),
        .median 1,
        .sharpen (JSNum.lit 8 10) (JSNum.lit 5 10) (JSNum.lit 2 1) ])
    (fun error => .error error)

namespace matchSkinToneAndLighting

/-- `brightnessRatio` (line 184). -/
def brightnessRatio (modelMean userMean : JSNum) : JSNum :=
  JSNum.div modelMean userMean

/-- `saturationAdjustment` (line 185). -/
def saturationAdjustment (brightnessRatio : JSNum) : JSNum :=
  if JSNum.gt brightnessRatio (JSNum.lit 11 10) then JSNum.lit 95 100 else JSNum.lit 105 100

/-- The `brightness` passed to `modulate` (line 190). -/
def brightness (brightnessRatio : JSNum) : JSNum :=
  JSNum.min (JSNum.max brightnessRatio (JSNum.lit 8 10)) (JSNum.lit 12 10)

/-- The rectangle of the product image sampled for the reference statistics
(lines 172-177). -/
def sampleRegion (modelFaceRegion : Region) : Region :=
  { left := modelFaceRegion.left + floorMul modelFaceRegion.width (JS.lit 3 10)
    top := modelFaceRegion.top + floorMul modelFaceRegion.height (JS.lit 7 10)
    width := floorMul modelFaceRegion.width (JS.lit 4 10)
    height := floorMul modelFaceRegion.height (JS.lit 2 10) }

end matchSkinToneAndLighting

/-- `matchSkinToneAndLighting` (lines 168-202). -/
def matchSkinToneAndLighting (sharp : Sharp) (extractedUserFace productImageBuffer : Buffer)
    (productAnalysis : ProductAnalysis) : Except Error Buffer :=
  jsTry
    (do
      let modelSkinSample ← sharp.stats (.buffer productImageBuffer)
        [.extract (matchSkinToneAndLighting.sampleRegion productAnalysis.modelFaceRegion)]
      let userFaceStats ← sharp.stats (.buffer extractedUserFace) []
      let modelMean ← modelSkinSample.channelMean 0
      let userMean ← userFaceStats.channelMean 0
      let brightnessRatio := matchSkinToneAndLighting.brightnessRatio modelMean userMean
      let saturationAdjustment := matchSkinToneAndLighting.saturationAdjustment brightnessRatio
      let colorMatched ← sharp.toBuffer (.buffer extractedUserFace)
        [.modulate (matchSkinToneAndLighting.brightness brightnessRatio) saturationAdjustment
          (some (.fin 0))]
      pure colorMatched)
    (fun _ => .ok extractedUserFace)

/-- `createPerfectFitWithShoulders` (lines 205-225). -/
def createPerfectFitWithShoulders (sharp : Sharp) (colorMatchedFace : Buffer)
    (productAnalysis : ProductAnalysis) : Except Error Buffer :=
  jsTry
    (let targetWidth := productAnalysis.modelFaceRegion.width
     let targetHeight := productAnalysis.modelFaceRegion.height
     sharp.toBuffer (.buffer colorMatchedFace)
      [.resize targetWidth targetHeight .fill true false, .blur (JSNum.lit 3 10)])
    (fun error => .error error)

/-- `replaceWithShoulderMatching` (lines 228-278). -/
def replaceWithShoulderMatching (sharp : Sharp) (productImageBuffer perfectFitFace : Buffer)
    (productAnalysis : ProductAnalysis) : Except Error Buffer :=
  jsTry
    (do
      let advancedMask ← createTransparentSeamlessMask sharp
        productAnalysis.modelFaceRegion.width productAnalysis.modelFaceRegion.height
      let maskedUserFace ← sharp.toBuffer (.buffer perfectFitFace)
        [.composite advancedMask none none .destIn]
      let result ← sharp.toBuffer (.buffer productImageBuffer)
        [ .composite maskedUserFace (some productAnalysis.modelFaceRegion.left)
            (some productAnalysis.modelFaceRegion.top) .over,
          .modulate (JSNum.lit 1002 1000) (JSNum.lit 1005 1000) none,
          .sharpen (JSNum.lit 4 10) (JSNum.lit 5 10) (JSNum.lit 2 1),
          .png (some 100) (some 6) (some true) ]
      pure result)
    (fun error => .error error)

/-- `performEnhancedFaceReplacement` (lines 66-89). -/
def performEnhancedFaceReplacement (sharp : Sharp) (userFaceBuffer productImageBuffer : Buffer) :
    Except Error Buffer :=
  jsTry
    (do
      let userImageAnalysis ← analyzeUserImageExtended sharp userFaceBuffer
      let productImageAnalysis ← analyzeProductImageExtended sharp productImageBuffer
      let extractedUserFace ← extractUserFaceWithShoulders sharp userFaceBuffer userImageAnalysis
      let colorMatchedFace ←
        matchSkinToneAndLighting sharp extractedUserFace productImageBuffer productImageAnalysis
      let perfectFitFace ← createPerfectFitWithShoulders sharp colorMatchedFace productImageAnalysis
      let finalResult ←
        replaceWithShoulderMatching sharp productImageBuffer perfectFitFace productImageAnalysis
      pure finalResult)
    (fun error => .error error)

/-- `extractUserWithShoulderArea` (lines 453-474). -/
def extractUserWithShoulderArea (sharp : Sharp) (userFaceBuffer : Buffer)
    (analysis : UserAnalysis) : Except Error Buffer :=
  jsTry
    (sharp.toBuffer (.buffer userFaceBuffer)
      [ .extract analysis.faceRegion,
        .modulate (JSNum.lit 1005 1000) (JSNum.lit 995 1000) none,
        .median 1,
        .sharpen (JSNum.lit 6 10) (JSNum.lit 5 10) (JSNum.lit 2 1) ])
    (fun error => .error error)

namespace performAdvancedColorMatching

/-- `brightnessAdjustment` (line 484). -/
def brightnessAdjustment (productMean userMean : JSNum) : JSNum :=
  JSNum.div productMean userMean

/-- `saturationAdjustment` (line 485). -/
def saturationAdjustment (productMean userMean : JSNum) : JSNum :=
  JSNum.div productMean userMean

/-- The `brightness` passed to `modulate` (line 489). -/
def brightness (brightnessAdjustment : JSNum) : JSNum :=
  JSNum.min (JSNum.max (JSNum.mul brightnessAdjustment (JSNum.lit 9 10)) (JSNum.lit 85 100))
    (JSNum.lit 115 100)

/-- The `saturation` passed to `modulate` (line 490). -/
def saturation (saturationAdjustment : JSNum) : JSNum :=
  JSNum.min (JSNum.max (JSNum.mul saturationAdjustment (JSNum.lit 95 100)) (JSNum.lit 9 10))
    (JSNum.lit 11 10)

end performAdvancedColorMatching

/-- `performAdvancedColorMatching` (lines 477-499).  The parameter `productAnalysis`
is not used by the source. -/
def performAdvancedColorMatching (sharp : Sharp) (extractedWithShoulders productImageBuffer : Buffer)
    (_productAnalysis : ProductAnalysis) : Except Error Buffer :=
  jsTry
    (do
      let productStats ← sharp.stats (.buffer productImageBuffer) []
      let userStats ← sharp.stats (.buffer extractedWithShoulders) []
      let productMean0 ← productStats.channelMean 0
      let userMean0 ← userStats.channelMean 0
      let brightnessAdjustment :=
        performAdvancedColorMatching.brightnessAdjustment productMean0 userMean0
      let productMean1 ← productStats.channelMean 1
      let userMean1 ← userStats.channelMean 1
      let saturationAdjustment :=
        performAdvancedColorMatching.saturationAdjustment productMean1 userMean1
      let colorMatched ← sharp.toBuffer (.buffer extractedWithShoulders)
        [.modulate (performAdvancedColorMatching.brightness brightnessAdjustment)
          (performAdvancedColorMatching.saturation saturationAdjustment) none]
      pure colorMatched)
    (fun _ => .ok extractedWithShoulders)

/-- `createShoulderAlignedFit` (lines 502-520). -/
def createShoulderAlignedFit (sharp : Sharp) (advancedColorMatched : Buffer)
    (productAnalysis : ProductAnalysis) : Except Error Buffer :=
  jsTry
    (let targetWidth := productAnalysis.modelFaceRegion.width
     let targetHeight := productAnalysis.modelFaceRegion.height
     sharp.toBuffer (.buffer advancedColorMatched)
      [.resize targetWidth targetHeight .fill true false, .blur (JSNum.lit 3 10)])
    (fun error => .error error)

/-- `performPerfectShoulderIntegration` (lines 570-619). -/
def performPerfectShoulderIntegration (sharp : Sharp) (productImageBuffer shoulderAligned : Buffer)
    (productAnalysis : ProductAnalysis) : Except Error Buffer :=
  jsTry
    (do
      let shoulderMask ← createPerfectShoulderMask sharp
        productAnalysis.modelFaceRegion.width productAnalysis.modelFaceRegion.height
      let maskedShoulder ← sharp.toBuffer (.buffer shoulderAligned)
        [.composite shoulderMask none none .destIn]
      let result ← sharp.toBuffer (.buffer productImageBuffer)
        [ .composite maskedShoulder (some productAnalysis.modelFaceRegion.left)
            (some productAnalysis.modelFaceRegion.top) .over,
          .modulate (JSNum.lit 1001 1000) (JSNum.lit 1002 1000) none,
          .sharpen (JSNum.lit 3 10) (JSNum.lit 5 10) (JSNum.lit 2 1),
          .png (some 100) (some 6) (some true) ]
      pure result)
    (fun error => .error error)

/-- `performAdvancedShoulderMatching` (lines 375-402). -/
def performAdvancedShoulderMatching (sharp : Sharp) (userFaceBuffer productImageBuffer : Buffer) :
    Except Error Buffer :=
  jsTry
    (do
      let userAnalysis ← analyzeUserImageForShoulders sharp userFaceBuffer
      let productAnalysis ← analyzeProductImageForShoulders sharp productImageBuffer
      let extractedWithShoulders ← extractUserWithShoulderArea sharp userFaceBuffer userAnalysis
      let advancedColorMatched ←
        performAdvancedColorMatching sharp extractedWithShoulders productImageBuffer productAnalysis
      let shoulderAligned ← createShoulderAlignedFit sharp advancedColorMatched productAnalysis
      let result ←
        performPerfectShoulderIntegration sharp productImageBuffer shoulderAligned productAnalysis
      pure result)
    (fun error => .error error)

end ProductController

/-! ## enhanced-cutout-controller.js: the organic pipeline -/

namespace EnhancedCutoutController

/-- `performOrganicFaceReplacement` (lines 60-117). -/
def performOrganicFaceReplacement (sharp : Sharp) (userFaceBuffer productImageBuffer : Buffer) :
    Except Error Buffer :=
  jsTry
    (do
      let userMetadata ← sharp.metadata (.buffer userFaceBuffer)
      let productMetadata ← sharp.metadata (.buffer productImageBuffer)
      let organicFaceMask ← createOrganicFaceMask sharp userMetadata.width userMetadata.height
      let maskedUserFace ← sharp.toBuffer (.buffer userFaceBuffer)
        [.composite organicFaceMask none none .destIn, .png none none none]
      let targetWidth := (organicTarget productMetadata).width
      let targetHeight := (organicTarget productMetadata).height
      let resizedMaskedFace ← sharp.toBuffer (.buffer maskedUserFace)
        [.resize targetWidth targetHeight .contain false true, .png none none none]
      let targetLeft := (organicTarget productMetadata).left
      let targetTop := (organicTarget productMetadata).top
      let finalResult ← sharp.toBuffer (.buffer productImageBuffer)
        [ .composite resizedMaskedFace (some targetLeft) (some targetTop) .over,
          .png (some 100) (some 6) none ]
      pure finalResult)
    (fun error => .error error)

end EnhancedCutoutController

/-! ## The specification's wording of the colour-matching rules -/

namespace Spec

/-- "Clamps `ratio` to `[lo, hi]`": the value itself when it lies in the range, the
nearer bound otherwise (`Infinity` is above every bound). -/
def clampTo (lo hi : Nat) : JSNum → JSNum
  | .fin q => .fin (if q < lo then lo else if hi < q then hi else q)
  | .inf => .fin hi
  | .nan => .nan

/-- "`ratio > 1.1 → 0.95, else 1.05`". -/
def thresholdSaturation : JSNum → JSNum
  | .fin q => if JS.lit 11 10 < q then JSNum.lit 95 100 else JSNum.lit 105 100
  | .inf => JSNum.lit 95 100
  | .nan => JSNum.lit 105 100

/-- The number lies in the closed range `[lo, hi]` (so it is neither `NaN` nor
`Infinity`). -/
def inRange (lo hi : Nat) : JSNum → Prop
  | .fin q => lo ≤ q ∧ q ≤ hi
  | _ => False

instance (lo hi : Nat) (x : JSNum) : Decidable (inRange lo hi x) := by
  cases x <;> unfold inRange <;> infer_instance

end Spec

/-! ## The specification's wording of the pipeline (section 4.4) -/

namespace Spec

/-- "Region fractions": the coefficients `{leftFrac, topFrac, widthFrac, heightFrac}` of
a region calculator, as binary64 constants. -/
structure Fractions where
  left : Nat
  top : Nat
  width : Nat
  height : Nat

/-- "`computeRegion(imageWidth, imageHeight, coefficients)`", floor-rounded. -/
def computeRegion (m : Metadata) (f : Fractions) : Region :=
  { left := floorMul m.width f.left
    top := floorMul m.height f.top
    width := floorMul m.width f.width
    height := floorMul m.height f.height }

/-- "Mask shape": the two shapes used by the variants of product.controller.js. -/
inductive MaskShape where
  | radialFaceWithNeck : MaskShape
  | linearTopWithCenterRadial : MaskShape
  deriving DecidableEq, Repr

/-- The saturation rule of the colour matcher: "a simple threshold rule" or "a second
ratio computed from a second channel, similarly clamped". -/
inductive SaturationRule where
  | threshold (cut above otherwise : JSNum) : SaturationRule
  | secondChannel (channel : Nat) (scale lo hi : JSNum) : SaturationRule

/-- The constants of the colour matcher (4.3).  `sample` holds the fractions of the
sub-rectangle of the target region whose statistics are the reference; without it the
reference is the whole target image.  `brightnessScale` damps the ratio before the
clamp. -/
structure ColourConfig where
  sample : Option Fractions
  brightnessScale : Option JSNum
  brightnessLo : JSNum
  brightnessHi : JSNum
  saturation : SaturationRule
  hue : Option JSNum

/-- "`PipelineConfig`": region fractions, mask shape and filter constants. -/
structure PipelineConfig where
  source : Fractions
  target : Fractions
  preBrightness : JSNum
  preSaturation : JSNum
  preHue : Option JSNum
  medianSize : Nat
  sharpenSigma : JSNum
  colour : ColourConfig
  blurSigma : JSNum
  mask : MaskShape
  finalBrightness : JSNum
  finalSaturation : JSNum
  finalSharpenSigma : JSNum

/-- "`generateMask(width, height, shape)`" (4.2), by the generators of the source. -/
def generateMask (sharp : Sharp) (width height : Nat) : MaskShape → Except Error Buffer
  | .radialFaceWithNeck => ProductController.createTransparentSeamlessMask sharp width height
  | .linearTopWithCenterRadial => ProductController.createPerfectShoulderMask sharp width height

/-- The reference statistics: of the sampled sub-rectangle of the target region, or of
the whole target image. -/
def referenceStats (sharp : Sharp) (sample : Option Fractions) (target : Buffer)
    (targetRegion : Region) : Except Error Stats :=
  match sample with
  | some f =>
    sharp.stats (.buffer target)
      [.extract
        { left := targetRegion.left + floorMul targetRegion.width f.left
          top := targetRegion.top + floorMul targetRegion.height f.top
          width := floorMul targetRegion.width f.width
          height := floorMul targetRegion.height f.height }]
  | none => sharp.stats (.buffer target) []

/-- "Clamps `ratio`", after the optional damping. -/
def brightness (c : ColourConfig) (ratio : JSNum) : JSNum :=
  let damped :=
    match c.brightnessScale with
    | some k => JSNum.mul ratio k
    | none => ratio
  JSNum.min (JSNum.max damped c.brightnessLo) c.brightnessHi

/-- "`matchColor`" (4.3): ratio of the channel means, clamp, saturation rule, applied
with `modulate`; on any failure the unmodified source image. -/
def matchColor (sharp : Sharp) (c : ColourConfig) (source target : Buffer)
    (targetRegion : Region) : Except Error Buffer :=
  jsTry
    (do
      let targetStats ← referenceStats sharp c.sample target targetRegion
      let sourceStats ← sharp.stats (.buffer source) []
      let targetMean ← targetStats.channelMean 0
      let sourceMean ← sourceStats.channelMean 0
      let ratio := JSNum.div targetMean sourceMean
      let saturation ←
        match c.saturation with
        | .threshold cut above otherwise =>
          pure (if JSNum.gt ratio cut then above else otherwise)
        | .secondChannel channel scale lo hi => do
          let targetMean2 ← targetStats.channelMean channel
          let sourceMean2 ← sourceStats.channelMean channel
          pure (JSNum.min (JSNum.max (JSNum.mul (JSNum.div targetMean2 sourceMean2) scale) lo) hi)
      sharp.toBuffer (.buffer source) [.modulate (brightness c ratio) saturation c.hue])
    (fun _ => .ok source)

/-- The pipeline of section 4.4, steps 1 to 10, for one configuration. -/
def pipeline (sharp : Sharp) (cfg : PipelineConfig) (face target : Buffer) :
    Except Error Buffer := do
  -- 1: decode both inputs
  let faceMetadata ← sharp.metadata (.buffer face)
  let targetMetadata ← sharp.metadata (.buffer target)
  -- 2, 3: source region, extraction, denoise before sharpen
  let extracted ← sharp.toBuffer (.buffer face)
    [ .extract (computeRegion faceMetadata cfg.source),
      .modulate cfg.preBrightness cfg.preSaturation cfg.preHue,
      .median cfg.medianSize,
      .sharpen cfg.sharpenSigma (JSNum.lit 5 10) (JSNum.lit 2 1) ]
  -- 4: target region
  let targetRegion := computeRegion targetMetadata cfg.target
  -- 5: colour matcher
  let matched ← matchColor sharp cfg.colour extracted target targetRegion
  -- 6: resize to exactly the target region
  let resized ← sharp.toBuffer (.buffer matched)
    [.resize targetRegion.width targetRegion.height .fill true false, .blur cfg.blurSigma]
  -- 7: mask sized to the resized extraction, multiplied into its alpha channel
  let mask ← generateMask sharp targetRegion.width targetRegion.height cfg.mask
  let masked ← sharp.toBuffer (.buffer resized) [.composite mask none none .destIn]
  -- 8, 9, 10: source-over composite, final nudge and sharpen, lossless encoding
  sharp.toBuffer (.buffer target)
    [ .composite masked (some targetRegion.left) (some targetRegion.top) .over,
      .modulate cfg.finalBrightness cfg.finalSaturation none,
      .sharpen cfg.finalSharpenSigma (JSNum.lit 5 10) (JSNum.lit 2 1),
      .png (some 100) (some 6) (some true) ]

/-- The configuration of the seamless variant (`performEnhancedFaceReplacement`). -/
def seamlessConfig : PipelineConfig :=
  { source := ⟨JS.lit 1 10, JS.lit 2 100, JS.lit 8 10, JS.lit 9 10⟩
    target := ⟨JS.lit 25 100, JS.lit 2 100, JS.lit 5 10, JS.lit 65 100⟩
    preBrightness := JSNum.lit 101 100
    preSaturation := JSNum.lit 99 100
    preHue := some (.fin 0)
    medianSize := 1
    sharpenSigma := JSNum.lit 8 10
    colour :=
      { sample := some ⟨JS.lit 3 10, JS.lit 7 10, JS.lit 4 10, JS.lit 2 10⟩
        brightnessScale := none
        brightnessLo := JSNum.lit 8 10
        brightnessHi := JSNum.lit 12 10
        saturation := .threshold (JSNum.lit 11 10) (JSNum.lit 95 100) (JSNum.lit 105 100)
        hue := some (.fin 0) }
    blurSigma := JSNum.lit 3 10
    mask := .radialFaceWithNeck
    finalBrightness := JSNum.lit 1002 1000
    finalSaturation := JSNum.lit 1005 1000
    finalSharpenSigma := JSNum.lit 4 10 }

/-- The configuration of the advanced variant (`performAdvancedShoulderMatching`). -/
def advancedConfig : PipelineConfig :=
  { source := ⟨JS.lit 5 100, JS.lit 1 100, JS.lit 9 10, JS.lit 95 100⟩
    target := ⟨JS.lit 2 10, JS.lit 1 100, JS.lit 6 10, JS.lit 7 10⟩
    preBrightness := JSNum.lit 1005 1000
    preSaturation := JSNum.lit 995 1000
    preHue := none
    medianSize := 1
    sharpenSigma := JSNum.lit 6 10
    colour :=
      { sample := none
        brightnessScale := some (JSNum.lit 9 10)
        brightnessLo := JSNum.lit 85 100
        brightnessHi := JSNum.lit 115 100
        saturation := .secondChannel 1 (JSNum.lit 95 100) (JSNum.lit 9 10) (JSNum.lit 11 10)
        hue := none }
    blurSigma := JSNum.lit 3 10
    mask := .linearTopWithCenterRadial
    finalBrightness := JSNum.lit 1001 1000
    finalSaturation := JSNum.lit 1002 1000
    finalSharpenSigma := JSNum.lit 3 10 }

end Spec


/-! ## Which sizes a pipeline asks of the library -/

/-- The image generated by `sharp(...)` from SVG text or from `create` has the given
size; an encoded buffer is not a generated image. -/
def SharpInput.generatedAt (width height : Nat) : SharpInput → Prop
  | .buffer _ => True
  | .svg doc => doc.width = width ∧ doc.height = height
  | .create w h _ _ _ _ _ => w = width ∧ h = height

/-- The operation, if it is a `resize`, resizes to the given size. -/
def SharpOp.resizesTo (width height : Nat) : SharpOp → Prop
  | .resize w h _ _ _ => w = width ∧ h = height
  | _ => True

/-- Two `sharp` libraries that behave alike on every image whose generated masks have
the size `maskWidth x maskHeight` and whose resizes go to `resizeWidth x resizeHeight`;
they may differ on masks and resizes of any other size. -/
def Sharp.agreeOn (maskWidth maskHeight resizeWidth resizeHeight : Nat) (s s' : Sharp) :
    Prop :=
  s.metadata = s'.metadata ∧ s.stats = s'.stats ∧
    ∀ input ops, input.generatedAt maskWidth maskHeight →
      (∀ op ∈ ops, op.resizesTo resizeWidth resizeHeight) →
      s.toBuffer input ops = s'.toBuffer input ops


/-! ## Pixels: what `composite` does to an image -/

/-- One RGBA pixel. -/
structure Pixel where
  r : Nat
  g : Nat
  b : Nat
  alpha : Nat
  deriving DecidableEq, Repr

/-- A decoded image: its size and its pixels (column `x`, row `y`). -/
structure Raster where
  width : Nat
  height : Nat
  pixel : Nat → Nat → Pixel

/-- The pixels of `sharp(target).composite([{ input: overlay, left, top, blend }])`: the
result has the size of the target; inside the rectangle that the overlay covers, at
offset `(left, top)`, a pixel is the blend of the target pixel and the overlay pixel;
everywhere else it is the target pixel. -/
def Raster.composite (target overlay : Raster) (left top : Nat)
    (blend : Pixel → Pixel → Pixel) : Raster :=
  { width := target.width
    height := target.height
    pixel := fun x y =>
      if left ≤ x ∧ x < left + overlay.width ∧ top ≤ y ∧ y < top + overlay.height then
        blend (target.pixel x y) (overlay.pixel (x - left) (y - top))
      else target.pixel x y }


/-! ## The request handlers

The handlers talk to external collaborators: the product store, the remote fetch,
the file system and the Cloudinary upload.  A handler run is modelled by its response
together with the list of collaborator calls it made, in order. -/

/-- A stored product: the only field that is read is `image` (`none` when unset). -/
structure Product where
  image : Option String
  deriving DecidableEq, Repr

/-- What `fetch(url)` resolves to: `ok`, `statusText`, and what `response.buffer()`
resolves or rejects to. -/
structure FetchResponse where
  ok : Bool
  statusText : String
  buffer : Except Error Buffer

/-- What `cloudinary.uploader.upload` resolves to. -/
structure UploadResponse where
  secure_url : String
  deriving DecidableEq, Repr

/-- The external collaborators of a request. -/
structure World where
  sharp : Sharp
  findById : String → Except Error (Option Product)
  bufferFromBase64 : String → Buffer
  fetch : String → Except Error FetchResponse
  now : Nat
  mkdir : String → Except Error Unit
  writeFile : String → Buffer → Except Error Unit
  upload : String → String → Except Error UploadResponse

/-- A call to a collaborator. -/
inductive Event where
  | findById (id : String) : Event
  | fetch (url : String) : Event
  | pipeline (userFaceBuffer productImageBuffer : Buffer) : Event
  | mkdir (path : String) : Event
  | writeFile (path : String) (data : Buffer) : Event
  | upload (path : String) (folder : String) : Event
  | unlink (path : String) : Event
  deriving DecidableEq, Repr

/-- The JSON body of a response. -/
inductive ResponseBody where
  | message (message : String) : ResponseBody
  | failure (message : String) (error : String) : ResponseBody
  | success (imageUrl : String) (success : Bool) (message : String) : ResponseBody
  deriving DecidableEq, Repr

/-- A response: `res.status(status).json(body)`; `res.json(body)` has status 200. -/
structure Response where
  status : Nat
  body : ResponseBody
  deriving DecidableEq, Repr

/-- The body of a request: the two fields that are read (`none` when absent). -/
structure Request where
  faceImageBase64 : Option String
  productId : Option String
  deriving DecidableEq, Repr

/-- JavaScript `!x` for a field that is absent or a string. -/
def falsy : Option String → Bool
  | none => true
  | some s => s == ""

/-- A computation that has run: its result, or the error it threw, and the collaborator
calls it made. -/
structure Traced (α : Type) where
  result : Except Error α
  trace : List Event

namespace Traced

/-- A computation that makes no call. -/
def ret {α : Type} (a : α) : Traced α := { result := .ok a, trace := [] }

/-- Sequencing: the second computation runs only if the first did not throw. -/
def andThen {α β : Type} (x : Traced α) (f : α → Traced β) : Traced β :=
  match x.result with
  | .ok a => { result := (f a).result, trace := x.trace ++ (f a).trace }
  | .error e => { result := .error e, trace := x.trace }

/-- One call to a collaborator. -/
def call {α : Type} (event : Event) (outcome : Except Error α) : Traced α :=
  { result := outcome, trace := [event] }

/-- A step that makes no call but may throw. -/
def step {α : Type} (outcome : Except Error α) : Traced α :=
  { result := outcome, trace := [] }

/-- `try { body } catch (error) { handler error }`. -/
def tryCatch {α : Type} (body : Traced α) (handler : Error → Traced α) : Traced α :=
  match body.result with
  | .ok a => { result := .ok a, trace := body.trace }
  | .error e => { result := (handler e).result, trace := body.trace ++ (handler e).trace }

end Traced

/-- `path.join(dir, "downloads", file)`. -/
def tempPath (dir file : String) : String := dir ++ "/downloads/" ++ file

/-- `path.dirname(tempFilePath)` of a path built by `tempPath`. -/
def downloadsDir (dir : String) : String := dir ++ "/downloads"

/-- `fetchProductImageBuffer` (product.controller.js, lines 654-665; the same text in
enhanced-cutout-controller.js, lines 170-181). -/
def fetchProductImageBuffer (world : World) (imageUrl : String) : Traced Buffer :=
  Traced.tryCatch
    (Traced.andThen (Traced.call (.fetch imageUrl) (world.fetch imageUrl)) fun response =>
      if !response.ok then
        Traced.step (.error ("Failed to fetch product image: " ++ response.statusText))
      else
        Traced.step response.buffer)
    (fun error => Traced.step (.error error))

namespace ProductController

/-- The module constant `__dirname` (product.controller.js, lines 10-11). -/
def __dirname : Except Error String := .ok "backend/controllers"

/-- `seamlessFaceReplacement` (product.controller.js, lines 14-63). -/
def seamlessFaceReplacement (world : World) (req : Request) : Traced Response :=
  Traced.tryCatch
    (if falsy req.faceImageBase64 || falsy req.productId then
      Traced.ret { status := 400, body := .message "Missing faceImageBase64 or productId" }
    else
      let faceImageBase64 := req.faceImageBase64.getD ""
      let productId := req.productId.getD ""
      Traced.andThen (Traced.call (.findById productId) (world.findById productId)) fun product =>
      if product.isNone || falsy (product.bind Product.image) then
        Traced.ret { status := 404, body := .message "Product not found or missing image" }
      else
        let image := (product.bind Product.image).getD ""
        let userFaceBuffer := world.bufferFromBase64 faceImageBase64
        Traced.andThen (fetchProductImageBuffer world image) fun productImageBuffer =>
        Traced.andThen
          (Traced.call (.pipeline userFaceBuffer productImageBuffer)
            (performEnhancedFaceReplacement world.sharp userFaceBuffer productImageBuffer))
          fun replacedImageBuffer =>
        Traced.andThen (Traced.step __dirname) fun dir =>
        let tempFilePath := tempPath dir ("enhanced_face_" ++ toString world.now ++ ".png")
        Traced.andThen
          (Traced.call (.mkdir (downloadsDir dir)) (world.mkdir (downloadsDir dir))) fun _ =>
        Traced.andThen
          (Traced.call (.writeFile tempFilePath replacedImageBuffer)
            (world.writeFile tempFilePath replacedImageBuffer)) fun _ =>
        Traced.andThen
          (Traced.call (.upload tempFilePath "enhanced-face-replacement")
            (world.upload tempFilePath "enhanced-face-replacement")) fun cloudinaryResponse =>
        Traced.andThen (Traced.call (.unlink tempFilePath) (.ok ())) fun _ =>
        Traced.ret
          { status := 200
            body := .success cloudinaryResponse.secure_url true
              "Enhanced face replacement completed successfully" })
    (fun error =>
      Traced.ret
        { status := 500, body := .failure "Server error during face replacement" error })

/-- `advancedSeamlessReplacement` (product.controller.js, lines 326-372). -/
def advancedSeamlessReplacement (world : World) (req : Request) : Traced Response :=
  Traced.tryCatch
    (if falsy req.faceImageBase64 || falsy req.productId then
      Traced.ret { status := 400, body := .message "Missing required parameters" }
    else
      let faceImageBase64 := req.faceImageBase64.getD ""
      let productId := req.productId.getD ""
      Traced.andThen (Traced.call (.findById productId) (world.findById productId)) fun product =>
      if product.isNone || falsy (product.bind Product.image) then
        Traced.ret { status := 404, body := .message "Product not found" }
      else
        let image := (product.bind Product.image).getD ""
        let userFaceBuffer := world.bufferFromBase64 faceImageBase64
        Traced.andThen (fetchProductImageBuffer world image) fun productImageBuffer =>
        Traced.andThen
          (Traced.call (.pipeline userFaceBuffer productImageBuffer)
            (performAdvancedShoulderMatching world.sharp userFaceBuffer productImageBuffer))
          fun result =>
        Traced.andThen (Traced.step __dirname) fun dir =>
        let tempFilePath := tempPath dir ("advanced_shoulder_" ++ toString world.now ++ ".png")
        Traced.andThen
          (Traced.call (.mkdir (downloadsDir dir)) (world.mkdir (downloadsDir dir))) fun _ =>
        Traced.andThen
          (Traced.call (.writeFile tempFilePath result) (world.writeFile tempFilePath result))
          fun _ =>
        Traced.andThen
          (Traced.call (.upload tempFilePath "advanced-shoulder-matching")
            (world.upload tempFilePath "advanced-shoulder-matching")) fun cloudinaryResponse =>
        Traced.andThen (Traced.call (.unlink tempFilePath) (.ok ())) fun _ =>
        Traced.ret
          { status := 200
            body := .success cloudinaryResponse.secure_url true
              "Advanced shoulder matching completed" })
    (fun error =>
      Traced.ret { status := 500, body := .failure "Advanced shoulder matching failed" error })

end ProductController

namespace EnhancedCutoutController

/-- The identifier `__dirname` in enhanced-cutout-controller.js: the file is an ES
module and, unlike product.controller.js, declares no such constant, so evaluating
the identifier throws a `ReferenceError`. -/
def __dirname : Except Error String := .error "__dirname is not defined"

/-- `precisionFaceNeckCutout` (enhanced-cutout-controller.js, lines 9-57). -/
def precisionFaceNeckCutout (world : World) (req : Request) : Traced Response :=
  Traced.tryCatch
    (if falsy req.faceImageBase64 || falsy req.productId then
      Traced.ret { status := 400, body := .message "Missing faceImageBase64 or productId" }
    else
      let faceImageBase64 := req.faceImageBase64.getD ""
      let productId := req.productId.getD ""
      Traced.andThen (Traced.call (.findById productId) (world.findById productId)) fun product =>
      if product.isNone || falsy (product.bind Product.image) then
        Traced.ret { status := 404, body := .message "Product not found or missing image" }
      else
        let image := (product.bind Product.image).getD ""
        let userFaceBuffer := world.bufferFromBase64 faceImageBase64
        Traced.andThen (fetchProductImageBuffer world image) fun productImageBuffer =>
        Traced.andThen
          (Traced.call (.pipeline userFaceBuffer productImageBuffer)
            (performOrganicFaceReplacement world.sharp userFaceBuffer productImageBuffer))
          fun result =>
        Traced.andThen (Traced.step __dirname) fun dir =>
        let tempFilePath := tempPath dir ("organic_replacement_" ++ toString world.now ++ ".png")
        Traced.andThen
          (Traced.call (.mkdir (downloadsDir dir)) (world.mkdir (downloadsDir dir))) fun _ =>
        Traced.andThen
          (Traced.call (.writeFile tempFilePath result) (world.writeFile tempFilePath result))
          fun _ =>
        Traced.andThen
          (Traced.call (.upload tempFilePath "organic-replacements")
            (world.upload tempFilePath "organic-replacements")) fun cloudinaryResponse =>
        Traced.andThen (Traced.call (.unlink tempFilePath) (.ok ())) fun _ =>
        Traced.ret
          { status := 200
            body := .success cloudinaryResponse.secure_url true
              "Organic face replacement completed successfully - NO BORDERS!" })
    (fun error =>
      Traced.ret
        { status := 500, body := .failure "Server error during organic replacement" error })

end EnhancedCutoutController

/-! ## middleware/auth.middleware.js -/

namespace AuthMiddleware

/-- A thrown JavaScript error: its `name` and `message`. -/
structure JsError where
  name : String
  message : String
  deriving DecidableEq, Repr

/-- A user document; `role` is the only field the middleware reads. -/
structure User where
  id : String
  role : String
  deriving DecidableEq, Repr

/-- The payload returned by `jwt.verify`; `userId` may be missing. -/
structure Decoded where
  userId : Option String
  deriving DecidableEq, Repr

/-- The parts of the request the middleware reads: `req.headers.authorization` and
`req.user`. -/
structure Req where
  authorization : Option String
  user : Option User
  deriving DecidableEq, Repr

/-- The collaborators: `jwt.verify(token, process.env.JWT_SECRET)` and
`User.findById(id).select("-password")`.  Each may throw. -/
structure Collaborators where
  verify : Option String → Except JsError Decoded
  findById : Option String → Except JsError (Option User)

/-- What a middleware does to the outside. -/
inductive Effect where
  | setUser (user : User) : Effect
  | next : Effect
  | consoleError (message : String) : Effect
  | respond (status : Nat) (message : String) : Effect
  deriving DecidableEq, Repr

/-- `protectRoute` (auth.middleware.js, lines 4-34): the effects, in order. -/
def protectRoute (c : Collaborators) (req : Req) : List Effect :=
  let outer : Except JsError (List Effect) :=
    match req.authorization with
    | none => .ok [.respond 401 "Unauthorized - No access token provided"]
    | some authHeader =>
      if authHeader = "" ∨ ¬ authHeader.startsWith "Bearer " then
        .ok [.respond 401 "Unauthorized - No access token provided"]
      else
        let token := (authHeader.splitOn " ").get? 1
        let inner : Except JsError (List Effect) := do
          let decoded ← c.verify token
          let user ← c.findById decoded.userId
          match user with
          | none => pure [.respond 401 "Unauthorized - User not found"]
          | some user => pure [.setUser user, .next]
        match inner with
        | .ok effects => .ok effects
        | .error err =>
          if err.name = "TokenExpiredError" then
            .ok [.respond 401 "Unauthorized - Token expired"]
          else .error err
  match outer with
  | .ok effects => effects
  | .error err =>
    [.consoleError ("Protect route error: " ++ err.message),
      .respond 401 "Unauthorized - Invalid token"]

/-- `adminRoute` (auth.middleware.js, lines 36-42): the effects, in order. -/
def adminRoute (req : Req) : List Effect :=
  match req.user with
  | some user =>
    if user.role = "admin" then [.next]
    else [.respond 403 "Access denied - Admin only"]
  | none => [.respond 403 "Access denied - Admin only"]

/-- The request as the next handler sees it, when the middleware called `next`. -/
def passedOn (req : Req) : List Effect → Option Req
  | [] => none
  | .setUser user :: rest => passedOn { req with user := some user } rest
  | .next :: _ => some req
  | _ :: rest => passedOn req rest

end AuthMiddleware

/-! ## routes/product.route.js -/

namespace ProductRoute

/-- HTTP methods used by the router. -/
inductive Method where
  | get | post | put | patch | delete
  deriving DecidableEq, Repr

/-- The functions that can be registered on a route: the controllers of
product.controller.js and the two middlewares of auth.middleware.js. -/
inductive Handler where
  | getAllProducts | getFeaturedProducts | getProductsByCategory | getRecommendedProducts
  | getProductById | seamlessFaceReplacement | advancedSeamlessReplacement
  | createProduct | updateProduct | toggleFeaturedProduct | deleteProduct
  | protectRoute | adminRoute
  deriving DecidableEq, Repr

/-- One segment of a route path: a literal or a `:parameter`. -/
inductive Segment where
  | lit (text : String) : Segment
  | param (name : String) : Segment
  deriving DecidableEq, Repr

/-- A registered route: `router.METHOD(path, ...handlers)`. -/
structure Route where
  method : Method
  path : List Segment
  handlers : List Handler
  deriving DecidableEq, Repr

/-- The routes of product.route.js in registration order (lines 19-35). -/
def router : List Route :=
  [ ⟨.get, [], [.getAllProducts]⟩,
    ⟨.get, [.lit "featured"], [.getFeaturedProducts]⟩,
    ⟨.get, [.lit "category", .param "category"], [.getProductsByCategory]⟩,
    ⟨.get, [.lit "recommendations"], [.getRecommendedProducts]⟩,
    ⟨.get, [.param "id"], [.getProductById]⟩,
    ⟨.post, [.lit "seamless-face-replacement"], [.seamlessFaceReplacement]⟩,
    ⟨.post, [.lit "advanced-seamless-replacement"], [.advancedSeamlessReplacement]⟩,
    ⟨.post, [], [.createProduct]⟩,
    ⟨.put, [.param "id"], [.updateProduct]⟩,
    ⟨.patch, [.param "id"], [.toggleFeaturedProduct]⟩,
    ⟨.delete, [.param "id"], [.deleteProduct]⟩ ]

/-- Express path matching, segment by segment: a literal matches itself, a parameter
matches any one segment.  Literals are compared as written, while Express by default
ignores case, and a parameter is not required to be non-empty; neither matters for the
paths `/` and `/:id` of the admin routes. -/
def pathMatches : List Segment → List String → Bool
  | [], [] => true
  | .lit text :: ps, s :: ss => text == s && pathMatches ps ss
  | .param _ :: ps, _ :: ss => pathMatches ps ss
  | _, _ => false

/-- The handlers of a route that get invoked for a request, in order: a middleware hands
the request on only by calling `next`; a controller answers and never calls `next`. -/
def invoked (c : AuthMiddleware.Collaborators) :
    List Handler → AuthMiddleware.Req → List Handler
  | [], _ => []
  | .protectRoute :: rest, req =>
    .protectRoute ::
      (match AuthMiddleware.passedOn req (AuthMiddleware.protectRoute c req) with
        | some req' => invoked c rest req'
        | none => [])
  | .adminRoute :: rest, req =>
    .adminRoute ::
      (match AuthMiddleware.passedOn req (AuthMiddleware.adminRoute req) with
        | some req' => invoked c rest req'
        | none => [])
  | controller :: _, _ => [controller]

/-- The handlers invoked by the router for a request: those of the first route whose
method and path match. -/
def dispatch (c : AuthMiddleware.Collaborators) (method : Method) (path : List String)
    (req : AuthMiddleware.Req) : List Handler :=
  match router.find?
      (fun route => decide (route.method = method) && pathMatches route.path path) with
  | some route => invoked c route.handlers req
  | none => []

end ProductRoute


/-! ## Concrete collaborators used to instantiate the theorems -/

namespace Example

/-- The face image handed to the colour matchers. -/
def face : Buffer := [0]

/-- The product image. -/
def product : Buffer := [1]

/-- The output of a successful `modulate`. -/
def modulated : Buffer := [2]

/-- Statistics with the same mean in three channels. -/
def statsOf (mean : JSNum) : Stats := { channels := [⟨mean⟩, ⟨mean⟩, ⟨mean⟩] }

/-- A `sharp` whose images are 800 x 1000, whose statistics report `faceMean` for the
face image and `productMean` for anything else, and whose output is always
`modulated`. -/
def sharp (productMean faceMean : JSNum) : Sharp :=
  { metadata := fun _ => .ok { width := 800, height := 1000 }
    stats := fun input _ =>
      match input with
      | .buffer [0] => .ok (statsOf faceMean)
      | _ => .ok (statsOf productMean)
    toBuffer := fun _ _ => .ok modulated }

/-- Statistics with mean 100 in every channel. -/
def stats100 : Stats := statsOf (.fin (JS.ofNat 100))

/-- A `sharp` that reports mean 100 for every image. -/
def sharp100 : Sharp := sharp (.fin (JS.ofNat 100)) (.fin (JS.ofNat 100))

/-- The analysis of the 800 x 1000 product image by `analyzeProductImageExtended`. -/
def analysis : ProductController.ProductAnalysis :=
  { metadata := { width := 800, height := 1000 }
    modelFaceRegion := { left := 200, top := 20, width := 400, height := 650 }
    aspectRatio := JSNum.div (.fin (JS.ofNat 400)) (.fin (JS.ofNat 650)) }

end Example

namespace Example

/-- A world in which every collaborator succeeds: product `"p1"` has the image
`"http://img/p1.png"`, the fetch answers 200 with the product image, and the upload
returns a URL. -/
def world : World :=
  { sharp := sharp100
    findById := fun id =>
      if id = "p1" then .ok (some { image := some "http://img/p1.png" }) else .ok none
    bufferFromBase64 := fun _ => face
    fetch := fun _ => .ok { ok := true, statusText := "OK", buffer := .ok product }
    now := 1700000000000
    mkdir := fun _ => .ok ()
    writeFile := fun _ _ => .ok ()
    upload := fun _ _ => .ok { secure_url := "https://res.cloudinary.com/demo/result.png" } }

/-- A request for product `"p1"`. -/
def request : Request := { faceImageBase64 := some "aGVsbG8=", productId := some "p1" }

end Example

namespace Example

/-- A world whose fetch answers 200 but whose body download fails. -/
def worldBodyFails : World :=
  { world with
    fetch := fun _ => .ok { ok := true, statusText := "OK", buffer := .error "Premature close" } }

/-- A world whose fetch answers 404. -/
def worldNotFound : World :=
  { world with
    fetch := fun _ => .ok { ok := false, statusText := "Not Found", buffer := .ok [] } }

end Example

/-! ## Further concrete collaborators -/

namespace Example

/-- A `sharp` whose images all have the given size; statistics report mean 100 whatever
the chain of operations, and every output is `modulated`. -/
def sharpOfSize (width height : Nat) : Sharp :=
  { metadata := fun _ => .ok { width := width, height := height }
    stats := fun _ _ => .ok stats100
    toBuffer := fun _ _ => .ok modulated }

/-- A `sharp` whose images all have the given size and whose statistics of an empty
extracted rectangle fail, as an extraction of zero pixels does. -/
def sharpEmptyExtractFails (width height : Nat) : Sharp :=
  { metadata := fun _ => .ok { width := width, height := height }
    stats := fun _ ops =>
      match ops with
      | [.extract r] =>
        if r.width = 0 ∨ r.height = 0 then .error "extract_area: bad extract area"
        else .ok stats100
      | _ => .ok stats100
    toBuffer := fun _ _ => .ok modulated }

/-- A `sharp` in which no region can be extracted: every chain that starts with
`extract` fails; everything else succeeds. -/
def sharpNoExtract : Sharp :=
  { metadata := fun _ => .ok { width := 800, height := 1000 }
    stats := fun _ _ => .ok stats100
    toBuffer := fun _ ops =>
      match ops with
      | .extract _ :: _ => .error "extract_area: bad extract area"
      | _ => .ok modulated }

/-- A `sharp` for a 400 x 400 face image and an 800 x 1000 product image. -/
def sharpTwoSizes : Sharp :=
  { metadata := fun input =>
      match input with
      | .buffer [0] => .ok { width := 400, height := 400 }
      | _ => .ok { width := 800, height := 1000 }
    stats := fun _ _ => .ok stats100
    toBuffer := fun _ _ => .ok modulated }

/-- The same library, except that it cannot render an SVG of 400 x 400. -/
def sharpNoFaceSizedSvg : Sharp :=
  { sharpTwoSizes with
    toBuffer := fun input _ =>
      match input with
      | .svg doc =>
        if doc.width = 400 ∧ doc.height = 400 then
          .error "Input buffer contains unsupported image format"
        else .ok modulated
      | _ => .ok modulated }

/-- The same library, except that it cannot render an SVG of 1 x 1. -/
def sharpNoUnitSvg : Sharp :=
  { sharpTwoSizes with
    toBuffer := fun input _ =>
      match input with
      | .svg doc =>
        if doc.width = 1 ∧ doc.height = 1 then
          .error "Input buffer contains unsupported image format"
        else .ok modulated
      | _ => .ok modulated }

/-- An image of one colour. -/
def solid (width height : Nat) (colour : Pixel) : Raster :=
  { width := width, height := height, pixel := fun _ _ => colour }

/-- The colour of the target image of the scenario. -/
def targetColour : Pixel := { r := 200, g := 180, b := 160, alpha := 255 }

/-- The colour of the face image of the scenario. -/
def faceColour : Pixel := { r := 90, g := 60, b := 50, alpha := 255 }

/-- A blend that keeps nothing of the target: the overlay pixel replaces it. -/
def replaceBlend (_target overlay : Pixel) : Pixel := overlay

/-- A request that carries no credentials at all. -/
def anonymous : AuthMiddleware.Req := { authorization := none, user := none }

end Example

/-! ## Rounding lemmas -/

namespace JS

theorem one_pos : 0 < one := by decide

theorem bitLength_zero (fuel : Nat) : bitLength fuel 0 = 0 := by
  cases fuel <;> simp [bitLength]

theorem bitLength_spec (fuel : Nat) : ∀ n : Nat, n ≤ fuel → n ≠ 0 →
    2 ^ (bitLength fuel n - 1) ≤ n ∧ n < 2 ^ bitLength fuel n := by
  induction fuel with
  | zero => intro n h hn; omega
  | succ fuel ih =>
    intro n h hn
    simp only [bitLength, hn, if_false, Nat.shiftLeft_eq, one_mul, Nat.shiftRight_eq_div_pow]
    split_ifs with hbig
    · have hq : n / 2 ^ 64 ≠ 0 := by
        have : 0 < n / 2 ^ 64 := Nat.div_pos hbig (by positivity)
        omega
      have hle : n / 2 ^ 64 ≤ fuel := by
        have : n / 2 ^ 64 < n := Nat.div_lt_self (by omega) (by norm_num)
        omega
      obtain ⟨h1, h2⟩ := ih _ hle hq
      have hb : 1 ≤ bitLength fuel (n / 2 ^ 64) := by
        by_contra hc
        have h0 : bitLength fuel (n / 2 ^ 64) = 0 := by omega
        rw [h0] at h2
        simp at h2
        exact hq h2
      have hmul : n / 2 ^ 64 * 2 ^ 64 ≤ n := Nat.div_mul_le_self _ _
      have hlt : n < (n / 2 ^ 64 + 1) * 2 ^ 64 := by
        have := Nat.lt_div_mul_add (a := n) (b := 2 ^ 64) (by positivity)
        linarith
      constructor
      · have : bitLength fuel (n / 2 ^ 64) + 64 - 1 = (bitLength fuel (n / 2 ^ 64) - 1) + 64 := by
          omega
        rw [this, pow_add]
        calc 2 ^ (bitLength fuel (n / 2 ^ 64) - 1) * 2 ^ 64 ≤ n / 2 ^ 64 * 2 ^ 64 :=
              Nat.mul_le_mul_right _ h1
          _ ≤ n := hmul
      · rw [pow_add]
        calc n < (n / 2 ^ 64 + 1) * 2 ^ 64 := hlt
          _ ≤ 2 ^ bitLength fuel (n / 2 ^ 64) * 2 ^ 64 := Nat.mul_le_mul_right _ h2
    · by_cases hq : n / 2 = 0
      · have h1 : n = 1 := by omega
        subst h1
        simp [bitLength_zero]
      · have hle : n / 2 ≤ fuel := by omega
        obtain ⟨h1, h2⟩ := ih _ hle hq
        have hb : 1 ≤ bitLength fuel (n / 2) := by
          by_contra hc
          have h0 : bitLength fuel (n / 2) = 0 := by omega
          rw [h0] at h2
          simp at h2
          exact hq h2
        constructor
        · have : bitLength fuel (n / 2) + 1 - 1 = (bitLength fuel (n / 2) - 1) + 1 := by omega
          rw [this, pow_succ]
          omega
        · rw [pow_succ]
          omega

theorem size_spec (n : Nat) (hn : n ≠ 0) : 2 ^ (size n - 1) ≤ n ∧ n < 2 ^ size n :=
  bitLength_spec n n le_rfl hn

theorem near_aux (n D m : Nat) (hD : 0 < D)
    (hm : (m = n / D ∧ 2 * (n % D) ≤ D) ∨ (m = n / D + 1 ∧ D ≤ 2 * (n % D))) :
    2 * (D * m) ≤ 2 * n + D ∧ 2 * n ≤ 2 * (D * m) + D := by
  have hdm : D * (n / D) + n % D = n := Nat.div_add_mod n D
  have hlt : n % D < D := Nat.mod_lt n hD
  rcases hm with ⟨rfl, h⟩ | ⟨rfl, h⟩
  · constructor <;> omega
  · rw [Nat.mul_add, Nat.mul_one]
    constructor <;> omega

/-- The rounded value is within half a spacing of the exact quotient. -/
theorem roundNearestEven_near (n d : Nat) (hd : 0 < d) :
    2 * (roundNearestEven n d * d) ≤ 2 * n + d * 2 ^ (size (n / d) - 53) ∧
    2 * n ≤ 2 * (roundNearestEven n d * d) + d * 2 ^ (size (n / d) - 53) := by
  have hDpos : 0 < d * 2 ^ (size (n / d) - 53) := by positivity
  have hform : ∀ m : Nat, m * 2 ^ (size (n / d) - 53) * d = d * 2 ^ (size (n / d) - 53) * m := by
    intro m; ring
  simp only [roundNearestEven, Nat.shiftLeft_eq, hform]
  apply near_aux n _ _ hDpos
  split_ifs with h1 h2 h3
  · left; exact ⟨rfl, by omega⟩
  · right; exact ⟨rfl, by omega⟩
  · left; exact ⟨rfl, by omega⟩
  · right; exact ⟨rfl, by omega⟩

/-- In the normal range the spacing is at most `2 ^ (-52)` times the value. -/
theorem spacing_le (n d : Nat) (h : 2 ^ 52 * d ≤ n) :
    d * 2 ^ (size (n / d) - 53) * 2 ^ 52 ≤ n := by
  by_cases hs : size (n / d) - 53 = 0
  · rw [hs]; simp; linarith
  · have hf : n / d ≠ 0 := by
      intro h0
      rw [h0] at hs
      simp [size, bitLength_zero] at hs
    obtain ⟨h1, _⟩ := size_spec (n / d) hf
    have hexp : size (n / d) - 53 + 52 = size (n / d) - 1 := by omega
    have h2 : 2 ^ (size (n / d) - 53) * 2 ^ 52 ≤ n / d := by
      rw [← pow_add, hexp]; exact h1
    calc d * 2 ^ (size (n / d) - 53) * 2 ^ 52
        = (2 ^ (size (n / d) - 53) * 2 ^ 52) * d := by ring
      _ ≤ n / d * d := Nat.mul_le_mul_right _ h2
      _ ≤ n := Nat.div_mul_le_self _ _

/-- Relative error of rounding in the normal range: at most `2 ^ (-53)`. -/
theorem roundNearestEven_rel (n d : Nat) (hd : 0 < d) (h : 2 ^ 52 * d ≤ n) :
    roundNearestEven n d * d * 2 ^ 53 ≤ n * (2 ^ 53 + 1) ∧
    n * (2 ^ 53 - 1) ≤ roundNearestEven n d * d * 2 ^ 53 := by
  obtain ⟨h1, h2⟩ := roundNearestEven_near n d hd
  have h3 := spacing_le n d h
  constructor
  · nlinarith
  · have : n * (2 ^ 53 - 1) + n = n * 2 ^ 53 := by
      have : (2 : Nat) ^ 53 - 1 + 1 = 2 ^ 53 := by norm_num
      calc n * (2 ^ 53 - 1) + n = n * (2 ^ 53 - 1 + 1) := by ring
        _ = n * 2 ^ 53 := by rw [this]
    nlinarith

end JS

/-! ## Rounding: exact values -/

namespace JS

theorem oneExponent_eq : oneExponent = 1074 := rfl

theorem one_eq_pow : one = 2 ^ oneExponent := Nat.one_shiftLeft oneExponent

/-- The mantissa chosen by `roundNearestEven` is the floor of the scaled quotient or
its successor. -/
theorem roundNearestEven_ge_floor (n d : Nat) :
    n / (d * 2 ^ (size (n / d) - 53)) * 2 ^ (size (n / d) - 53) ≤ roundNearestEven n d := by
  simp only [roundNearestEven, Nat.shiftLeft_eq]
  apply Nat.mul_le_mul_right
  split_ifs <;> omega

/-- Rounding never goes below a whole number `j < 2 ^ 53` that the exact quotient
reaches: such a number is representable. -/
theorem roundNearestEven_ge (n d j : Nat) (hd : 0 < d) (hj : j < 2 ^ 53)
    (h : j * one * d ≤ n) : j * one ≤ roundNearestEven n d := by
  refine le_trans ?_ (roundNearestEven_ge_floor n d)
  have hE := oneExponent_eq
  by_cases hs : size (n / d) - 53 ≤ oneExponent
  · have hone : one = 2 ^ (oneExponent - (size (n / d) - 53)) * 2 ^ (size (n / d) - 53) := by
      rw [← pow_add, one_eq_pow]
      congr 1
      omega
    have hk : j * 2 ^ (oneExponent - (size (n / d) - 53)) ≤
        n / (d * 2 ^ (size (n / d) - 53)) := by
      rw [Nat.le_div_iff_mul_le (by positivity)]
      calc j * 2 ^ (oneExponent - (size (n / d) - 53)) * (d * 2 ^ (size (n / d) - 53))
          = j * (2 ^ (oneExponent - (size (n / d) - 53)) * 2 ^ (size (n / d) - 53)) * d := by
            ring
        _ = j * one * d := by rw [← hone]
        _ ≤ n := h
    calc j * one
        = j * 2 ^ (oneExponent - (size (n / d) - 53)) * 2 ^ (size (n / d) - 53) := by
          rw [hone]; ring
      _ ≤ n / (d * 2 ^ (size (n / d) - 53)) * 2 ^ (size (n / d) - 53) :=
          Nat.mul_le_mul_right _ hk
  · have hf : n / d ≠ 0 := by
      intro h0
      rw [h0] at hs
      simp [size, bitLength_zero] at hs
    obtain ⟨h1, _⟩ := size_spec (n / d) hf
    have hq : 2 ^ 52 ≤ n / (d * 2 ^ (size (n / d) - 53)) := by
      rw [← Nat.div_div_eq_div_mul, Nat.le_div_iff_mul_le (by positivity), ← pow_add]
      have : 52 + (size (n / d) - 53) = size (n / d) - 1 := by omega
      rw [this]
      exact h1
    have hpow : (2 : Nat) ^ (size (n / d) - 53) =
        2 ^ (size (n / d) - 53 - (oneExponent + 1)) * 2 ^ (oneExponent + 1) := by
      rw [← pow_add]
      congr 1
      omega
    have hbig : j * one ≤ 2 ^ 52 * 2 ^ (oneExponent + 1) := by
      rw [one_eq_pow]
      have : (2 : Nat) ^ 52 * 2 ^ (oneExponent + 1) = 2 ^ 53 * 2 ^ oneExponent := by
        rw [pow_succ]; ring
      rw [this]
      exact Nat.mul_le_mul_right _ hj.le
    calc j * one ≤ 2 ^ 52 * 2 ^ (oneExponent + 1) := hbig
      _ ≤ 2 ^ 52 * (2 ^ (size (n / d) - 53 - (oneExponent + 1)) * 2 ^ (oneExponent + 1)) := by
          apply Nat.mul_le_mul_left
          exact Nat.le_mul_of_pos_left _ (by positivity)
      _ = 2 ^ 52 * 2 ^ (size (n / d) - 53) := by rw [hpow]
      _ ≤ n / (d * 2 ^ (size (n / d) - 53)) * 2 ^ (size (n / d) - 53) :=
          Nat.mul_le_mul_right _ hq

end JS


namespace JS

/-- The choice of mantissa when the exact value lies less than half a spacing below a
multiple `k` of the spacing: the mantissa is `k`. -/
theorem mantissa_eq (x D k e : Nat) (hD : 0 < D) (hx : x + e = k * D) (he : 2 * e < D) :
    (if 2 * (x % D) < D then x / D
      else if D < 2 * (x % D) then x / D + 1
      else if x / D % 2 = 0 then x / D else x / D + 1) = k := by
  by_cases he0 : e = 0
  · subst he0
    have hxk : x = k * D := by omega
    subst hxk
    rw [Nat.mul_mod_left, Nat.mul_div_cancel _ hD]
    simp [hD]
  · have hk : 1 ≤ k := by
      by_contra hcon
      have : k = 0 := by omega
      subst this
      omega
    have hdm : x / D = k - 1 ∧ x % D = D - e := by
      rw [Nat.div_mod_unique hD]
      constructor
      · have : D * (k - 1) + D = k * D := by
          calc D * (k - 1) + D = D * (k - 1 + 1) := by ring
            _ = D * k := by rw [Nat.sub_add_cancel hk]
            _ = k * D := by ring
        omega
      · omega
    rw [hdm.1, hdm.2]
    rw [if_neg (by omega), if_pos (by omega)]
    omega

/-- A product that lies below a whole number `E`, by at most a relative `2 ^ (-54)`,
rounds to `E`. -/
theorem roundNearestEven_eq (v E : Nat) (hbelow : v ≤ E * one)
    (hnear : (E * one - v) * 2 ^ 54 ≤ v) (hbound : v < 2 ^ 53 * one) :
    roundNearestEven (v * one) one = E * one := by
  have hone := one_pos
  have hE := oneExponent_eq
  have hdiv : v * one / one = v := Nat.mul_div_cancel _ hone
  by_cases hv : v = 0
  · subst hv
    have hE0 : E * one = 0 := by omega
    rw [hE0]
    decide
  have hsz := size_spec v hv
  -- the exponent of the spacing is at most that of `one`
  have hs : size v - 53 ≤ oneExponent := by
    have h1 : 2 ^ (size v - 1) < 2 ^ (53 + oneExponent) := by
      calc 2 ^ (size v - 1) ≤ v := hsz.1
        _ < 2 ^ 53 * one := hbound
        _ = 2 ^ (53 + oneExponent) := by rw [one_eq_pow, pow_add]
    have h2 := (Nat.pow_lt_pow_iff_right (by norm_num : 1 < 2)).mp h1
    omega
  have hone' : one = 2 ^ (oneExponent - (size v - 53)) * 2 ^ (size v - 53) := by
    rw [← pow_add, one_eq_pow]
    congr 1
    omega
  have hgap : 2 * (E * one - v) < 2 ^ (size v - 53) := by
    have h1 : (E * one - v) * 2 ^ 54 < 2 ^ (size v - 53) * 2 ^ 53 := by
      calc (E * one - v) * 2 ^ 54 ≤ v := hnear
        _ < 2 ^ size v := hsz.2
        _ ≤ 2 ^ (size v - 53 + 53) := Nat.pow_le_pow_right (by norm_num) (by omega)
        _ = 2 ^ (size v - 53) * 2 ^ 53 := by rw [pow_add]
    have h2 : (E * one - v) * 2 ^ 54 = 2 * (E * one - v) * 2 ^ 53 := by ring
    rw [h2] at h1
    exact Nat.lt_of_mul_lt_mul_right h1
  have hm := mantissa_eq (v * one) (one * 2 ^ (size v - 53))
    (E * 2 ^ (oneExponent - (size v - 53))) (one * (E * one - v))
    (Nat.mul_pos hone (Nat.pos_pow_of_pos _ (by norm_num)))
    (by
      have h3 : E * 2 ^ (oneExponent - (size v - 53)) * (one * 2 ^ (size v - 53)) =
          one * (E * one) := by
        calc E * 2 ^ (oneExponent - (size v - 53)) * (one * 2 ^ (size v - 53))
            = E * one * (2 ^ (oneExponent - (size v - 53)) * 2 ^ (size v - 53)) := by ring
          _ = E * one * one := by rw [← hone']
          _ = one * (E * one) := by ring
      have h4 : v + (E * one - v) = E * one := by omega
      rw [h3, Nat.mul_comm v one, ← Nat.mul_add, h4])
    (by
      calc 2 * (one * (E * one - v)) = one * (2 * (E * one - v)) := by ring
        _ < one * 2 ^ (size v - 53) := Nat.mul_lt_mul_of_pos_left hgap hone)
  simp only [roundNearestEven, Nat.shiftLeft_eq, hdiv]
  rw [hm]
  calc E * 2 ^ (oneExponent - (size v - 53)) * 2 ^ (size v - 53)
      = E * (2 ^ (oneExponent - (size v - 53)) * 2 ^ (size v - 53)) := by ring
    _ = E * one := by rw [← hone']

end JS

/-! ## Region calculators -/

/-- `floorMul n c` is at most `n * c * (1 + 2 ^ (-53))`, for a constant in the normal
range. -/
theorem floorMul_le (n c : Nat) (hn : 1 ≤ n) (hc : 2 ^ 52 ≤ c) :
    floorMul n c * JS.one * 2 ^ 53 ≤ n * c * (2 ^ 53 + 1) := by
  unfold floorMul JS.ofNat
  have hone := JS.one_pos
  have hnorm : 2 ^ 52 * JS.one ≤ n * JS.one * c := by
    calc 2 ^ 52 * JS.one ≤ c * JS.one := Nat.mul_le_mul_right _ hc
      _ = 1 * JS.one * c := by ring
      _ ≤ n * JS.one * c := by
        apply Nat.mul_le_mul_right
        exact Nat.mul_le_mul_right _ hn
  obtain ⟨h1, _⟩ := JS.roundNearestEven_rel (n * JS.one * c) JS.one hone hnorm
  have h2 : JS.roundNearestEven (n * JS.one * c) JS.one / JS.one * JS.one
      ≤ JS.roundNearestEven (n * JS.one * c) JS.one := Nat.div_mul_le_self _ _
  have h3 : JS.roundNearestEven (n * JS.one * c) JS.one / JS.one * JS.one * JS.one * 2 ^ 53
      ≤ n * JS.one * c * (2 ^ 53 + 1) := by
    calc JS.roundNearestEven (n * JS.one * c) JS.one / JS.one * JS.one * JS.one * 2 ^ 53
        ≤ JS.roundNearestEven (n * JS.one * c) JS.one * JS.one * 2 ^ 53 := by
          apply Nat.mul_le_mul_right
          exact Nat.mul_le_mul_right _ h2
      _ ≤ n * JS.one * c * (2 ^ 53 + 1) := h1
  have h4 : (JS.roundNearestEven (n * JS.one * c) JS.one / JS.one * JS.one * 2 ^ 53) * JS.one
      ≤ (n * c * (2 ^ 53 + 1)) * JS.one := by
    calc (JS.roundNearestEven (n * JS.one * c) JS.one / JS.one * JS.one * 2 ^ 53) * JS.one
        = JS.roundNearestEven (n * JS.one * c) JS.one / JS.one * JS.one * JS.one * 2 ^ 53 := by
          ring
      _ ≤ n * JS.one * c * (2 ^ 53 + 1) := h3
      _ = (n * c * (2 ^ 53 + 1)) * JS.one := by ring
  exact Nat.le_of_mul_le_mul_right h4 hone

/-- Two floored products stay inside the dimension when the two constants add up to
at most `1 - 2 ^ (-52)`. -/
theorem floorMul_add_le (n c₁ c₂ : Nat) (hn : 1 ≤ n) (h₁ : 2 ^ 52 ≤ c₁) (h₂ : 2 ^ 52 ≤ c₂)
    (hsum : (c₁ + c₂) * (2 ^ 53 + 1) ≤ JS.one * 2 ^ 53) :
    floorMul n c₁ + floorMul n c₂ ≤ n := by
  have a₁ := floorMul_le n c₁ hn h₁
  have a₂ := floorMul_le n c₂ hn h₂
  have hone := JS.one_pos
  have h : (floorMul n c₁ + floorMul n c₂) * (JS.one * 2 ^ 53) ≤ n * (JS.one * 2 ^ 53) := by
    calc (floorMul n c₁ + floorMul n c₂) * (JS.one * 2 ^ 53)
        = floorMul n c₁ * JS.one * 2 ^ 53 + floorMul n c₂ * JS.one * 2 ^ 53 := by ring
      _ ≤ n * c₁ * (2 ^ 53 + 1) + n * c₂ * (2 ^ 53 + 1) := Nat.add_le_add a₁ a₂
      _ = n * ((c₁ + c₂) * (2 ^ 53 + 1)) := by ring
      _ ≤ n * (JS.one * 2 ^ 53) := Nat.mul_le_mul_left _ hsum
  exact Nat.le_of_mul_le_mul_right h (Nat.mul_pos hone (by norm_num))

theorem region_within (W H l t w h : Nat) (hW : 1 ≤ W) (hH : 1 ≤ H)
    (hx : axisOk l w) (hy : axisOk t h) :
    Region.within
      { left := floorMul W l, top := floorMul H t, width := floorMul W w,
        height := floorMul H h } W H := by
  refine ⟨Nat.zero_le _, Nat.zero_le _, ?_, ?_⟩
  · exact floorMul_add_le W l w hW hx.1 hx.2.1 hx.2.2
  · exact floorMul_add_le H t h hH hy.1 hy.2.1 hy.2.2

theorem analyzeUserImageExtended_ok (sharp : Sharp) (buf : Buffer) (m : Metadata)
    (hmeta : sharp.metadata (.buffer buf) = .ok m) :
    ProductController.analyzeUserImageExtended sharp buf = .ok
      { metadata := m
        faceRegion :=
          { left := floorMul m.width (JS.lit 1 10), top := floorMul m.height (JS.lit 2 100),
            width := floorMul m.width (JS.lit 8 10), height := floorMul m.height (JS.lit 9 10) }
        aspectRatio :=
          JSNum.div (.fin (JS.ofNat (floorMul m.width (JS.lit 8 10))))
            (.fin (JS.ofNat (floorMul m.height (JS.lit 9 10)))) } := by
  simp [ProductController.analyzeUserImageExtended, hmeta, jsTry, bind, Except.bind, pure, Except.pure]

theorem analyzeProductImageExtended_ok (sharp : Sharp) (buf : Buffer) (m : Metadata)
    (hmeta : sharp.metadata (.buffer buf) = .ok m) :
    ProductController.analyzeProductImageExtended sharp buf = .ok
      { metadata := m
        modelFaceRegion :=
          { left := floorMul m.width (JS.lit 25 100), top := floorMul m.height (JS.lit 2 100),
            width := floorMul m.width (JS.lit 5 10), height := floorMul m.height (JS.lit 65 100) }
        aspectRatio :=
          JSNum.div (.fin (JS.ofNat (floorMul m.width (JS.lit 5 10))))
            (.fin (JS.ofNat (floorMul m.height (JS.lit 65 100)))) } := by
  simp [ProductController.analyzeProductImageExtended, hmeta, jsTry, bind, Except.bind, pure, Except.pure]

theorem analyzeUserImageForShoulders_ok (sharp : Sharp) (buf : Buffer) (m : Metadata)
    (hmeta : sharp.metadata (.buffer buf) = .ok m) :
    ProductController.analyzeUserImageForShoulders sharp buf = .ok
      { metadata := m
        faceRegion :=
          { left := floorMul m.width (JS.lit 5 100), top := floorMul m.height (JS.lit 1 100),
            width := floorMul m.width (JS.lit 9 10), height := floorMul m.height (JS.lit 95 100) }
        aspectRatio :=
          JSNum.div (.fin (JS.ofNat (floorMul m.width (JS.lit 9 10))))
            (.fin (JS.ofNat (floorMul m.height (JS.lit 95 100)))) } := by
  simp [ProductController.analyzeUserImageForShoulders, hmeta, jsTry, bind, Except.bind, pure, Except.pure]

theorem analyzeProductImageForShoulders_ok (sharp : Sharp) (buf : Buffer) (m : Metadata)
    (hmeta : sharp.metadata (.buffer buf) = .ok m) :
    ProductController.analyzeProductImageForShoulders sharp buf = .ok
      { metadata := m
        modelFaceRegion :=
          { left := floorMul m.width (JS.lit 2 10), top := floorMul m.height (JS.lit 1 100),
            width := floorMul m.width (JS.lit 6 10), height := floorMul m.height (JS.lit 7 10) }
        aspectRatio :=
          JSNum.div (.fin (JS.ofNat (floorMul m.width (JS.lit 6 10))))
            (.fin (JS.ofNat (floorMul m.height (JS.lit 7 10)))) } := by
  simp [ProductController.analyzeProductImageForShoulders, hmeta, jsTry, bind, Except.bind, pure, Except.pure]

/-- C1: for every image width `W ≥ 1` and height `H ≥ 1` reported by `sharp`, every
region calculator succeeds and its region satisfies `left ≥ 0`, `top ≥ 0`,
`left + width ≤ W` and `top + height ≤ H`; so does the target box of the organic
variant. -/
theorem C1_regions_within_image (sharp : Sharp) (buf : Buffer) (W H : Nat)
    (hW : 1 ≤ W) (hH : 1 ≤ H)
    (hmeta : sharp.metadata (.buffer buf) = .ok { width := W, height := H }) :
    (∃ a, ProductController.analyzeUserImageExtended sharp buf = .ok a ∧
      a.faceRegion.within W H) ∧
    (∃ a, ProductController.analyzeProductImageExtended sharp buf = .ok a ∧
      a.modelFaceRegion.within W H) ∧
    (∃ a, ProductController.analyzeUserImageForShoulders sharp buf = .ok a ∧
      a.faceRegion.within W H) ∧
    (∃ a, ProductController.analyzeProductImageForShoulders sharp buf = .ok a ∧
      a.modelFaceRegion.within W H) ∧
    (EnhancedCutoutController.organicTarget { width := W, height := H }).within W H :=
  ⟨⟨_, analyzeUserImageExtended_ok sharp buf _ hmeta,
      region_within W H _ _ _ _ hW hH (by decide) (by decide)⟩,
    ⟨_, analyzeProductImageExtended_ok sharp buf _ hmeta,
      region_within W H _ _ _ _ hW hH (by decide) (by decide)⟩,
    ⟨_, analyzeUserImageForShoulders_ok sharp buf _ hmeta,
      region_within W H _ _ _ _ hW hH (by decide) (by decide)⟩,
    ⟨_, analyzeProductImageForShoulders_ok sharp buf _ hmeta,
      region_within W H _ _ _ _ hW hH (by decide) (by decide)⟩,
    region_within W H _ _ _ _ hW hH (by decide) (by decide)⟩

/-- C1 (witness): an 800 x 1000 image. -/
theorem C1_regions_within_image_witness :
    (1 ≤ 800 ∧ 1 ≤ 1000 ∧
      Example.sharp100.metadata (.buffer Example.face) = .ok { width := 800, height := 1000 }) ∧
    ((∃ a, ProductController.analyzeUserImageExtended Example.sharp100 Example.face = .ok a ∧
      a.faceRegion.within 800 1000) ∧
    (∃ a, ProductController.analyzeProductImageExtended Example.sharp100 Example.face = .ok a ∧
      a.modelFaceRegion.within 800 1000) ∧
    (∃ a, ProductController.analyzeUserImageForShoulders Example.sharp100 Example.face = .ok a ∧
      a.faceRegion.within 800 1000) ∧
    (∃ a, ProductController.analyzeProductImageForShoulders Example.sharp100 Example.face =
        .ok a ∧
      a.modelFaceRegion.within 800 1000) ∧
    (EnhancedCutoutController.organicTarget { width := 800, height := 1000 }).within 800 1000) :=
  ⟨⟨by decide, by decide, rfl⟩,
    C1_regions_within_image Example.sharp100 Example.face 800 1000 (by decide) (by decide) rfl⟩

/-! ## `Math.floor(n * c)`: exact values -/

theorem floorMul_zero (c : Nat) : floorMul 0 c = 0 := by
  have h : JS.ofNat 0 * c = 0 := by simp [JS.ofNat]
  unfold floorMul
  rw [h]
  decide

/-- `Math.floor(n * c)` reaches every whole number `j < 2 ^ 53` that the exact product
reaches. -/
theorem floorMul_ge (n c j : Nat) (hj : j < 2 ^ 53) (h : j * JS.one ≤ n * c) :
    j ≤ floorMul n c := by
  unfold floorMul JS.ofNat
  rw [Nat.le_div_iff_mul_le JS.one_pos]
  apply JS.roundNearestEven_ge _ _ _ JS.one_pos hj
  calc j * JS.one * JS.one ≤ n * c * JS.one := Nat.mul_le_mul_right _ h
    _ = n * JS.one * c := by ring

/-- Upper half of the comparison with the exact floor: for a constant `c` that is the
decimal `p / q` up to a relative `2 ^ (-53)`, and a product below `2 ^ 52`,
`Math.floor(n * c) ≤ floor(n * p / q)`. -/
theorem floorMul_le_exact (n c p q : Nat) (hq : 0 < q) (hn : 1 ≤ n) (hc : 2 ^ 52 ≤ c)
    (hlit : c * q * 2 ^ 53 ≤ p * JS.one * (2 ^ 53 + 1))
    (hsmall : n * p * (2 ^ 54 + 1) < 2 ^ 106) :
    floorMul n c ≤ n * p / q := by
  have hone := JS.one_pos
  have h1 := floorMul_le n c hn hc
  rw [Nat.le_div_iff_mul_le hq]
  have h2 : floorMul n c * q * 2 ^ 106 * JS.one ≤ (n * p * (2 ^ 106 + 2 ^ 54 + 1)) * JS.one := by
    calc floorMul n c * q * 2 ^ 106 * JS.one
        = (floorMul n c * JS.one * 2 ^ 53) * (q * 2 ^ 53) := by ring
      _ ≤ (n * c * (2 ^ 53 + 1)) * (q * 2 ^ 53) := Nat.mul_le_mul_right _ h1
      _ = n * (2 ^ 53 + 1) * (c * q * 2 ^ 53) := by ring
      _ ≤ n * (2 ^ 53 + 1) * (p * JS.one * (2 ^ 53 + 1)) := Nat.mul_le_mul_left _ hlit
      _ = (n * p * (2 ^ 106 + 2 ^ 54 + 1)) * JS.one := by ring
  have h3 := Nat.le_of_mul_le_mul_right h2 hone
  by_contra hcon
  have h4 : n * p + 1 ≤ floorMul n c * q := by omega
  have h5 : (n * p + 1) * 2 ^ 106 ≤ floorMul n c * q * 2 ^ 106 := Nat.mul_le_mul_right _ h4
  have h6 : n * p * (2 ^ 106 + 2 ^ 54 + 1) = n * p * 2 ^ 106 + n * p * (2 ^ 54 + 1) := by ring
  have h7 : (n * p + 1) * 2 ^ 106 = n * p * 2 ^ 106 + 2 ^ 106 := by ring
  omega

/-- Lower half: `floor(n * p / q) ≤ Math.floor(n * c) + 1`, and
`floor(n * p / q) ≤ Math.floor(n * c)` when `n * p / q` is not a whole number. -/
theorem floorMul_ge_exact (n c p q : Nat) (hq : 0 < q) (hn : 1 ≤ n) (hc : 2 ^ 52 ≤ c)
    (hlit : p * JS.one * (2 ^ 53 - 1) ≤ c * q * 2 ^ 53)
    (hsmall : n * p * 2 ^ 54 ≤ 2 ^ 106) :
    n * p / q ≤ floorMul n c + 1 ∧ (n * p % q ≠ 0 → n * p / q ≤ floorMul n c) := by
  have hone := JS.one_pos
  have hnorm : 2 ^ 52 * JS.one ≤ n * JS.one * c := by
    calc 2 ^ 52 * JS.one ≤ c * JS.one := Nat.mul_le_mul_right _ hc
      _ = 1 * JS.one * c := by ring
      _ ≤ n * JS.one * c := by
        apply Nat.mul_le_mul_right
        exact Nat.mul_le_mul_right _ hn
  obtain ⟨_, hlow⟩ := JS.roundNearestEven_rel (n * JS.one * c) JS.one hone hnorm
  have hfl : JS.roundNearestEven (n * JS.one * c) JS.one < (floorMul n c + 1) * JS.one := by
    unfold floorMul JS.ofNat
    have hdm := Nat.div_add_mod (JS.roundNearestEven (n * JS.one * c) JS.one) JS.one
    have hlt := Nat.mod_lt (JS.roundNearestEven (n * JS.one * c) JS.one) hone
    calc JS.roundNearestEven (n * JS.one * c) JS.one
        = JS.one * (JS.roundNearestEven (n * JS.one * c) JS.one / JS.one) +
          JS.roundNearestEven (n * JS.one * c) JS.one % JS.one := hdm.symm
      _ < JS.one * (JS.roundNearestEven (n * JS.one * c) JS.one / JS.one) + JS.one := by omega
      _ = (JS.roundNearestEven (n * JS.one * c) JS.one / JS.one + 1) * JS.one := by ring
  -- n * p * (2 ^ 53 - 1) ^ 2 < (floorMul n c + 1) * q * 2 ^ 106
  have h1 : n * p * ((2 ^ 53 - 1) * (2 ^ 53 - 1)) * (JS.one * JS.one) <
      (floorMul n c + 1) * q * 2 ^ 106 * (JS.one * JS.one) := by
    calc n * p * ((2 ^ 53 - 1) * (2 ^ 53 - 1)) * (JS.one * JS.one)
        = n * JS.one * (2 ^ 53 - 1) * (p * JS.one * (2 ^ 53 - 1)) := by ring
      _ ≤ n * JS.one * (2 ^ 53 - 1) * (c * q * 2 ^ 53) := Nat.mul_le_mul_left _ hlit
      _ = (n * JS.one * c * (2 ^ 53 - 1)) * (q * 2 ^ 53) := by ring
      _ ≤ (JS.roundNearestEven (n * JS.one * c) JS.one * JS.one * 2 ^ 53) * (q * 2 ^ 53) :=
          Nat.mul_le_mul_right _ hlow
      _ = JS.roundNearestEven (n * JS.one * c) JS.one * (JS.one * q * 2 ^ 106) := by ring
      _ < (floorMul n c + 1) * JS.one * (JS.one * q * 2 ^ 106) := by
          apply Nat.mul_lt_mul_of_pos_right hfl
          exact Nat.mul_pos (Nat.mul_pos hone hq) (by norm_num)
      _ = (floorMul n c + 1) * q * 2 ^ 106 * (JS.one * JS.one) := by ring
  have h2 := Nat.lt_of_mul_lt_mul_right h1
  have h3 : ((2 : Nat) ^ 53 - 1) * (2 ^ 53 - 1) + 2 ^ 54 = 2 ^ 106 + 1 := by norm_num
  have h4 : n * p * 2 ^ 106 + n * p =
      n * p * ((2 ^ 53 - 1) * (2 ^ 53 - 1)) + n * p * 2 ^ 54 := by
    calc n * p * 2 ^ 106 + n * p = n * p * (2 ^ 106 + 1) := by ring
      _ = n * p * ((2 ^ 53 - 1) * (2 ^ 53 - 1) + 2 ^ 54) := by rw [h3]
      _ = n * p * ((2 ^ 53 - 1) * (2 ^ 53 - 1)) + n * p * 2 ^ 54 := by ring
  -- hence n * p ≤ (floorMul n c + 1) * q
  have h5 : n * p ≤ (floorMul n c + 1) * q := by
    by_contra hcon
    have h6 : ((floorMul n c + 1) * q + 1) * 2 ^ 106 ≤ n * p * 2 ^ 106 :=
      Nat.mul_le_mul_right _ (by omega)
    have h7 : ((floorMul n c + 1) * q + 1) * 2 ^ 106 =
        (floorMul n c + 1) * q * 2 ^ 106 + 2 ^ 106 := by ring
    omega
  have hdm := Nat.div_add_mod (n * p) q
  have hml := Nat.mod_lt (n * p) hq
  constructor
  · by_contra hcon
    have h8 : floorMul n c + 2 ≤ n * p / q := by omega
    have h9 : q * (floorMul n c + 2) ≤ q * (n * p / q) := Nat.mul_le_mul_left _ h8
    have h10 : q * (floorMul n c + 2) = (floorMul n c + 1) * q + q := by ring
    omega
  · intro hrem
    by_contra hcon
    have h8 : floorMul n c + 1 ≤ n * p / q := by omega
    have h9 : q * (floorMul n c + 1) ≤ q * (n * p / q) := Nat.mul_le_mul_left _ h8
    have h10 : q * (floorMul n c + 1) = (floorMul n c + 1) * q := by ring
    omega

/-- When `n * p / q` is a whole number `E` and the constant is below `p / q` by at most
a relative `2 ^ (-54)`, the rounded product is `E` itself. -/
theorem floorMul_eq_of_dvd (n c p q E : Nat) (hq : 0 < q) (hE : E * q = n * p)
    (hle : c * q ≤ p * JS.one) (hnear : (p * JS.one - c * q) * 2 ^ 54 ≤ c * q)
    (hbound : n * c < 2 ^ 53 * JS.one) : floorMul n c = E := by
  have hone := JS.one_pos
  have hbelow : n * c ≤ E * JS.one := by
    have h : n * c * q ≤ E * JS.one * q := by
      calc n * c * q = n * (c * q) := by ring
        _ ≤ n * (p * JS.one) := Nat.mul_le_mul_left _ hle
        _ = n * p * JS.one := by ring
        _ = E * q * JS.one := by rw [hE]
        _ = E * JS.one * q := by ring
    exact Nat.le_of_mul_le_mul_right h hq
  have hgap : (E * JS.one - n * c) * 2 ^ 54 ≤ n * c := by
    have h : (E * JS.one - n * c) * 2 ^ 54 * q ≤ n * c * q := by
      have e1 : E * JS.one * q = n * (p * JS.one) := by
        calc E * JS.one * q = E * q * JS.one := by ring
          _ = n * p * JS.one := by rw [hE]
          _ = n * (p * JS.one) := by ring
      have e2 : n * c * q = n * (c * q) := by ring
      calc (E * JS.one - n * c) * 2 ^ 54 * q
          = (E * JS.one - n * c) * q * 2 ^ 54 := by ring
        _ = (E * JS.one * q - n * c * q) * 2 ^ 54 := by rw [Nat.sub_mul]
        _ = (n * (p * JS.one) - n * (c * q)) * 2 ^ 54 := by rw [e1, e2]
        _ = n * (p * JS.one - c * q) * 2 ^ 54 := by rw [Nat.mul_sub]
        _ = n * ((p * JS.one - c * q) * 2 ^ 54) := by ring
        _ ≤ n * (c * q) := Nat.mul_le_mul_left _ hnear
        _ = n * c * q := by ring
    exact Nat.le_of_mul_le_mul_right h hq
  have hr := JS.roundNearestEven_eq (n * c) E hbelow hgap hbound
  unfold floorMul JS.ofNat
  have hmul : n * JS.one * c = n * c * JS.one := by ring
  rw [hmul, hr, Nat.mul_div_cancel _ hone]

/-- `Math.floor(n * c)` is the exact floor of `n * p / q`, for a constant that is the
decimal `p / q` rounded and not below it by more than a relative `2 ^ (-54)`, and
`n < 2 ^ 45`. -/
theorem floorMul_eq_floor (n c p q : Nat) (hlit : litNear c p q)
    (hnear : litNotFarBelow c p q) (hn : n < 2 ^ 45) : floorMul n c = n * p / q := by
  obtain ⟨hq, hp, hc, hup, hlo⟩ := hlit
  have hone := JS.one_pos
  by_cases hn0 : n = 0
  · subst hn0
    rw [floorMul_zero]
    simp
  have hn1 : 1 ≤ n := by omega
  have hnp : n * p ≤ 2 ^ 45 * 100 := Nat.mul_le_mul hn.le hp
  have hsmall : n * p * (2 ^ 54 + 1) < 2 ^ 106 := by
    calc n * p * (2 ^ 54 + 1) ≤ 2 ^ 45 * 100 * (2 ^ 54 + 1) := Nat.mul_le_mul_right _ hnp
      _ < 2 ^ 106 := by norm_num
  have hsmall2 : n * p * 2 ^ 54 ≤ 2 ^ 106 := by
    calc n * p * 2 ^ 54 ≤ 2 ^ 45 * 100 * 2 ^ 54 := Nat.mul_le_mul_right _ hnp
      _ ≤ 2 ^ 106 := by norm_num
  have hupper := floorMul_le_exact n c p q hq hn1 hc hup hsmall
  apply le_antisymm hupper
  by_cases hge : p * JS.one ≤ c * q
  · -- the constant is not below the decimal
    apply floorMul_ge
    · have : n * p / q ≤ n * p := Nat.div_le_self _ _
      calc n * p / q ≤ n * p := this
        _ ≤ 2 ^ 45 * 100 := hnp
        _ < 2 ^ 53 := by norm_num
    · have h : n * p / q * JS.one * q ≤ n * c * q := by
        calc n * p / q * JS.one * q = n * p / q * q * JS.one := by ring
          _ ≤ n * p * JS.one := Nat.mul_le_mul_right _ (Nat.div_mul_le_self _ _)
          _ = n * (p * JS.one) := by ring
          _ ≤ n * (c * q) := Nat.mul_le_mul_left _ hge
          _ = n * c * q := by ring
      exact Nat.le_of_mul_le_mul_right h hq
  · by_cases hrem : n * p % q = 0
    · have hE : n * p / q * q = n * p := Nat.div_mul_cancel (Nat.dvd_of_mod_eq_zero hrem)
      have hcq : c * q ≤ p * JS.one := by omega
      have hc1 : c * q ≤ 100 * JS.one := le_trans hcq (Nat.mul_le_mul_right _ hp)
      have hbound : n * c < 2 ^ 53 * JS.one := by
        have h : n * c * q < 2 ^ 53 * JS.one * q := by
          calc n * c * q = n * (c * q) := by ring
            _ ≤ n * (p * JS.one) := Nat.mul_le_mul_left _ hcq
            _ = n * p * JS.one := by ring
            _ ≤ 2 ^ 45 * 100 * JS.one := Nat.mul_le_mul_right _ hnp
            _ < 2 ^ 53 * JS.one := Nat.mul_lt_mul_of_pos_right (by norm_num) hone
            _ ≤ 2 ^ 53 * JS.one * q := Nat.le_mul_of_pos_right _ hq
        exact Nat.lt_of_mul_lt_mul_right h
      exact (floorMul_eq_of_dvd n c p q _ hq hE hcq hnear hbound).ge
    · exact (floorMul_ge_exact n c p q hq hn1 hc hlo hsmall2).2 hrem

/-- `Math.floor(n * c)` is the exact floor of `n * p / q` or one less, the latter only
when `n * p / q` is a whole number. -/
theorem floorMul_near_floor (n c p q : Nat) (hlit : litNear c p q) (hn : n < 2 ^ 45) :
    floorMul n c ≤ n * p / q ∧ n * p / q ≤ floorMul n c + 1 ∧
      (n * p % q ≠ 0 → floorMul n c = n * p / q) := by
  obtain ⟨hq, hp, hc, hup, hlo⟩ := hlit
  by_cases hn0 : n = 0
  · subst hn0
    rw [floorMul_zero]
    simp
  have hn1 : 1 ≤ n := by omega
  have hnp : n * p ≤ 2 ^ 45 * 100 := Nat.mul_le_mul hn.le hp
  have hsmall : n * p * (2 ^ 54 + 1) < 2 ^ 106 := by
    calc n * p * (2 ^ 54 + 1) ≤ 2 ^ 45 * 100 * (2 ^ 54 + 1) := Nat.mul_le_mul_right _ hnp
      _ < 2 ^ 106 := by norm_num
  have hsmall2 : n * p * 2 ^ 54 ≤ 2 ^ 106 := by
    calc n * p * 2 ^ 54 ≤ 2 ^ 45 * 100 * 2 ^ 54 := Nat.mul_le_mul_right _ hnp
      _ ≤ 2 ^ 106 := by norm_num
  have hupper := floorMul_le_exact n c p q hq hn1 hc hup hsmall
  have hlower := floorMul_ge_exact n c p q hq hn1 hc hlo hsmall2
  exact ⟨hupper, hlower.1, fun h => le_antisymm hupper (hlower.2 h)⟩

/-- Two floored products stay inside the dimension, for every dimension. -/
theorem floorMul_add_le_all (n c₁ c₂ : Nat) (h : axisOk c₁ c₂) :
    floorMul n c₁ + floorMul n c₂ ≤ n := by
  by_cases hn0 : n = 0
  · subst hn0
    simp [floorMul_zero]
  · exact floorMul_add_le n c₁ c₂ (by omega) h.1 h.2.1 h.2.2

/-- Two floored products leave at least one unit of the dimension free, from the
dimension `k` on at which the exact products do. -/
theorem floorMul_add_lt (n k c₁ c₂ : Nat) (hk : 1 ≤ k) (hn : k ≤ n) (h₁ : 2 ^ 52 ≤ c₁)
    (h₂ : 2 ^ 52 ≤ c₂)
    (hsum : k * ((c₁ + c₂) * (2 ^ 53 + 1)) + JS.one * 2 ^ 53 ≤ k * (JS.one * 2 ^ 53)) :
    floorMul n c₁ + floorMul n c₂ + 1 ≤ n := by
  have hn1 : 1 ≤ n := le_trans hk hn
  have a₁ := floorMul_le n c₁ hn1 h₁
  have a₂ := floorMul_le n c₂ hn1 h₂
  have hone := JS.one_pos
  have hST : (c₁ + c₂) * (2 ^ 53 + 1) ≤ JS.one * 2 ^ 53 := by
    by_contra hcon
    have : k * (JS.one * 2 ^ 53) ≤ k * ((c₁ + c₂) * (2 ^ 53 + 1)) :=
      Nat.mul_le_mul_left _ (by omega)
    have hpos : 0 < JS.one * 2 ^ 53 := Nat.mul_pos hone (by norm_num)
    omega
  obtain ⟨d, rfl⟩ := Nat.exists_eq_add_of_le hn
  have hd : d * ((c₁ + c₂) * (2 ^ 53 + 1)) ≤ d * (JS.one * 2 ^ 53) := Nat.mul_le_mul_left _ hST
  have h : (floorMul (k + d) c₁ + floorMul (k + d) c₂ + 1) * (JS.one * 2 ^ 53) ≤
      (k + d) * (JS.one * 2 ^ 53) := by
    calc (floorMul (k + d) c₁ + floorMul (k + d) c₂ + 1) * (JS.one * 2 ^ 53)
        = floorMul (k + d) c₁ * JS.one * 2 ^ 53 + floorMul (k + d) c₂ * JS.one * 2 ^ 53 +
            JS.one * 2 ^ 53 := by ring
      _ ≤ (k + d) * c₁ * (2 ^ 53 + 1) + (k + d) * c₂ * (2 ^ 53 + 1) + JS.one * 2 ^ 53 :=
          Nat.add_le_add_right (Nat.add_le_add a₁ a₂) _
      _ = k * ((c₁ + c₂) * (2 ^ 53 + 1)) + JS.one * 2 ^ 53 +
            d * ((c₁ + c₂) * (2 ^ 53 + 1)) := by ring
      _ ≤ k * (JS.one * 2 ^ 53) + d * (JS.one * 2 ^ 53) := Nat.add_le_add hsum hd
      _ = (k + d) * (JS.one * 2 ^ 53) := by ring
  exact Nat.le_of_mul_le_mul_right h (Nat.mul_pos hone (by norm_num))

/-! ## Masks -/

namespace Svg

theorem over_one (a : ℚ) : over a 1 = 1 := by
  unfold over; ring

theorem over_zero (a : ℚ) : over a 0 = a := by
  unfold over; ring

theorem zero_over (b : ℚ) : over 0 b = b := by
  unfold over; ring

/-- The centre of a pixel of the image lies strictly inside the unit interval. -/
theorem centre_mem (n k : Nat) (hk : k < n) : 0 < centre n k ∧ centre n k < 1 := by
  unfold centre
  have hn : (0 : ℚ) < 2 * n := by
    have : (0 : ℚ) < n := by exact_mod_cast (by omega : 0 < n)
    linarith
  have hk' : (2 * k + 1 : ℚ) < 2 * n := by
    have : (k : ℚ) + 1 ≤ n := by exact_mod_cast hk
    linarith
  constructor
  · apply div_pos _ hn
    positivity
  · rw [div_lt_one hn]
    exact hk'

end Svg

/-- The shoulder mask is fully opaque wherever the point lies in the top 40% of the
height: the vertical gradient has opacity 1 there, and painting the ellipse over it
keeps it at 1. -/
theorem perfectShoulderMask_top (w h : Nat) (u v : ℚ) (hu0 : 0 ≤ u) (hu1 : u ≤ 1)
    (hv0 : 0 ≤ v) (hv : v ≤ 2 / 5) :
    Svg.opacityAt (ProductController.perfectShoulderMaskSvg w h).elements u v = 1 := by
  have hv1 : v ≤ 1 := by linarith
  have hrect : Svg.elementOpacity
      { shape := .rect 0 0 1 1,
        fill := .linearGradient 0 0 0 1
          [⟨0, 1⟩, ⟨40 / 100, 1⟩, ⟨70 / 100, 8 / 10⟩, ⟨90 / 100, 4 / 10⟩, ⟨1, 0⟩] } u v = 1 := by
    simp only [Svg.elementOpacity, Svg.paintOpacity, Svg.stopsOpacity]
    have hc : (0 : ℚ) ≤ u ∧ u ≤ 0 + 1 ∧ 0 ≤ v ∧ v ≤ 0 + 1 := ⟨hu0, by linarith, hv0, by linarith⟩
    rw [if_pos hc]
    have ht : ((u - 0) / 1 - 0) * (0 - 0) + ((v - 0) / 1 - 0) * (1 - 0) = v := by ring
    have hden : ((0 : ℚ) - 0) ^ 2 + (1 - 0) ^ 2 = 1 := by norm_num
    rw [ht, hden, div_one]
    split_ifs <;> first | rfl | (exfalso; linarith) | ring
  simp only [Svg.opacityAt, ProductController.perfectShoulderMaskSvg, List.foldl, hrect]
  rw [Svg.over_zero, Svg.over_one]

namespace Svg

theorem alpha8_one : alpha8 1 = 255 := by
  unfold alpha8
  rw [Nat.floor_eq_iff (by norm_num)]
  norm_num

/-- An opacity of at least `k / 255` is stored as an alpha of at least `k`. -/
theorem le_alpha8 (k : Nat) (o : ℚ) (h : (k : ℚ) ≤ o * 255) : k ≤ alpha8 o := by
  unfold alpha8
  apply Nat.le_floor
  linarith

/-- Painting over a pixel never lowers its opacity. -/
theorem le_over (a b : ℚ) (ha0 : 0 ≤ a) (hb1 : b ≤ 1) : b ≤ over a b := by
  unfold over
  have : 0 ≤ a * (1 - b) := mul_nonneg ha0 (by linarith)
  nlinarith

/-- The rounded-down square root stays below every bound whose square bounds the
argument. -/
theorem sqrtFix_le (x c : ℚ) (hc : 0 ≤ c) (hx : x ≤ c ^ 2) : sqrtFix x ≤ c := by
  unfold sqrtFix
  have h16 : (0 : ℚ) < 2 ^ 16 := by positivity
  rw [div_le_iff₀ h16]
  set n : ℕ := ⌊x * 2 ^ 32⌋₊ with hn
  by_contra hcon
  push_neg at hcon
  have hs : (Nat.sqrt n : ℚ) * (Nat.sqrt n : ℚ) ≤ (n : ℚ) := by
    exact_mod_cast Nat.sqrt_le n
  have hpos : 0 < (Nat.sqrt n : ℚ) := lt_of_le_of_lt (by positivity) hcon
  have hfpos : 0 < (n : ℚ) := lt_of_lt_of_le (by positivity) hs
  have hx0 : 0 ≤ x * 2 ^ 32 := by
    by_contra hneg
    push_neg at hneg
    have h0 : n = 0 := Nat.floor_of_nonpos hneg.le
    rw [h0] at hfpos
    simp at hfpos
  have hfl : (n : ℚ) ≤ x * 2 ^ 32 := Nat.floor_le hx0
  have hc2 : (c * 2 ^ 16) * (c * 2 ^ 16) < (Nat.sqrt n : ℚ) * (Nat.sqrt n : ℚ) :=
    mul_self_lt_mul_self (by positivity) hcon
  have hx2 : x * 2 ^ 32 ≤ c ^ 2 * 2 ^ 32 := by nlinarith
  have hsq : (c * 2 ^ 16) * (c * 2 ^ 16) = c ^ 2 * 2 ^ 32 := by ring
  linarith

end Svg

/-- Stops of `topGrad`: the opacity is at most 1, and at least 14/15 down to offset
50%. -/
theorem topGrad_stops (t : ℚ) :
    Svg.stopsOpacity
        [⟨0, 1⟩, ⟨40 / 100, 1⟩, ⟨70 / 100, 8 / 10⟩, ⟨90 / 100, 4 / 10⟩, ⟨1, 0⟩] t ≤ 1 ∧
    (t ≤ 1 / 2 → 14 / 15 ≤ Svg.stopsOpacity
        [⟨0, 1⟩, ⟨40 / 100, 1⟩, ⟨70 / 100, 8 / 10⟩, ⟨90 / 100, 4 / 10⟩, ⟨1, 0⟩] t) := by
  simp only [Svg.stopsOpacity]
  split_ifs <;> refine ⟨?_, ?_⟩ <;>
    first
    | linarith
    | (ring_nf; linarith)
    | (intro h; first | linarith | (ring_nf; linarith))

/-- Stops of `centerGrad`: the opacity stays in `[0, 1]`. -/
theorem centerGrad_stops (t : ℚ) :
    0 ≤ Svg.stopsOpacity [⟨0, 1⟩, ⟨70 / 100, 1⟩, ⟨90 / 100, 6 / 10⟩, ⟨1, 0⟩] t ∧
    Svg.stopsOpacity [⟨0, 1⟩, ⟨70 / 100, 1⟩, ⟨90 / 100, 6 / 10⟩, ⟨1, 0⟩] t ≤ 1 := by
  simp only [Svg.stopsOpacity]
  split_ifs <;> refine ⟨?_, ?_⟩ <;>
    first
    | linarith
    | (ring_nf; linarith)

/-- Stops of `faceGrad`: the opacity is at least 1/2 up to offset 90%. -/
theorem faceGrad_half (t : ℚ) (ht : t ≤ 9 / 10) :
    1 / 2 ≤ Svg.stopsOpacity
        [⟨0, 1⟩, ⟨60 / 100, 1⟩, ⟨80 / 100, 9 / 10⟩, ⟨95 / 100, 3 / 10⟩, ⟨1, 0⟩] t := by
  simp only [Svg.stopsOpacity]
  split_ifs <;>
    first
    | linarith
    | (ring_nf; linarith)

/-- The shoulder mask has opacity at least 14/15 wherever the point lies in the upper
half of the height. -/
theorem perfectShoulderMask_upper (w h : Nat) (u v : ℚ) (hu0 : 0 ≤ u) (hu1 : u ≤ 1)
    (hv0 : 0 ≤ v) (hv : v ≤ 1 / 2) :
    14 / 15 ≤ Svg.opacityAt (ProductController.perfectShoulderMaskSvg w h).elements u v := by
  have hc : (0 : ℚ) ≤ u ∧ u ≤ 0 + 1 ∧ 0 ≤ v ∧ v ≤ 0 + 1 := ⟨hu0, by linarith, hv0, by linarith⟩
  have ht : ((u - 0) / 1 - 0) * (0 - 0) + ((v - 0) / 1 - 0) * (1 - 0) = v := by ring
  have hden : ((0 : ℚ) - 0) ^ 2 + (1 - 0) ^ 2 = 1 := by norm_num
  obtain ⟨r1, r2⟩ := topGrad_stops v
  have hell : 0 ≤ Svg.elementOpacity
      { shape := .ellipse (1 / 2) (30 / 100) (45 / 100) (35 / 100),
        fill := .radialGradient (1 / 2) (30 / 100) (1 / 2)
          [⟨0, 1⟩, ⟨70 / 100, 1⟩, ⟨90 / 100, 6 / 10⟩, ⟨1, 0⟩] } u v := by
    simp only [Svg.elementOpacity, Svg.paintOpacity]
    split_ifs
    · exact (centerGrad_stops _).1
    · exact le_rfl
  have hrect : Svg.elementOpacity
      { shape := .rect 0 0 1 1,
        fill := .linearGradient 0 0 0 1
          [⟨0, 1⟩, ⟨40 / 100, 1⟩, ⟨70 / 100, 8 / 10⟩, ⟨90 / 100, 4 / 10⟩, ⟨1, 0⟩] } u v =
      Svg.stopsOpacity
        [⟨0, 1⟩, ⟨40 / 100, 1⟩, ⟨70 / 100, 8 / 10⟩, ⟨90 / 100, 4 / 10⟩, ⟨1, 0⟩] v := by
    simp only [Svg.elementOpacity, Svg.paintOpacity]
    rw [if_pos hc, ht, hden, div_one]
  simp only [Svg.opacityAt, ProductController.perfectShoulderMaskSvg, List.foldl,
    Svg.over_zero, hrect]
  exact le_trans (r2 hv) (Svg.le_over _ _ hell r1)

/-- The seamless mask has opacity at least 1/2 wherever the point lies in the middle
half of the width and the upper half of the height. -/
theorem transparentSeamlessMask_upper (w h : Nat) (u v : ℚ) (hu0 : 1 / 4 ≤ u)
    (hu1 : u ≤ 3 / 4) (hv0 : 0 ≤ v) (hv : v ≤ 1 / 2) :
    1 / 2 ≤ Svg.opacityAt (ProductController.transparentSeamlessMaskSvg w h).elements u v := by
  have hc1 : (0 : ℚ) ≤ u ∧ u ≤ 0 + 1 ∧ 0 ≤ v ∧ v ≤ 0 + 1 :=
    ⟨by linarith, by linarith, hv0, by linarith⟩
  have hout : ¬ ((0 : ℚ) ≤ u ∧ u ≤ 0 + 1 ∧ 60 / 100 ≤ v ∧ v ≤ 60 / 100 + 40 / 100) := by
    rintro ⟨_, _, h3, _⟩
    linarith
  simp only [Svg.opacityAt, ProductController.transparentSeamlessMaskSvg, List.foldl,
    Svg.over_zero, Svg.elementOpacity, Svg.paintOpacity, if_pos hc1, if_neg hout,
    Svg.zero_over]
  apply faceGrad_half
  apply Svg.sqrtFix_le _ _ (by norm_num)
  have h1 : (u - 1 / 2) ^ 2 ≤ 1 / 16 := by nlinarith
  have h2 : (v - 35 / 100) ^ 2 ≤ (35 / 100) ^ 2 := by nlinarith
  have h3 : (((u - 0) / 1 - 1 / 2) ^ 2 + ((v - 0) / 1 - 35 / 100) ^ 2) / (1 / 2) ^ 2 =
      4 * ((u - 1 / 2) ^ 2 + (v - 35 / 100) ^ 2) := by ring
  rw [h3]
  nlinarith

/-- The centre of the top row lies in the upper half of the height. -/
theorem centre_top_row (h : Nat) (hh : 1 ≤ h) :
    0 ≤ Svg.centre h 0 ∧ Svg.centre h 0 ≤ 1 / 2 := by
  unfold Svg.centre
  have hq : (1 : ℚ) ≤ h := by exact_mod_cast hh
  have hpos : (0 : ℚ) < 2 * h := by linarith
  constructor
  · positivity
  · rw [div_le_iff₀ hpos]
    push_cast
    linarith

/-- The organic mask is fully opaque everywhere: its first element is an opaque black
rectangle over the whole image, and painting over an opaque pixel leaves it opaque. -/
theorem organicFaceMask_opaque (w h : Nat) (u v : ℚ) (hu0 : 0 ≤ u) (hu1 : u ≤ 1)
    (hv0 : 0 ≤ v) (hv1 : v ≤ 1) :
    Svg.opacityAt (EnhancedCutoutController.organicFaceMaskSvg w h).elements u v = 1 := by
  have hc1 : (0 : ℚ) ≤ u ∧ u ≤ 0 + 1 ∧ 0 ≤ v ∧ v ≤ 0 + 1 := ⟨hu0, by linarith, hv0, by linarith⟩
  have hrect : Svg.elementOpacity { shape := .rect 0 0 1 1, fill := .black } u v = 1 := by
    simp only [Svg.elementOpacity, Svg.paintOpacity, if_pos hc1]
  simp only [Svg.opacityAt, EnhancedCutoutController.organicFaceMaskSvg, List.foldl, hrect]
  rw [Svg.over_zero, Svg.over_one, Svg.over_one]

/-- The organic mask has opacity 1 at every pixel, border included. -/
theorem organicFaceMask_pixel_opaque (w h i j : Nat) (hi : i < w) (hj : j < h) :
    Svg.pixelOpacity (EnhancedCutoutController.organicFaceMaskSvg w h) i j = 1 := by
  obtain ⟨hu0, hu1⟩ := Svg.centre_mem w i hi
  obtain ⟨hv0, hv1⟩ := Svg.centre_mem h j hj
  exact organicFaceMask_opaque w h _ _ hu0.le hu1.le hv0.le hv1.le

/-- C2 (amended): neither mask is transparent along the whole border, for every mask
size of width and height at least 1.  In the shoulder mask of
`createPerfectShoulderMask` every pixel of the top row has alpha at least 230 of 255, and
every pixel that lies entirely in the top 40% of the height has alpha 255.  In the
seamless mask of `createTransparentSeamlessMask` the top-row pixel of the middle column
`(w - 1) / 2` has alpha at least 127 of 255. -/
theorem C2_masks_border_not_transparent (w h i : Nat) (hi : i < w) (hh : 1 ≤ h) :
    230 ≤ Svg.pixelAlpha (ProductController.perfectShoulderMaskSvg w h) i 0 ∧
    (∀ j, 5 * (j + 1) ≤ 2 * h →
      Svg.pixelAlpha (ProductController.perfectShoulderMaskSvg w h) i j = 255) ∧
    ((w - 1) / 2 < w ∧
      127 ≤ Svg.pixelAlpha (ProductController.transparentSeamlessMaskSvg w h)
        ((w - 1) / 2) 0) := by
  obtain ⟨hu0, hu1⟩ := Svg.centre_mem w i hi
  obtain ⟨hv0, hv1⟩ := centre_top_row h hh
  have hwq : (0 : ℚ) < 2 * w := by
    have : (0 : ℚ) < w := by exact_mod_cast (by omega : 0 < w)
    linarith
  have hmid : ∀ k : Nat, w ≤ 4 * k + 2 → 4 * k + 2 ≤ 3 * w →
      127 ≤ Svg.pixelAlpha (ProductController.transparentSeamlessMaskSvg w h) k 0 := by
    intro k hk1 hk2
    apply Svg.le_alpha8
    have hk1q : (w : ℚ) ≤ 4 * k + 2 := by exact_mod_cast hk1
    have hk2q : (4 * k + 2 : ℚ) ≤ 3 * w := by exact_mod_cast hk2
    have hlo : 1 / 4 ≤ Svg.centre w k := by
      unfold Svg.centre
      rw [le_div_iff₀ hwq]
      linarith
    have hhi : Svg.centre w k ≤ 3 / 4 := by
      unfold Svg.centre
      rw [div_le_iff₀ hwq]
      linarith
    have hop := transparentSeamlessMask_upper w h _ _ hlo hhi hv0 hv1
    have e : Svg.pixelOpacity (ProductController.transparentSeamlessMaskSvg w h) k 0 =
        Svg.opacityAt (ProductController.transparentSeamlessMaskSvg w h).elements
          (Svg.centre w k) (Svg.centre h 0) := rfl
    rw [e]
    push_cast
    linarith
  refine ⟨?_, ?_, by omega, hmid ((w - 1) / 2) (by omega) (by omega)⟩
  · apply Svg.le_alpha8
    have hop := perfectShoulderMask_upper w h _ _ hu0.le hu1.le hv0 hv1
    have e : Svg.pixelOpacity (ProductController.perfectShoulderMaskSvg w h) i 0 =
        Svg.opacityAt (ProductController.perfectShoulderMaskSvg w h).elements
          (Svg.centre w i) (Svg.centre h 0) := rfl
    rw [e]
    push_cast
    linarith
  · intro j hj
    have hjh : j < h := by omega
    obtain ⟨hw0, hw1⟩ := Svg.centre_mem h j hjh
    have hv : Svg.centre h j ≤ 2 / 5 := by
      unfold Svg.centre
      have hhq : (0 : ℚ) < 2 * h := by
        have : (0 : ℚ) < h := by exact_mod_cast (by omega : 0 < h)
        linarith
      rw [div_le_iff₀ hhq]
      have : ((5 * (j + 1) : ℕ) : ℚ) ≤ ((2 * h : ℕ) : ℚ) := by exact_mod_cast hj
      push_cast at this
      linarith
    have hop := perfectShoulderMask_top w h _ _ hu0.le hu1.le hw0.le hv
    have e : Svg.pixelAlpha (ProductController.perfectShoulderMaskSvg w h) i j =
        Svg.alpha8 (Svg.opacityAt (ProductController.perfectShoulderMaskSvg w h).elements
          (Svg.centre w i) (Svg.centre h j)) := rfl
    rw [e, hop, Svg.alpha8_one]

/-- C2 (witness): a 5 x 5 mask, pixel in column 2 of the top row. -/
theorem C2_masks_border_not_transparent_witness :
    (2 < 5 ∧ 1 ≤ 5) ∧
    (230 ≤ Svg.pixelAlpha (ProductController.perfectShoulderMaskSvg 5 5) 2 0 ∧
    (∀ j, 5 * (j + 1) ≤ 2 * 5 →
      Svg.pixelAlpha (ProductController.perfectShoulderMaskSvg 5 5) 2 j = 255) ∧
    ((5 - 1) / 2 < 5 ∧
      127 ≤ Svg.pixelAlpha (ProductController.transparentSeamlessMaskSvg 5 5)
        ((5 - 1) / 2) 0)) :=
  ⟨⟨by decide, by decide⟩, C2_masks_border_not_transparent 5 5 2 (by decide) (by decide)⟩

/-- C2 (counterexample): in a 4 x 4 shoulder mask the top-left corner pixel, a border
pixel, has opacity 1, not 0. -/
theorem C2_border_not_transparent :
    Svg.pixelOpacity (ProductController.perfectShoulderMaskSvg 4 4) 0 0 = 1 ∧
    Svg.pixelOpacity (ProductController.perfectShoulderMaskSvg 4 4) 0 0 ≠ 0 := by
  have h : Svg.pixelOpacity (ProductController.perfectShoulderMaskSvg 4 4) 0 0 = 1 := by
    apply perfectShoulderMask_top 4 4 <;> norm_num [Svg.centre, ProductController.perfectShoulderMaskSvg]
  exact ⟨h, by rw [h]; norm_num⟩

/-! ## Colour matching -/

theorem jsTry_ok_or {α : Type} (body : Except Error α) (a : α) :
    jsTry body (fun _ => .ok a) = .ok a ∨ ∃ b, body = .ok b ∧ jsTry body (fun _ => .ok a) = .ok b := by
  cases body with
  | error e => left; rfl
  | ok b => right; exact ⟨b, rfl, rfl⟩

/-- A rounded quotient or product is a number: finite or `Infinity`. -/
theorem ofRounded_ne_nan (k : Nat) : JSNum.ofRounded k ≠ .nan := by
  unfold JSNum.ofRounded
  split_ifs <;> simp

/-- `Math.min(Math.max(x, lo), hi)` is the clamp of the specification whenever `x` is
a number and `lo ≤ hi`. -/
theorem min_max_eq_clampTo (lo hi : Nat) (hle : lo ≤ hi) (x : JSNum) (hx : x ≠ .nan) :
    JSNum.min (JSNum.max x (.fin lo)) (.fin hi) = Spec.clampTo lo hi x := by
  cases x with
  | nan => exact absurd rfl hx
  | inf => rfl
  | fin q =>
    simp only [JSNum.max, JSNum.min, Spec.clampTo, JSNum.fin.injEq]
    split_ifs <;> omega

/-- The clamp of a number lies in the range. -/
theorem clampTo_inRange (lo hi : Nat) (hle : lo ≤ hi) (x : JSNum) (hx : x ≠ .nan) :
    Spec.inRange lo hi (Spec.clampTo lo hi x) := by
  cases x with
  | nan => exact absurd rfl hx
  | inf => exact ⟨hle, le_rfl⟩
  | fin q =>
    simp only [Spec.clampTo, Spec.inRange]
    split_ifs <;> constructor <;> omega

/-- `ratio > 1.1 ? 0.95 : 1.05` is the threshold rule of the specification. -/
theorem saturationAdjustment_eq (ratio : JSNum) :
    ProductController.matchSkinToneAndLighting.saturationAdjustment ratio =
      Spec.thresholdSaturation ratio := by
  cases ratio with
  | nan => rfl
  | inf => rfl
  | fin q =>
    simp only [ProductController.matchSkinToneAndLighting.saturationAdjustment, JSNum.gt,
      Spec.thresholdSaturation, JSNum.lit, decide_eq_true_eq]

/-- The quotient of a finite mean by a positive finite mean is a number. -/
theorem div_fin_pos (t s : Nat) (hs : 0 < s) :
    JSNum.div (.fin t) (.fin s) = JSNum.ofRounded (JS.roundNearestEven (t * JS.one) s) := by
  simp only [JSNum.div]
  rw [if_neg (by omega)]

theorem mul_ne_nan_of_pos (x : JSNum) (hx : x ≠ .nan) (c : Nat) (hc : c ≠ 0) :
    JSNum.mul x (.fin c) ≠ .nan := by
  cases x with
  | nan => exact absurd rfl hx
  | inf => simp [JSNum.mul, hc]
  | fin q =>
    simp only [JSNum.mul]
    exact ofRounded_ne_nan _

theorem div_ne_nan (t s : Nat) (h : ¬(t = 0 ∧ s = 0)) :
    JSNum.div (.fin t) (.fin s) ≠ .nan := by
  by_cases hs : s = 0
  · have ht : t ≠ 0 := fun h0 => h ⟨h0, hs⟩
    simp [JSNum.div, hs, ht]
  · rw [div_fin_pos t s (by omega)]
    exact ofRounded_ne_nan _

/-- Outside the case of two zero means the brightness multipliers of both colour
matchers lie in their clamp ranges. -/
theorem brightness_inRange (t s : Nat) (h : ¬(t = 0 ∧ s = 0)) :
    Spec.inRange (JS.lit 8 10) (JS.lit 12 10)
      (ProductController.matchSkinToneAndLighting.brightness
        (ProductController.matchSkinToneAndLighting.brightnessRatio (.fin t) (.fin s))) ∧
    Spec.inRange (JS.lit 85 100) (JS.lit 115 100)
      (ProductController.performAdvancedColorMatching.brightness
        (ProductController.performAdvancedColorMatching.brightnessAdjustment (.fin t) (.fin s))) := by
  have hr := div_ne_nan t s h
  constructor
  · unfold ProductController.matchSkinToneAndLighting.brightness
      ProductController.matchSkinToneAndLighting.brightnessRatio JSNum.lit
    rw [min_max_eq_clampTo _ _ (by decide) _ hr]
    exact clampTo_inRange _ _ (by decide) _ hr
  · unfold ProductController.performAdvancedColorMatching.brightness
      ProductController.performAdvancedColorMatching.brightnessAdjustment JSNum.lit
    have hm := mul_ne_nan_of_pos _ hr (JS.lit 9 10) (by decide)
    rw [min_max_eq_clampTo _ _ (by decide) _ hm]
    exact clampTo_inRange _ _ (by decide) _ hm

/-- C3 (failing input): when both channel means are 0 the ratio is `0 / 0 = NaN`,
`Math.max` and `Math.min` propagate it, and the brightness handed to `modulate` is
`NaN` in `matchSkinToneAndLighting` and in `performAdvancedColorMatching`: it is not
inside the clamp range. -/
theorem C3_brightness_nan_when_both_means_zero :
    ProductController.matchSkinToneAndLighting.brightness
        (ProductController.matchSkinToneAndLighting.brightnessRatio (.fin 0) (.fin 0)) = .nan ∧
    ¬ Spec.inRange (JS.lit 8 10) (JS.lit 12 10)
        (ProductController.matchSkinToneAndLighting.brightness
          (ProductController.matchSkinToneAndLighting.brightnessRatio (.fin 0) (.fin 0))) ∧
    ProductController.performAdvancedColorMatching.brightness
        (ProductController.performAdvancedColorMatching.brightnessAdjustment (.fin 0) (.fin 0)) =
      .nan ∧
    ¬ Spec.inRange (JS.lit 85 100) (JS.lit 115 100)
        (ProductController.performAdvancedColorMatching.brightness
          (ProductController.performAdvancedColorMatching.brightnessAdjustment (.fin 0)
            (.fin 0))) := by
  decide

/-- C4: in `matchSkinToneAndLighting`, when the sampled mean of channel 0 is `t ≥ 0`
and the mean of the face is `s > 0`, the ratio is the binary64 quotient `t / s` (a
number), the brightness passed to `modulate` is `min(max(ratio, 0.8), 1.2)`, the
saturation is `0.95` when `ratio > 1.1` and `1.05` otherwise (so also for
`ratio = 1.1`), and the function returns the output of that `modulate` call, or the
face unchanged when the call throws. -/
theorem C4_skin_tone_multipliers (sharp : Sharp) (face product : Buffer)
    (analysis : ProductController.ProductAnalysis) (sample faceStats : Stats) (t s : Nat)
    (hs : 0 < s)
    (hsample : sharp.stats (.buffer product)
      [.extract (ProductController.matchSkinToneAndLighting.sampleRegion
        analysis.modelFaceRegion)] = .ok sample)
    (hface : sharp.stats (.buffer face) [] = .ok faceStats)
    (ht : sample.channelMean 0 = .ok (.fin t))
    (hu : faceStats.channelMean 0 = .ok (.fin s)) :
    ∃ ratio : JSNum,
      ratio = JSNum.ofRounded (JS.roundNearestEven (t * JS.one) s) ∧
      ratio ≠ .nan ∧
      ProductController.matchSkinToneAndLighting.brightnessRatio (.fin t) (.fin s) = ratio ∧
      ProductController.matchSkinToneAndLighting.brightness ratio =
        Spec.clampTo (JS.lit 8 10) (JS.lit 12 10) ratio ∧
      ProductController.matchSkinToneAndLighting.saturationAdjustment ratio =
        Spec.thresholdSaturation ratio ∧
      (ratio = JSNum.lit 11 10 →
        ProductController.matchSkinToneAndLighting.saturationAdjustment ratio =
          JSNum.lit 105 100) ∧
      ProductController.matchSkinToneAndLighting sharp face product analysis =
        .ok
          (match sharp.toBuffer (.buffer face)
              [.modulate (Spec.clampTo (JS.lit 8 10) (JS.lit 12 10) ratio)
                (Spec.thresholdSaturation ratio) (some (.fin 0))] with
            | .ok colorMatched => colorMatched
            | .error _ => face) := by
  have hr : JSNum.ofRounded (JS.roundNearestEven (t * JS.one) s) ≠ .nan := ofRounded_ne_nan _
  have hb : ProductController.matchSkinToneAndLighting.brightness
      (JSNum.ofRounded (JS.roundNearestEven (t * JS.one) s)) =
      Spec.clampTo (JS.lit 8 10) (JS.lit 12 10)
        (JSNum.ofRounded (JS.roundNearestEven (t * JS.one) s)) := by
    unfold ProductController.matchSkinToneAndLighting.brightness JSNum.lit
    exact min_max_eq_clampTo _ _ (by decide) _ hr
  refine ⟨_, rfl, hr, ?_, hb, saturationAdjustment_eq _, ?_, ?_⟩
  · exact div_fin_pos t s hs
  · intro h
    rw [h]
    decide
  · simp only [ProductController.matchSkinToneAndLighting, hsample, hface, ht, hu, bind,
      Except.bind, pure, Except.pure,
      ProductController.matchSkinToneAndLighting.brightnessRatio, div_fin_pos t s hs, hb,
      saturationAdjustment_eq]
    cases sharp.toBuffer (.buffer face)
      [.modulate (Spec.clampTo (JS.lit 8 10) (JS.lit 12 10)
          (JSNum.ofRounded (JS.roundNearestEven (t * JS.one) s)))
        (Spec.thresholdSaturation (JSNum.ofRounded (JS.roundNearestEven (t * JS.one) s)))
        (some (.fin 0))] <;> rfl

/-- C4 (witness): sampled mean 11, face mean 10: the ratio is exactly `1.1`. -/
theorem C4_skin_tone_multipliers_witness :
    (0 < JS.ofNat 10 ∧
      (Example.sharp (.fin (JS.ofNat 11)) (.fin (JS.ofNat 10))).stats (.buffer Example.product)
        [.extract (ProductController.matchSkinToneAndLighting.sampleRegion
          Example.analysis.modelFaceRegion)] = .ok (Example.statsOf (.fin (JS.ofNat 11))) ∧
      (Example.sharp (.fin (JS.ofNat 11)) (.fin (JS.ofNat 10))).stats (.buffer Example.face) [] =
        .ok (Example.statsOf (.fin (JS.ofNat 10))) ∧
      (Example.statsOf (.fin (JS.ofNat 11))).channelMean 0 = .ok (.fin (JS.ofNat 11)) ∧
      (Example.statsOf (.fin (JS.ofNat 10))).channelMean 0 = .ok (.fin (JS.ofNat 10))) ∧
    ∃ ratio : JSNum,
      ratio = JSNum.ofRounded (JS.roundNearestEven (JS.ofNat 11 * JS.one) (JS.ofNat 10)) ∧
      ratio ≠ .nan ∧
      ProductController.matchSkinToneAndLighting.brightnessRatio (.fin (JS.ofNat 11))
        (.fin (JS.ofNat 10)) = ratio ∧
      ProductController.matchSkinToneAndLighting.brightness ratio =
        Spec.clampTo (JS.lit 8 10) (JS.lit 12 10) ratio ∧
      ProductController.matchSkinToneAndLighting.saturationAdjustment ratio =
        Spec.thresholdSaturation ratio ∧
      (ratio = JSNum.lit 11 10 →
        ProductController.matchSkinToneAndLighting.saturationAdjustment ratio =
          JSNum.lit 105 100) ∧
      ProductController.matchSkinToneAndLighting
          (Example.sharp (.fin (JS.ofNat 11)) (.fin (JS.ofNat 10))) Example.face Example.product
          Example.analysis =
        .ok
          (match (Example.sharp (.fin (JS.ofNat 11)) (.fin (JS.ofNat 10))).toBuffer
              (.buffer Example.face)
              [.modulate (Spec.clampTo (JS.lit 8 10) (JS.lit 12 10) ratio)
                (Spec.thresholdSaturation ratio) (some (.fin 0))] with
            | .ok colorMatched => colorMatched
            | .error _ => Example.face) :=
  ⟨⟨by decide, rfl, rfl, rfl, rfl⟩,
    C4_skin_tone_multipliers (Example.sharp (.fin (JS.ofNat 11)) (.fin (JS.ofNat 10)))
      Example.face Example.product Example.analysis (Example.statsOf (.fin (JS.ofNat 11)))
      (Example.statsOf (.fin (JS.ofNat 10))) (JS.ofNat 11) (JS.ofNat 10) (by decide) rfl rfl rfl
      rfl⟩

/-- C5 (counterexample): with equal means (100 and 100) the ratio of either channel
is 1, which lies inside both clamp ranges, yet the brightness passed to `modulate` is
`0.9` and the saturation is `0.95`: the code scales the ratios by `0.9` and `0.95`
before clamping. -/
theorem C5_equal_means_not_identity :
    Spec.clampTo (JS.lit 85 100) (JS.lit 115 100)
        (ProductController.performAdvancedColorMatching.brightnessAdjustment
          (.fin (JS.ofNat 100)) (.fin (JS.ofNat 100))) = .fin (JS.ofNat 1) ∧
    ProductController.performAdvancedColorMatching.brightness
        (ProductController.performAdvancedColorMatching.brightnessAdjustment
          (.fin (JS.ofNat 100)) (.fin (JS.ofNat 100))) = JSNum.lit 9 10 ∧
    JSNum.lit 9 10 ≠ .fin (JS.ofNat 1) ∧
    Spec.clampTo (JS.lit 9 10) (JS.lit 11 10)
        (ProductController.performAdvancedColorMatching.saturationAdjustment
          (.fin (JS.ofNat 100)) (.fin (JS.ofNat 100))) = .fin (JS.ofNat 1) ∧
    ProductController.performAdvancedColorMatching.saturation
        (ProductController.performAdvancedColorMatching.saturationAdjustment
          (.fin (JS.ofNat 100)) (.fin (JS.ofNat 100))) = JSNum.lit 95 100 ∧
    JSNum.lit 95 100 ≠ .fin (JS.ofNat 1) := by
  decide

/-- C5 (amended): in `performAdvancedColorMatching`, for positive channel means (the
product means may even be 0), the brightness passed to `modulate` is the channel-0 ratio `productMean / userMean`
multiplied by `0.9` and then clamped to `[0.85, 1.15]`, the saturation is the
channel-1 ratio multiplied by `0.95` and then clamped to `[0.9, 1.1]`, and the
function returns the output of that `modulate` call, or its input unchanged when the
call throws. -/
theorem C5_advanced_multipliers (sharp : Sharp) (face product : Buffer)
    (analysis : ProductController.ProductAnalysis) (productStats userStats : Stats)
    (p0 u0 p1 u1 : Nat) (hu0 : 0 < u0) (hu1 : 0 < u1)
    (hproduct : sharp.stats (.buffer product) [] = .ok productStats)
    (hface : sharp.stats (.buffer face) [] = .ok userStats)
    (hP0 : productStats.channelMean 0 = .ok (.fin p0))
    (hU0 : userStats.channelMean 0 = .ok (.fin u0))
    (hP1 : productStats.channelMean 1 = .ok (.fin p1))
    (hU1 : userStats.channelMean 1 = .ok (.fin u1)) :
    ∃ ratio0 ratio1 : JSNum,
      ratio0 = JSNum.ofRounded (JS.roundNearestEven (p0 * JS.one) u0) ∧
      ratio1 = JSNum.ofRounded (JS.roundNearestEven (p1 * JS.one) u1) ∧
      ProductController.performAdvancedColorMatching.brightnessAdjustment (.fin p0) (.fin u0) =
        ratio0 ∧
      ProductController.performAdvancedColorMatching.saturationAdjustment (.fin p1) (.fin u1) =
        ratio1 ∧
      ProductController.performAdvancedColorMatching.brightness ratio0 =
        Spec.clampTo (JS.lit 85 100) (JS.lit 115 100) (JSNum.mul ratio0 (JSNum.lit 9 10)) ∧
      ProductController.performAdvancedColorMatching.saturation ratio1 =
        Spec.clampTo (JS.lit 9 10) (JS.lit 11 10) (JSNum.mul ratio1 (JSNum.lit 95 100)) ∧
      ProductController.performAdvancedColorMatching sharp face product analysis =
        .ok
          (match sharp.toBuffer (.buffer face)
              [.modulate
                (Spec.clampTo (JS.lit 85 100) (JS.lit 115 100)
                  (JSNum.mul ratio0 (JSNum.lit 9 10)))
                (Spec.clampTo (JS.lit 9 10) (JS.lit 11 10)
                  (JSNum.mul ratio1 (JSNum.lit 95 100))) none] with
            | .ok colorMatched => colorMatched
            | .error _ => face) := by
  have hr0 : JSNum.ofRounded (JS.roundNearestEven (p0 * JS.one) u0) ≠ .nan := ofRounded_ne_nan _
  have hr1 : JSNum.ofRounded (JS.roundNearestEven (p1 * JS.one) u1) ≠ .nan := ofRounded_ne_nan _
  have hb : ProductController.performAdvancedColorMatching.brightness
      (JSNum.ofRounded (JS.roundNearestEven (p0 * JS.one) u0)) =
      Spec.clampTo (JS.lit 85 100) (JS.lit 115 100)
        (JSNum.mul (JSNum.ofRounded (JS.roundNearestEven (p0 * JS.one) u0)) (JSNum.lit 9 10)) := by
    unfold ProductController.performAdvancedColorMatching.brightness JSNum.lit
    exact min_max_eq_clampTo _ _ (by decide) _ (mul_ne_nan_of_pos _ hr0 _ (by decide))
  have hsat : ProductController.performAdvancedColorMatching.saturation
      (JSNum.ofRounded (JS.roundNearestEven (p1 * JS.one) u1)) =
      Spec.clampTo (JS.lit 9 10) (JS.lit 11 10)
        (JSNum.mul (JSNum.ofRounded (JS.roundNearestEven (p1 * JS.one) u1))
          (JSNum.lit 95 100)) := by
    unfold ProductController.performAdvancedColorMatching.saturation JSNum.lit
    exact min_max_eq_clampTo _ _ (by decide) _ (mul_ne_nan_of_pos _ hr1 _ (by decide))
  refine ⟨_, _, rfl, rfl, div_fin_pos p0 u0 hu0, div_fin_pos p1 u1 hu1, hb, hsat, ?_⟩
  simp only [ProductController.performAdvancedColorMatching, hproduct, hface, hP0, hU0, hP1,
    hU1, bind, Except.bind, pure, Except.pure,
    ProductController.performAdvancedColorMatching.brightnessAdjustment,
    ProductController.performAdvancedColorMatching.saturationAdjustment,
    div_fin_pos p0 u0 hu0, div_fin_pos p1 u1 hu1, hb, hsat]
  cases sharp.toBuffer (.buffer face)
    [.modulate
      (Spec.clampTo (JS.lit 85 100) (JS.lit 115 100)
        (JSNum.mul (JSNum.ofRounded (JS.roundNearestEven (p0 * JS.one) u0)) (JSNum.lit 9 10)))
      (Spec.clampTo (JS.lit 9 10) (JS.lit 11 10)
        (JSNum.mul (JSNum.ofRounded (JS.roundNearestEven (p1 * JS.one) u1))
          (JSNum.lit 95 100))) none] <;> rfl

/-- C5 (witness): all four means equal to 100. -/
theorem C5_advanced_multipliers_witness :
    (0 < JS.ofNat 100 ∧ 0 < JS.ofNat 100 ∧
      Example.sharp100.stats (.buffer Example.product) [] = .ok Example.stats100 ∧
      Example.sharp100.stats (.buffer Example.face) [] = .ok Example.stats100 ∧
      Example.stats100.channelMean 0 = .ok (.fin (JS.ofNat 100)) ∧
      Example.stats100.channelMean 0 = .ok (.fin (JS.ofNat 100)) ∧
      Example.stats100.channelMean 1 = .ok (.fin (JS.ofNat 100)) ∧
      Example.stats100.channelMean 1 = .ok (.fin (JS.ofNat 100))) ∧
    ∃ ratio0 ratio1 : JSNum,
      ratio0 = JSNum.ofRounded (JS.roundNearestEven (JS.ofNat 100 * JS.one) (JS.ofNat 100)) ∧
      ratio1 = JSNum.ofRounded (JS.roundNearestEven (JS.ofNat 100 * JS.one) (JS.ofNat 100)) ∧
      ProductController.performAdvancedColorMatching.brightnessAdjustment (.fin (JS.ofNat 100))
        (.fin (JS.ofNat 100)) = ratio0 ∧
      ProductController.performAdvancedColorMatching.saturationAdjustment (.fin (JS.ofNat 100))
        (.fin (JS.ofNat 100)) = ratio1 ∧
      ProductController.performAdvancedColorMatching.brightness ratio0 =
        Spec.clampTo (JS.lit 85 100) (JS.lit 115 100) (JSNum.mul ratio0 (JSNum.lit 9 10)) ∧
      ProductController.performAdvancedColorMatching.saturation ratio1 =
        Spec.clampTo (JS.lit 9 10) (JS.lit 11 10) (JSNum.mul ratio1 (JSNum.lit 95 100)) ∧
      ProductController.performAdvancedColorMatching Example.sharp100 Example.face
          Example.product Example.analysis =
        .ok
          (match Example.sharp100.toBuffer (.buffer Example.face)
              [.modulate
                (Spec.clampTo (JS.lit 85 100) (JS.lit 115 100)
                  (JSNum.mul ratio0 (JSNum.lit 9 10)))
                (Spec.clampTo (JS.lit 9 10) (JS.lit 11 10)
                  (JSNum.mul ratio1 (JSNum.lit 95 100))) none] with
            | .ok colorMatched => colorMatched
            | .error _ => Example.face) :=
  ⟨⟨by decide, by decide, rfl, rfl, rfl, rfl, rfl, rfl⟩,
    C5_advanced_multipliers Example.sharp100 Example.face Example.product Example.analysis
      Example.stats100 Example.stats100 (JS.ofNat 100) (JS.ofNat 100) (JS.ofNat 100)
      (JS.ofNat 100) (by decide) (by decide) rfl rfl rfl rfl rfl rfl⟩

/-- C6 (counterexample): the face has channel mean 0 and the product sample has mean
100, so the ratio is a division by zero.  It evaluates to `Infinity`, the brightness
is clamped to `1.2`, `modulate` is called and its output is returned: the function
does not return the source buffer it was given. -/
theorem C6_zero_mean_still_modulates :
    ProductController.matchSkinToneAndLighting.brightnessRatio (.fin (JS.ofNat 100)) (.fin 0) =
      .inf ∧
    ProductController.matchSkinToneAndLighting.brightness .inf = JSNum.lit 12 10 ∧
    ProductController.matchSkinToneAndLighting (Example.sharp (.fin (JS.ofNat 100)) (.fin 0))
      Example.face Example.product Example.analysis = .ok Example.modulated ∧
    Example.modulated ≠ Example.face := by
  refine ⟨by decide, by decide, ?_, by decide⟩
  rfl

/-- C6 (amended): the colour matchers never raise.  Whenever the sample extraction, a
stats computation or the `modulate` call made by the function throws, the function
returns exactly the buffer it was given.  A zero channel mean alone is not such a
failure: the division yields `Infinity`, which is clamped, and `modulate` is called. -/
theorem C6_colour_matchers_never_raise (sharp : Sharp) (face product : Buffer)
    (analysis : ProductController.ProductAnalysis) :
    ((∃ out, ProductController.matchSkinToneAndLighting sharp face product analysis = .ok out) ∧
      ((∃ e, sharp.stats (.buffer product)
          [.extract (ProductController.matchSkinToneAndLighting.sampleRegion
            analysis.modelFaceRegion)] = .error e) →
        ProductController.matchSkinToneAndLighting sharp face product analysis = .ok face) ∧
      ((∃ e, sharp.stats (.buffer face) [] = .error e) →
        ProductController.matchSkinToneAndLighting sharp face product analysis = .ok face) ∧
      (∀ (sample faceStats : Stats) (t s : JSNum) (e : Error),
        sharp.stats (.buffer product)
          [.extract (ProductController.matchSkinToneAndLighting.sampleRegion
            analysis.modelFaceRegion)] = .ok sample →
        sharp.stats (.buffer face) [] = .ok faceStats →
        sample.channelMean 0 = .ok t → faceStats.channelMean 0 = .ok s →
        sharp.toBuffer (.buffer face)
          [.modulate
            (ProductController.matchSkinToneAndLighting.brightness
              (ProductController.matchSkinToneAndLighting.brightnessRatio t s))
            (ProductController.matchSkinToneAndLighting.saturationAdjustment
              (ProductController.matchSkinToneAndLighting.brightnessRatio t s))
            (some (.fin 0))] = .error e →
        ProductController.matchSkinToneAndLighting sharp face product analysis = .ok face)) ∧
    ((∃ out, ProductController.performAdvancedColorMatching sharp face product analysis =
        .ok out) ∧
      ((∃ e, sharp.stats (.buffer product) [] = .error e) →
        ProductController.performAdvancedColorMatching sharp face product analysis = .ok face) ∧
      ((∃ e, sharp.stats (.buffer face) [] = .error e) →
        ProductController.performAdvancedColorMatching sharp face product analysis = .ok face) ∧
      (∀ (productStats userStats : Stats) (p0 u0 p1 u1 : JSNum) (e : Error),
        sharp.stats (.buffer product) [] = .ok productStats →
        sharp.stats (.buffer face) [] = .ok userStats →
        productStats.channelMean 0 = .ok p0 → userStats.channelMean 0 = .ok u0 →
        productStats.channelMean 1 = .ok p1 → userStats.channelMean 1 = .ok u1 →
        sharp.toBuffer (.buffer face)
          [.modulate
            (ProductController.performAdvancedColorMatching.brightness
              (ProductController.performAdvancedColorMatching.brightnessAdjustment p0 u0))
            (ProductController.performAdvancedColorMatching.saturation
              (ProductController.performAdvancedColorMatching.saturationAdjustment p1 u1))
            none] = .error e →
        ProductController.performAdvancedColorMatching sharp face product analysis =
          .ok face)) := by
  refine ⟨⟨?_, ?_, ?_, ?_⟩, ⟨?_, ?_, ?_, ?_⟩⟩
  · unfold ProductController.matchSkinToneAndLighting
    rcases jsTry_ok_or _ face with h | ⟨b, _, h⟩
    · exact ⟨_, h⟩
    · exact ⟨_, h⟩
  · rintro ⟨e, he⟩
    simp [ProductController.matchSkinToneAndLighting, he, bind, Except.bind, jsTry]
  · rintro ⟨e, he⟩
    simp only [ProductController.matchSkinToneAndLighting, he, bind, Except.bind]
    cases sharp.stats (.buffer product)
      [.extract (ProductController.matchSkinToneAndLighting.sampleRegion
        analysis.modelFaceRegion)] <;> rfl
  · intro sample faceStats t s e hA hB hC hD he
    simp [ProductController.matchSkinToneAndLighting, hA, hB, hC, hD, he, bind, Except.bind,
      jsTry]
  · unfold ProductController.performAdvancedColorMatching
    rcases jsTry_ok_or _ face with h | ⟨b, _, h⟩
    · exact ⟨_, h⟩
    · exact ⟨_, h⟩
  · rintro ⟨e, he⟩
    simp [ProductController.performAdvancedColorMatching, he, bind, Except.bind, jsTry]
  · rintro ⟨e, he⟩
    simp only [ProductController.performAdvancedColorMatching, he, bind, Except.bind]
    cases sharp.stats (.buffer product) [] <;> rfl
  · intro productStats userStats p0 u0 p1 u1 e hA hB hC hD hE hF he
    simp [ProductController.performAdvancedColorMatching, hA, hB, hC, hD, hE, hF, he, bind,
      Except.bind, jsTry]

/-! ## Request handlers -/

theorem falsy_iff (x : Option String) : falsy x = true ↔ x = none ∨ x = some "" := by
  cases x with
  | none => simp [falsy]
  | some s => simp [falsy]

/-- C7: for each of the three handlers, a request whose body lacks `productId` or
`faceImageBase64` (absent, or the empty string) is answered with status 400, and no
collaborator is called: no product lookup, no remote fetch, no pipeline, no upload. -/
theorem C7_missing_field_is_400 (world : World) (req : Request)
    (hmissing : req.faceImageBase64 = none ∨ req.faceImageBase64 = some "" ∨
      req.productId = none ∨ req.productId = some "") :
    ((ProductController.seamlessFaceReplacement world req).result =
        .ok { status := 400, body := .message "Missing faceImageBase64 or productId" } ∧
      (ProductController.seamlessFaceReplacement world req).trace = []) ∧
    ((ProductController.advancedSeamlessReplacement world req).result =
        .ok { status := 400, body := .message "Missing required parameters" } ∧
      (ProductController.advancedSeamlessReplacement world req).trace = []) ∧
    ((EnhancedCutoutController.precisionFaceNeckCutout world req).result =
        .ok { status := 400, body := .message "Missing faceImageBase64 or productId" } ∧
      (EnhancedCutoutController.precisionFaceNeckCutout world req).trace = []) := by
  have hguard : (falsy req.faceImageBase64 || falsy req.productId) = true := by
    rw [Bool.or_eq_true, falsy_iff, falsy_iff]
    tauto
  simp [ProductController.seamlessFaceReplacement, ProductController.advancedSeamlessReplacement,
    EnhancedCutoutController.precisionFaceNeckCutout, hguard, Traced.tryCatch, Traced.ret]

/-- C7 (witness): a request without `productId`. -/
theorem C7_missing_field_is_400_witness :
    ((some "aGVsbG8=" : Option String) = none ∨ (some "aGVsbG8=" : Option String) = some "" ∨
      (none : Option String) = none ∨ (none : Option String) = some "") ∧
    (((ProductController.seamlessFaceReplacement Example.world
          { faceImageBase64 := some "aGVsbG8=", productId := none }).result =
        .ok { status := 400, body := .message "Missing faceImageBase64 or productId" } ∧
      (ProductController.seamlessFaceReplacement Example.world
          { faceImageBase64 := some "aGVsbG8=", productId := none }).trace = []) ∧
    ((ProductController.advancedSeamlessReplacement Example.world
          { faceImageBase64 := some "aGVsbG8=", productId := none }).result =
        .ok { status := 400, body := .message "Missing required parameters" } ∧
      (ProductController.advancedSeamlessReplacement Example.world
          { faceImageBase64 := some "aGVsbG8=", productId := none }).trace = []) ∧
    ((EnhancedCutoutController.precisionFaceNeckCutout Example.world
          { faceImageBase64 := some "aGVsbG8=", productId := none }).result =
        .ok { status := 400, body := .message "Missing faceImageBase64 or productId" } ∧
      (EnhancedCutoutController.precisionFaceNeckCutout Example.world
          { faceImageBase64 := some "aGVsbG8=", productId := none }).trace = [])) :=
  ⟨Or.inr (Or.inr (Or.inl rfl)),
    C7_missing_field_is_400 Example.world { faceImageBase64 := some "aGVsbG8=", productId := none }
      (Or.inr (Or.inr (Or.inl rfl)))⟩

theorem falsy_some_ne (s : String) (h : s ≠ "") : falsy (some s) = false := by
  simp [falsy, h]

/-- C8: for each of the three handlers, when both request fields are present and
`Product.findById` returns `null` or a product whose `image` is unset or empty, the
response has status 404 and the only collaborator called is the product lookup: no
remote fetch, no pipeline, no upload. -/
theorem C8_missing_product_is_404 (world : World) (face productId : String)
    (hface : face ≠ "") (hid : productId ≠ "")
    (hproduct : world.findById productId = .ok none ∨
      ∃ p : Product, world.findById productId = .ok (some p) ∧
        (p.image = none ∨ p.image = some "")) :
    ((ProductController.seamlessFaceReplacement world
          { faceImageBase64 := some face, productId := some productId }).result =
        .ok { status := 404, body := .message "Product not found or missing image" } ∧
      (ProductController.seamlessFaceReplacement world
          { faceImageBase64 := some face, productId := some productId }).trace =
        [.findById productId]) ∧
    ((ProductController.advancedSeamlessReplacement world
          { faceImageBase64 := some face, productId := some productId }).result =
        .ok { status := 404, body := .message "Product not found" } ∧
      (ProductController.advancedSeamlessReplacement world
          { faceImageBase64 := some face, productId := some productId }).trace =
        [.findById productId]) ∧
    ((EnhancedCutoutController.precisionFaceNeckCutout world
          { faceImageBase64 := some face, productId := some productId }).result =
        .ok { status := 404, body := .message "Product not found or missing image" } ∧
      (EnhancedCutoutController.precisionFaceNeckCutout world
          { faceImageBase64 := some face, productId := some productId }).trace =
        [.findById productId]) := by
  have h1 := falsy_some_ne face hface
  have h2 := falsy_some_ne productId hid
  rcases hproduct with h | ⟨p, h, hp⟩
  · simp [ProductController.seamlessFaceReplacement,
      ProductController.advancedSeamlessReplacement,
      EnhancedCutoutController.precisionFaceNeckCutout, h1, h2, h, Traced.tryCatch, Traced.ret,
      Traced.andThen, Traced.call]
  · have hp' : falsy p.image = true := (falsy_iff _).mpr hp
    simp [ProductController.seamlessFaceReplacement,
      ProductController.advancedSeamlessReplacement,
      EnhancedCutoutController.precisionFaceNeckCutout, h1, h2, h, hp', Traced.tryCatch,
      Traced.ret, Traced.andThen, Traced.call]

/-- C8 (witness): product `"p2"` is not in the store. -/
theorem C8_missing_product_is_404_witness :
    ("aGVsbG8=" ≠ "" ∧ "p2" ≠ "" ∧
      (Example.world.findById "p2" = .ok none ∨
        ∃ p : Product, Example.world.findById "p2" = .ok (some p) ∧
          (p.image = none ∨ p.image = some ""))) ∧
    (((ProductController.seamlessFaceReplacement Example.world
          { faceImageBase64 := some "aGVsbG8=", productId := some "p2" }).result =
        .ok { status := 404, body := .message "Product not found or missing image" } ∧
      (ProductController.seamlessFaceReplacement Example.world
          { faceImageBase64 := some "aGVsbG8=", productId := some "p2" }).trace =
        [.findById "p2"]) ∧
    ((ProductController.advancedSeamlessReplacement Example.world
          { faceImageBase64 := some "aGVsbG8=", productId := some "p2" }).result =
        .ok { status := 404, body := .message "Product not found" } ∧
      (ProductController.advancedSeamlessReplacement Example.world
          { faceImageBase64 := some "aGVsbG8=", productId := some "p2" }).trace =
        [.findById "p2"]) ∧
    ((EnhancedCutoutController.precisionFaceNeckCutout Example.world
          { faceImageBase64 := some "aGVsbG8=", productId := some "p2" }).result =
        .ok { status := 404, body := .message "Product not found or missing image" } ∧
      (EnhancedCutoutController.precisionFaceNeckCutout Example.world
          { faceImageBase64 := some "aGVsbG8=", productId := some "p2" }).trace =
        [.findById "p2"])) :=
  ⟨⟨by decide, by decide, Or.inl rfl⟩,
    C8_missing_product_is_404 Example.world "aGVsbG8=" "p2" (by decide) (by decide)
      (Or.inl rfl)⟩

/-- What `fetchProductImageBuffer` does, case by case. -/
theorem fetchProductImageBuffer_eq (world : World) (url : String) :
    fetchProductImageBuffer world url =
      match world.fetch url with
      | .error e => { result := .error e, trace := [.fetch url] }
      | .ok r =>
        if r.ok = false then
          { result := .error ("Failed to fetch product image: " ++ r.statusText),
            trace := [.fetch url] }
        else { result := r.buffer, trace := [.fetch url] } := by
  unfold fetchProductImageBuffer
  cases hf : world.fetch url with
  | error e => simp [Traced.tryCatch, Traced.andThen, Traced.call, Traced.step]
  | ok r =>
    cases hok : r.ok with
    | false => simp [Traced.tryCatch, Traced.andThen, Traced.call, Traced.step, hok]
    | true =>
      cases hb : r.buffer with
      | error e => simp [Traced.tryCatch, Traced.andThen, Traced.call, Traced.step, hok, hb]
      | ok b => simp [Traced.tryCatch, Traced.andThen, Traced.call, Traced.step, hok, hb]

/-- C9 (counterexample): the fetch resolves and the response is ok, but reading the
body fails: `fetchProductImageBuffer` raises although neither the fetch itself failed
nor was the response not ok. -/
theorem C9_body_read_failure_raises :
    (∃ r, Example.worldBodyFails.fetch "http://img/p1.png" = .ok r ∧ r.ok = true) ∧
    (fetchProductImageBuffer Example.worldBodyFails "http://img/p1.png").result =
      .error "Premature close" :=
  ⟨⟨_, rfl, rfl⟩, rfl⟩

/-- C9 (amended): `fetchProductImageBuffer` raises if and only if the fetch itself
fails, the response is not ok, or reading the response body fails; and in each of the
three handlers, when the fetch of the product image returns a response that is not ok,
the handler responds with status 500 after the product lookup and the fetch only: the
pipeline, the temporary-file write and the upload are not invoked. -/
theorem C9_fetch_failure (world : World) :
    (∀ url : String,
      (∃ e, (fetchProductImageBuffer world url).result = .error e) ↔
        ((∃ e, world.fetch url = .error e) ∨
          ∃ r, world.fetch url = .ok r ∧ (r.ok = false ∨ ∃ e, r.buffer = .error e))) ∧
    (∀ (face productId image : String) (r : FetchResponse),
      face ≠ "" → productId ≠ "" → image ≠ "" →
      world.findById productId = .ok (some { image := some image }) →
      world.fetch image = .ok r → r.ok = false →
      ((ProductController.seamlessFaceReplacement world
            { faceImageBase64 := some face, productId := some productId }).result =
          .ok { status := 500,
                body := .failure "Server error during face replacement"
                  ("Failed to fetch product image: " ++ r.statusText) } ∧
        (ProductController.seamlessFaceReplacement world
            { faceImageBase64 := some face, productId := some productId }).trace =
          [.findById productId, .fetch image]) ∧
      ((ProductController.advancedSeamlessReplacement world
            { faceImageBase64 := some face, productId := some productId }).result =
          .ok { status := 500,
                body := .failure "Advanced shoulder matching failed"
                  ("Failed to fetch product image: " ++ r.statusText) } ∧
        (ProductController.advancedSeamlessReplacement world
            { faceImageBase64 := some face, productId := some productId }).trace =
          [.findById productId, .fetch image]) ∧
      ((EnhancedCutoutController.precisionFaceNeckCutout world
            { faceImageBase64 := some face, productId := some productId }).result =
          .ok { status := 500,
                body := .failure "Server error during organic replacement"
                  ("Failed to fetch product image: " ++ r.statusText) } ∧
        (EnhancedCutoutController.precisionFaceNeckCutout world
            { faceImageBase64 := some face, productId := some productId }).trace =
          [.findById productId, .fetch image])) := by
  constructor
  · intro url
    rw [fetchProductImageBuffer_eq]
    cases hf : world.fetch url with
    | error e => simp
    | ok r =>
      cases hok : r.ok with
      | false => simp [hok]
      | true => simp [hok]
  · intro face productId image r hface hid himage hfind hfetch hok
    have h1 := falsy_some_ne face hface
    have h2 := falsy_some_ne productId hid
    have h3 := falsy_some_ne image himage
    simp [ProductController.seamlessFaceReplacement,
      ProductController.advancedSeamlessReplacement,
      EnhancedCutoutController.precisionFaceNeckCutout, h1, h2, h3, hfind,
      fetchProductImageBuffer_eq, hfetch, hok, Traced.tryCatch, Traced.ret, Traced.andThen,
      Traced.call]

/-- C9 (witness): the fetch of the image of product `"p1"` answers 404. -/
theorem C9_fetch_failure_witness :
    (ProductController.seamlessFaceReplacement Example.worldNotFound Example.request).result =
      .ok { status := 500,
            body := .failure "Server error during face replacement"
              ("Failed to fetch product image: " ++ "Not Found") } ∧
    (ProductController.seamlessFaceReplacement Example.worldNotFound Example.request).trace =
      [.findById "p1", .fetch "http://img/p1.png"] :=
  ((C9_fetch_failure Example.worldNotFound).2 "aGVsbG8=" "p1" "http://img/p1.png"
    { ok := false, statusText := "Not Found", buffer := .ok [] }
    (by decide) (by decide) (by decide) rfl rfl rfl).1

/-- The two handlers of product.controller.js do what C10 says: when both fields are
present, the product has an image, the fetch, the pipeline, the file write and the
upload succeed, the response is `{imageUrl: secure_url, success: true, message}` with
status 200. -/
theorem product_handlers_success (world : World) (face productId image : String)
    (r : FetchResponse) (productImage enhanced advanced : Buffer) (uploaded₁ uploaded₂ : UploadResponse)
    (hface : face ≠ "") (hid : productId ≠ "") (himage : image ≠ "")
    (hfind : world.findById productId = .ok (some { image := some image }))
    (hfetch : world.fetch image = .ok r) (hok : r.ok = true) (hbody : r.buffer = .ok productImage)
    (hpipe₁ : ProductController.performEnhancedFaceReplacement world.sharp
      (world.bufferFromBase64 face) productImage = .ok enhanced)
    (hpipe₂ : ProductController.performAdvancedShoulderMatching world.sharp
      (world.bufferFromBase64 face) productImage = .ok advanced)
    (hmkdir : ∀ path, world.mkdir path = .ok ())
    (hwrite : ∀ path data, world.writeFile path data = .ok ())
    (hupload₁ : ∀ path, world.upload path "enhanced-face-replacement" = .ok uploaded₁)
    (hupload₂ : ∀ path, world.upload path "advanced-shoulder-matching" = .ok uploaded₂) :
    (ProductController.seamlessFaceReplacement world
        { faceImageBase64 := some face, productId := some productId }).result =
      .ok { status := 200,
            body := .success uploaded₁.secure_url true
              "Enhanced face replacement completed successfully" } ∧
    (ProductController.advancedSeamlessReplacement world
        { faceImageBase64 := some face, productId := some productId }).result =
      .ok { status := 200,
            body := .success uploaded₂.secure_url true "Advanced shoulder matching completed" } := by
  have h1 := falsy_some_ne face hface
  have h2 := falsy_some_ne productId hid
  have h3 := falsy_some_ne image himage
  simp [ProductController.seamlessFaceReplacement,
    ProductController.advancedSeamlessReplacement, ProductController.__dirname, h1, h2, h3, hfind,
    fetchProductImageBuffer_eq, hfetch, hok, hbody, hpipe₁, hpipe₂, hmkdir, hwrite, hupload₁,
    hupload₂, Traced.tryCatch, Traced.ret, Traced.andThen, Traced.call, Traced.step]

/-- `precisionFaceNeckCutout` never answers with status 200: the success path has to
evaluate `__dirname`, which is not defined in its module. -/
theorem precisionFaceNeckCutout_fails (world : World) (face productId image : String)
    (r : FetchResponse) (productImage organic : Buffer)
    (hface : face ≠ "") (hid : productId ≠ "") (himage : image ≠ "")
    (hfind : world.findById productId = .ok (some { image := some image }))
    (hfetch : world.fetch image = .ok r) (hok : r.ok = true) (hbody : r.buffer = .ok productImage)
    (hpipe : EnhancedCutoutController.performOrganicFaceReplacement world.sharp
      (world.bufferFromBase64 face) productImage = .ok organic) :
    (EnhancedCutoutController.precisionFaceNeckCutout world
        { faceImageBase64 := some face, productId := some productId }).result =
      .ok { status := 500,
            body := .failure "Server error during organic replacement"
              "__dirname is not defined" } ∧
    (EnhancedCutoutController.precisionFaceNeckCutout world
        { faceImageBase64 := some face, productId := some productId }).trace =
      [.findById productId, .fetch image, .pipeline (world.bufferFromBase64 face) productImage] := by
  have h1 := falsy_some_ne face hface
  have h2 := falsy_some_ne productId hid
  have h3 := falsy_some_ne image himage
  simp [EnhancedCutoutController.precisionFaceNeckCutout, EnhancedCutoutController.__dirname, h1,
    h2, h3, hfind, fetchProductImageBuffer_eq, hfetch, hok, hbody, hpipe, Traced.tryCatch,
    Traced.ret, Traced.andThen, Traced.call, Traced.step]

/-- C10 (failing input): in a world where the product exists with an image and the
fetch, the pipeline, the file write and the upload all succeed, `precisionFaceNeckCutout`
answers a complete request with status 500 and `"__dirname is not defined"`, after the
lookup, the fetch and the pipeline; the file is never written and nothing is
uploaded.  On the same request the two handlers of product.controller.js answer with
status 200 and `{imageUrl, success: true, message}`. -/
theorem C10_precision_cutout_answers_500 :
    (EnhancedCutoutController.precisionFaceNeckCutout Example.world Example.request).result =
      .ok { status := 500,
            body := .failure "Server error during organic replacement"
              "__dirname is not defined" } ∧
    (EnhancedCutoutController.precisionFaceNeckCutout Example.world Example.request).trace =
      [.findById "p1", .fetch "http://img/p1.png", .pipeline Example.face Example.product] ∧
    (ProductController.seamlessFaceReplacement Example.world Example.request).result =
      .ok { status := 200,
            body := .success "https://res.cloudinary.com/demo/result.png" true
              "Enhanced face replacement completed successfully" } ∧
    (ProductController.advancedSeamlessReplacement Example.world Example.request).result =
      .ok { status := 200,
            body := .success "https://res.cloudinary.com/demo/result.png" true
              "Advanced shoulder matching completed" } := by
  have hbad := precisionFaceNeckCutout_fails Example.world "aGVsbG8=" "p1" "http://img/p1.png"
    { ok := true, statusText := "OK", buffer := .ok Example.product } Example.product
    Example.modulated (by decide) (by decide) (by decide) rfl rfl rfl rfl rfl
  have hgood := product_handlers_success Example.world "aGVsbG8=" "p1" "http://img/p1.png"
    { ok := true, statusText := "OK", buffer := .ok Example.product } Example.product
    Example.modulated Example.modulated
    { secure_url := "https://res.cloudinary.com/demo/result.png" }
    { secure_url := "https://res.cloudinary.com/demo/result.png" }
    (by decide) (by decide) (by decide) rfl rfl rfl rfl rfl rfl (fun _ => rfl) (fun _ _ => rfl)
    (fun _ => rfl) (fun _ => rfl)
  exact ⟨hbad.1, hbad.2, hgood.1, hgood.2⟩

/-! ## Region calculators: exact values, non-degeneracy, the skin sample -/

/-- C12 (counterexample): for a product image of height 90 the advanced product region
has height `Math.floor(90 * 0.7) = 62`, while `floor(0.7 * 90) = 63`. -/
theorem C12_height_below_exact_floor :
    (∃ a, ProductController.analyzeProductImageForShoulders (Example.sharpOfSize 100 90)
        Example.product = .ok a ∧ a.modelFaceRegion.height = 62) ∧
      ⌊(7 / 10 : ℚ) * 90⌋₊ = 63 := by
  refine ⟨⟨_, analyzeProductImageForShoulders_ok _ _ _ rfl, by decide⟩, ?_⟩
  norm_num [Nat.floor_eq_iff]

/-- C12 (amended): for every image width `W` and height `H` below `2 ^ 45`, each region
calculator succeeds and every field is `Math.floor` of the binary64 product of the
dimension and the coefficient.  That value is the exact `floor(coefficient * dimension)`
for seamless user (0.1, 0.02, 0.8, 0.9), seamless product (0.25, 0.02, 0.5, 0.65),
advanced user (0.05, 0.01, 0.9, 0.95) and for left, top and width of advanced product
(0.2, 0.01, 0.6); the height of advanced product is `floor(0.7 * H)` or one less, and it
is `floor(0.7 * H)` whenever `0.7 * H` is not a whole number. -/
theorem C12_regions_are_floors (sharp : Sharp) (buf : Buffer) (W H : Nat)
    (hW : W < 2 ^ 45) (hH : H < 2 ^ 45)
    (hmeta : sharp.metadata (.buffer buf) = .ok { width := W, height := H }) :
    (∃ a, ProductController.analyzeUserImageExtended sharp buf = .ok a ∧
      a.faceRegion =
        { left := W * 1 / 10, top := H * 2 / 100, width := W * 8 / 10, height := H * 9 / 10 }) ∧
    (∃ a, ProductController.analyzeProductImageExtended sharp buf = .ok a ∧
      a.modelFaceRegion =
        { left := W * 25 / 100, top := H * 2 / 100, width := W * 5 / 10,
          height := H * 65 / 100 }) ∧
    (∃ a, ProductController.analyzeUserImageForShoulders sharp buf = .ok a ∧
      a.faceRegion =
        { left := W * 5 / 100, top := H * 1 / 100, width := W * 9 / 10,
          height := H * 95 / 100 }) ∧
    (∃ a, ProductController.analyzeProductImageForShoulders sharp buf = .ok a ∧
      a.modelFaceRegion.left = W * 2 / 10 ∧ a.modelFaceRegion.top = H * 1 / 100 ∧
      a.modelFaceRegion.width = W * 6 / 10 ∧
      a.modelFaceRegion.height ≤ H * 7 / 10 ∧ H * 7 / 10 ≤ a.modelFaceRegion.height + 1 ∧
      (H * 7 % 10 ≠ 0 → a.modelFaceRegion.height = H * 7 / 10)) := by
  refine ⟨⟨_, analyzeUserImageExtended_ok sharp buf _ hmeta, ?_⟩,
    ⟨_, analyzeProductImageExtended_ok sharp buf _ hmeta, ?_⟩,
    ⟨_, analyzeUserImageForShoulders_ok sharp buf _ hmeta, ?_⟩,
    ⟨_, analyzeProductImageForShoulders_ok sharp buf _ hmeta, ?_, ?_, ?_, ?_⟩⟩
  · simp only [Region.mk.injEq]
    exact ⟨floorMul_eq_floor W _ 1 10 (by decide) (by decide) hW,
      floorMul_eq_floor H _ 2 100 (by decide) (by decide) hH,
      floorMul_eq_floor W _ 8 10 (by decide) (by decide) hW,
      floorMul_eq_floor H _ 9 10 (by decide) (by decide) hH⟩
  · simp only [Region.mk.injEq]
    exact ⟨floorMul_eq_floor W _ 25 100 (by decide) (by decide) hW,
      floorMul_eq_floor H _ 2 100 (by decide) (by decide) hH,
      floorMul_eq_floor W _ 5 10 (by decide) (by decide) hW,
      floorMul_eq_floor H _ 65 100 (by decide) (by decide) hH⟩
  · simp only [Region.mk.injEq]
    exact ⟨floorMul_eq_floor W _ 5 100 (by decide) (by decide) hW,
      floorMul_eq_floor H _ 1 100 (by decide) (by decide) hH,
      floorMul_eq_floor W _ 9 10 (by decide) (by decide) hW,
      floorMul_eq_floor H _ 95 100 (by decide) (by decide) hH⟩
  · exact floorMul_eq_floor W _ 2 10 (by decide) (by decide) hW
  · exact floorMul_eq_floor H _ 1 100 (by decide) (by decide) hH
  · exact floorMul_eq_floor W _ 6 10 (by decide) (by decide) hW
  · exact floorMul_near_floor H _ 7 10 (by decide) hH

/-- C12 (witness): an 801 x 1003 image. -/
theorem C12_regions_are_floors_witness :
    (801 < 2 ^ 45 ∧ 1003 < 2 ^ 45 ∧
      (Example.sharpOfSize 801 1003).metadata (.buffer Example.product) = .ok { width := 801, height := 1003 }) ∧
    ((∃ a, ProductController.analyzeUserImageExtended (Example.sharpOfSize 801 1003) Example.product = .ok a ∧
      a.faceRegion =
        { left := 801 * 1 / 10, top := 1003 * 2 / 100, width := 801 * 8 / 10,
          height := 1003 * 9 / 10 }) ∧
    (∃ a, ProductController.analyzeProductImageExtended (Example.sharpOfSize 801 1003) Example.product =
        .ok a ∧
      a.modelFaceRegion =
        { left := 801 * 25 / 100, top := 1003 * 2 / 100, width := 801 * 5 / 10,
          height := 1003 * 65 / 100 }) ∧
    (∃ a, ProductController.analyzeUserImageForShoulders (Example.sharpOfSize 801 1003) Example.product =
        .ok a ∧
      a.faceRegion =
        { left := 801 * 5 / 100, top := 1003 * 1 / 100, width := 801 * 9 / 10,
          height := 1003 * 95 / 100 }) ∧
    (∃ a, ProductController.analyzeProductImageForShoulders (Example.sharpOfSize 801 1003) Example.product =
        .ok a ∧
      a.modelFaceRegion.left = 801 * 2 / 10 ∧ a.modelFaceRegion.top = 1003 * 1 / 100 ∧
      a.modelFaceRegion.width = 801 * 6 / 10 ∧
      a.modelFaceRegion.height ≤ 1003 * 7 / 10 ∧
      1003 * 7 / 10 ≤ a.modelFaceRegion.height + 1 ∧
      (1003 * 7 % 10 ≠ 0 → a.modelFaceRegion.height = 1003 * 7 / 10))) :=
  ⟨⟨by decide, by decide, rfl⟩,
    C12_regions_are_floors (Example.sharpOfSize 801 1003) Example.product 801 1003 (by decide) (by decide) rfl⟩

/-- A floored product is at least 1 from dimension 2 on, for a constant of at least
one half. -/
theorem floorMul_pos (n c : Nat) (hn : 2 ≤ n) (hc : JS.one ≤ 2 * c) : 1 ≤ floorMul n c := by
  apply floorMul_ge n c 1 (by norm_num)
  calc 1 * JS.one ≤ 2 * c := by omega
    _ ≤ n * c := Nat.mul_le_mul_right _ hn

/-- C18: for every image of width `W` and height `H`, each of the four region calculators
succeeds (no error is raised); its region has width at least 1 when `W ≥ 2` and height
at least 1 when `H ≥ 2`, and width 0 when `W = 1` and height 0 when `H = 1`. -/
theorem C18_regions_non_degenerate (sharp : Sharp) (buf : Buffer) (W H : Nat)
    (hmeta : sharp.metadata (.buffer buf) = .ok { width := W, height := H }) :
    (∃ a, ProductController.analyzeUserImageExtended sharp buf = .ok a ∧
      (2 ≤ W → 1 ≤ a.faceRegion.width) ∧ (2 ≤ H → 1 ≤ a.faceRegion.height) ∧
      (W = 1 → a.faceRegion.width = 0) ∧ (H = 1 → a.faceRegion.height = 0)) ∧
    (∃ a, ProductController.analyzeProductImageExtended sharp buf = .ok a ∧
      (2 ≤ W → 1 ≤ a.modelFaceRegion.width) ∧ (2 ≤ H → 1 ≤ a.modelFaceRegion.height) ∧
      (W = 1 → a.modelFaceRegion.width = 0) ∧ (H = 1 → a.modelFaceRegion.height = 0)) ∧
    (∃ a, ProductController.analyzeUserImageForShoulders sharp buf = .ok a ∧
      (2 ≤ W → 1 ≤ a.faceRegion.width) ∧ (2 ≤ H → 1 ≤ a.faceRegion.height) ∧
      (W = 1 → a.faceRegion.width = 0) ∧ (H = 1 → a.faceRegion.height = 0)) ∧
    (∃ a, ProductController.analyzeProductImageForShoulders sharp buf = .ok a ∧
      (2 ≤ W → 1 ≤ a.modelFaceRegion.width) ∧ (2 ≤ H → 1 ≤ a.modelFaceRegion.height) ∧
      (W = 1 → a.modelFaceRegion.width = 0) ∧ (H = 1 → a.modelFaceRegion.height = 0)) := by
  refine ⟨⟨_, analyzeUserImageExtended_ok sharp buf _ hmeta, ?_, ?_, ?_, ?_⟩,
    ⟨_, analyzeProductImageExtended_ok sharp buf _ hmeta, ?_, ?_, ?_, ?_⟩,
    ⟨_, analyzeUserImageForShoulders_ok sharp buf _ hmeta, ?_, ?_, ?_, ?_⟩,
    ⟨_, analyzeProductImageForShoulders_ok sharp buf _ hmeta, ?_, ?_, ?_, ?_⟩⟩
  all_goals first
    | (intro h; exact floorMul_pos _ _ h (by decide))
    | (intro h; subst h; show floorMul 1 _ = 0; decide)

/-- C18 (witness): an 800 x 1000 image. -/
theorem C18_regions_non_degenerate_witness :
    Example.sharp100.metadata (.buffer Example.face) = .ok { width := 800, height := 1000 } ∧
    ((∃ a, ProductController.analyzeUserImageExtended Example.sharp100 Example.face = .ok a ∧
      (2 ≤ 800 → 1 ≤ a.faceRegion.width) ∧ (2 ≤ 1000 → 1 ≤ a.faceRegion.height) ∧
      (800 = 1 → a.faceRegion.width = 0) ∧ (1000 = 1 → a.faceRegion.height = 0)) ∧
    (∃ a, ProductController.analyzeProductImageExtended Example.sharp100 Example.face = .ok a ∧
      (2 ≤ 800 → 1 ≤ a.modelFaceRegion.width) ∧ (2 ≤ 1000 → 1 ≤ a.modelFaceRegion.height) ∧
      (800 = 1 → a.modelFaceRegion.width = 0) ∧ (1000 = 1 → a.modelFaceRegion.height = 0)) ∧
    (∃ a, ProductController.analyzeUserImageForShoulders Example.sharp100 Example.face = .ok a ∧
      (2 ≤ 800 → 1 ≤ a.faceRegion.width) ∧ (2 ≤ 1000 → 1 ≤ a.faceRegion.height) ∧
      (800 = 1 → a.faceRegion.width = 0) ∧ (1000 = 1 → a.faceRegion.height = 0)) ∧
    (∃ a, ProductController.analyzeProductImageForShoulders Example.sharp100 Example.face =
        .ok a ∧
      (2 ≤ 800 → 1 ≤ a.modelFaceRegion.width) ∧ (2 ≤ 1000 → 1 ≤ a.modelFaceRegion.height) ∧
      (800 = 1 → a.modelFaceRegion.width = 0) ∧ (1000 = 1 → a.modelFaceRegion.height = 0))) :=
  ⟨rfl, C18_regions_non_degenerate Example.sharp100 Example.face 800 1000 rfl⟩

/-- C14: for every product image size `W x H`, `analyzeProductImageExtended` succeeds and
the rectangle that `matchSkinToneAndLighting` samples for the reference statistics lies
inside the model face region `R`, and inside the product image. -/
theorem C14_skin_sample_inside_region (sharp : Sharp) (buf : Buffer) (W H : Nat)
    (hmeta : sharp.metadata (.buffer buf) = .ok { width := W, height := H }) :
    ∃ a, ProductController.analyzeProductImageExtended sharp buf = .ok a ∧
      (ProductController.matchSkinToneAndLighting.sampleRegion a.modelFaceRegion).inside
        a.modelFaceRegion ∧
      (ProductController.matchSkinToneAndLighting.sampleRegion a.modelFaceRegion).within W H := by
  refine ⟨_, analyzeProductImageExtended_ok sharp buf _ hmeta, ?_⟩
  have hx := floorMul_add_le_all W (JS.lit 25 100) (JS.lit 5 10) (by decide)
  have hy := floorMul_add_le_all H (JS.lit 2 100) (JS.lit 65 100) (by decide)
  have sx := floorMul_add_le_all (floorMul W (JS.lit 5 10)) (JS.lit 3 10) (JS.lit 4 10)
    (by decide)
  have sy := floorMul_add_le_all (floorMul H (JS.lit 65 100)) (JS.lit 7 10) (JS.lit 2 10)
    (by decide)
  simp only [ProductController.matchSkinToneAndLighting.sampleRegion, Region.inside,
    Region.within]
  omega

/-- C14 (witness): an 800 x 1000 product image. -/
theorem C14_skin_sample_inside_region_witness :
    Example.sharp100.metadata (.buffer Example.product) = .ok { width := 800, height := 1000 } ∧
    ∃ a, ProductController.analyzeProductImageExtended Example.sharp100 Example.product =
        .ok a ∧
      (ProductController.matchSkinToneAndLighting.sampleRegion a.modelFaceRegion).inside
        a.modelFaceRegion ∧
      (ProductController.matchSkinToneAndLighting.sampleRegion a.modelFaceRegion).within
        800 1000 :=
  ⟨rfl, C14_skin_sample_inside_region Example.sharp100 Example.product 800 1000 rfl⟩

/-- The width of the skin sample is positive exactly from product width 6 on. -/
theorem sampleWidth_pos_iff (W : Nat) :
    1 ≤ floorMul (floorMul W (JS.lit 5 10)) (JS.lit 4 10) ↔ 6 ≤ W := by
  constructor
  · intro h
    by_contra hcon
    have hin := floorMul_eq_floor W (JS.lit 5 10) 5 10 (by decide) (by decide) (by omega)
    have hle : floorMul W (JS.lit 5 10) ≤ 2 := by omega
    revert h
    generalize floorMul W (JS.lit 5 10) = m at hle
    interval_cases m <;> decide
  · intro h
    have h3 : 3 ≤ floorMul W (JS.lit 5 10) := by
      apply floorMul_ge W _ 3 (by norm_num)
      calc 3 * JS.one ≤ 6 * JS.lit 5 10 := by decide
        _ ≤ W * JS.lit 5 10 := Nat.mul_le_mul_right _ h
    apply floorMul_ge _ _ 1 (by norm_num)
    calc 1 * JS.one ≤ 3 * JS.lit 4 10 := by decide
      _ ≤ floorMul W (JS.lit 5 10) * JS.lit 4 10 := Nat.mul_le_mul_right _ h3

/-- The height of the skin sample is positive exactly from product height 8 on. -/
theorem sampleHeight_pos_iff (H : Nat) :
    1 ≤ floorMul (floorMul H (JS.lit 65 100)) (JS.lit 2 10) ↔ 8 ≤ H := by
  constructor
  · intro h
    by_contra hcon
    have hin := floorMul_eq_floor H (JS.lit 65 100) 65 100 (by decide) (by decide) (by omega)
    have hle : floorMul H (JS.lit 65 100) ≤ 4 := by omega
    revert h
    generalize floorMul H (JS.lit 65 100) = m at hle
    interval_cases m <;> decide
  · intro h
    have h5 : 5 ≤ floorMul H (JS.lit 65 100) := by
      apply floorMul_ge H _ 5 (by norm_num)
      calc 5 * JS.one ≤ 8 * JS.lit 65 100 := by decide
        _ ≤ H * JS.lit 65 100 := Nat.mul_le_mul_right _ h
    apply floorMul_ge _ _ 1 (by norm_num)
    calc 1 * JS.one ≤ 5 * JS.lit 2 10 := by decide
      _ ≤ floorMul H (JS.lit 65 100) * JS.lit 2 10 := Nat.mul_le_mul_right _ h5

/-- C19 (counterexample): for a 5 x 7 product image the skin-sample rectangle is empty
(width 0 and height 0), and with a library whose `stats()` is computed whatever the chain
of operations, `matchSkinToneAndLighting` does not return its input: it returns the
output of `modulate`. -/
theorem C19_empty_sample_still_modulates :
    ∃ a, ProductController.analyzeProductImageExtended (Example.sharpOfSize 5 7)
        Example.product = .ok a ∧
      (ProductController.matchSkinToneAndLighting.sampleRegion a.modelFaceRegion).width = 0 ∧
      (ProductController.matchSkinToneAndLighting.sampleRegion a.modelFaceRegion).height = 0 ∧
      ProductController.matchSkinToneAndLighting (Example.sharpOfSize 5 7) Example.face
          Example.product a = .ok Example.modulated ∧
      Example.modulated ≠ Example.face :=
  ⟨_, analyzeProductImageExtended_ok _ _ _ rfl,
    by
      have h := sampleWidth_pos_iff 5
      simp only [ProductController.matchSkinToneAndLighting.sampleRegion]
      omega,
    by
      have h := sampleHeight_pos_iff 7
      simp only [ProductController.matchSkinToneAndLighting.sampleRegion]
      omega,
    rfl, by decide⟩

/-- C19 (amended): for every product image size `W x H` the skin-sample rectangle of
`matchSkinToneAndLighting` has positive width if and only if `W ≥ 6` and positive height
if and only if `H ≥ 8`; and with a library whose statistics call fails on an empty
extracted rectangle, for `W < 6` or `H < 8` the colour matcher returns its input
unchanged. -/
theorem C19_skin_sample_thresholds (sharp : Sharp) (face product : Buffer) (W H : Nat)
    (hmeta : sharp.metadata (.buffer product) = .ok { width := W, height := H })
    (hempty : ∀ input r, r.width = 0 ∨ r.height = 0 →
      ∃ e, sharp.stats input [.extract r] = .error e) :
    ∃ a, ProductController.analyzeProductImageExtended sharp product = .ok a ∧
      (1 ≤ (ProductController.matchSkinToneAndLighting.sampleRegion a.modelFaceRegion).width ↔
        6 ≤ W) ∧
      (1 ≤ (ProductController.matchSkinToneAndLighting.sampleRegion a.modelFaceRegion).height ↔
        8 ≤ H) ∧
      (W < 6 ∨ H < 8 →
        ProductController.matchSkinToneAndLighting sharp face product a = .ok face) := by
  refine ⟨_, analyzeProductImageExtended_ok sharp product _ hmeta, ?_⟩
  have hw := sampleWidth_pos_iff W
  have hh := sampleHeight_pos_iff H
  refine ⟨hw, hh, ?_⟩
  intro hsmall
  have hzero :
      (ProductController.matchSkinToneAndLighting.sampleRegion
          { left := floorMul W (JS.lit 25 100), top := floorMul H (JS.lit 2 100),
            width := floorMul W (JS.lit 5 10), height := floorMul H (JS.lit 65 100) }).width = 0 ∨
        (ProductController.matchSkinToneAndLighting.sampleRegion
          { left := floorMul W (JS.lit 25 100), top := floorMul H (JS.lit 2 100),
            width := floorMul W (JS.lit 5 10), height := floorMul H (JS.lit 65 100) }).height = 0 := by
    simp only [ProductController.matchSkinToneAndLighting.sampleRegion]
    omega
  obtain ⟨e, he⟩ := hempty (.buffer product) _ hzero
  simp [ProductController.matchSkinToneAndLighting, he, jsTry, bind, Except.bind]

/-- C19 (witness): a 5 x 7 product image. -/
theorem C19_skin_sample_thresholds_witness :
    (Example.sharpEmptyExtractFails 5 7).metadata (.buffer Example.product) =
        .ok { width := 5, height := 7 } ∧
    (∀ input r, r.width = 0 ∨ r.height = 0 →
      ∃ e, (Example.sharpEmptyExtractFails 5 7).stats input [.extract r] = .error e) ∧
    ∃ a, ProductController.analyzeProductImageExtended (Example.sharpEmptyExtractFails 5 7)
        Example.product = .ok a ∧
      (1 ≤ (ProductController.matchSkinToneAndLighting.sampleRegion a.modelFaceRegion).width ↔
        6 ≤ 5) ∧
      (1 ≤ (ProductController.matchSkinToneAndLighting.sampleRegion a.modelFaceRegion).height ↔
        8 ≤ 7) ∧
      (5 < 6 ∨ 7 < 8 →
        ProductController.matchSkinToneAndLighting (Example.sharpEmptyExtractFails 5 7)
          Example.face Example.product a = .ok Example.face) :=
  ⟨rfl, fun _ r h => ⟨"extract_area: bad extract area", by
      simp [Example.sharpEmptyExtractFails, h]⟩,
    C19_skin_sample_thresholds (Example.sharpEmptyExtractFails 5 7) Example.face
      Example.product 5 7 rfl
      (fun _ r h => ⟨"extract_area: bad extract area", by
        simp [Example.sharpEmptyExtractFails, h]⟩)⟩

/-! ## The overlay of the organic variant -/

/-- C17 (counterexample): for a product image of width 1024 the overlay has left 332 and
width 358, so the right margin is 334 and exceeds the left margin by 2. -/
theorem C17_margins_differ_by_two :
    (EnhancedCutoutController.organicTarget { width := 1024, height := 768 }).left = 332 ∧
    (EnhancedCutoutController.organicTarget { width := 1024, height := 768 }).width = 358 ∧
    (1024 - (EnhancedCutoutController.organicTarget { width := 1024, height := 768 }).left -
        (EnhancedCutoutController.organicTarget { width := 1024, height := 768 }).width) -
      (EnhancedCutoutController.organicTarget { width := 1024, height := 768 }).left = 2 :=
  ⟨by decide, by decide, by decide⟩

/-- C17 (amended): for every product width `W < 2 ^ 45`, with `left` and `width` the
offset and the width of the overlay of `performOrganicFaceReplacement`, the overlay fits
(`left + width ≤ W`) and the right margin `W - left - width` is at least the left margin
and at most the left margin plus 2. -/
theorem C17_overlay_centred_within_two (W H : Nat) (hW : W < 2 ^ 45) :
    (EnhancedCutoutController.organicTarget { width := W, height := H }).left +
        (EnhancedCutoutController.organicTarget { width := W, height := H }).width ≤ W ∧
      (EnhancedCutoutController.organicTarget { width := W, height := H }).left ≤
        W - (EnhancedCutoutController.organicTarget { width := W, height := H }).left -
          (EnhancedCutoutController.organicTarget { width := W, height := H }).width ∧
      W - (EnhancedCutoutController.organicTarget { width := W, height := H }).left -
          (EnhancedCutoutController.organicTarget { width := W, height := H }).width ≤
        (EnhancedCutoutController.organicTarget { width := W, height := H }).left + 2 := by
  have hl := floorMul_eq_floor W (JS.lit 325 1000) 13 40 (by decide) (by decide) hW
  obtain ⟨h1, h2, h3⟩ := floorMul_near_floor W (JS.lit 35 100) 35 100 (by decide) hW
  simp only [EnhancedCutoutController.organicTarget]
  rw [hl]
  by_cases hrem : W * 35 % 100 = 0
  · omega
  · have := h3 hrem
    omega

/-- C17 (witness): width 1024, where the difference is 2. -/
theorem C17_overlay_centred_within_two_witness :
    1024 < 2 ^ 45 ∧
    ((EnhancedCutoutController.organicTarget { width := 1024, height := 768 }).left +
        (EnhancedCutoutController.organicTarget { width := 1024, height := 768 }).width ≤ 1024 ∧
      (EnhancedCutoutController.organicTarget { width := 1024, height := 768 }).left ≤
        1024 - (EnhancedCutoutController.organicTarget { width := 1024, height := 768 }).left -
          (EnhancedCutoutController.organicTarget { width := 1024, height := 768 }).width ∧
      1024 - (EnhancedCutoutController.organicTarget { width := 1024, height := 768 }).left -
          (EnhancedCutoutController.organicTarget { width := 1024, height := 768 }).width ≤
        (EnhancedCutoutController.organicTarget { width := 1024, height := 768 }).left + 2) :=
  ⟨by decide, C17_overlay_centred_within_two 1024 768 (by decide)⟩

/-- C15: for every target of width `W ≥ 4` and height `H ≥ 13` (such as 800 x 1000) the
overlay rectangle of `performOrganicFaceReplacement` lies strictly inside the target
(`left ≥ 1`, `top ≥ 1`, `left + width ≤ W - 1`, `top + height ≤ H - 1`), and every border
pixel of the image composited at that offset, from an overlay of that size and with any
blend, is the pixel of the target. -/
theorem C15_organic_overlay_strictly_inside (W H : Nat) (hW : 4 ≤ W) (hH : 13 ≤ H)
    (target overlay : Raster) (blend : Pixel → Pixel → Pixel)
    (htarget : target.width = W ∧ target.height = H)
    (hoverlay :
      overlay.width = (EnhancedCutoutController.organicTarget { width := W, height := H }).width ∧
      overlay.height =
        (EnhancedCutoutController.organicTarget { width := W, height := H }).height) :
    (1 ≤ (EnhancedCutoutController.organicTarget { width := W, height := H }).left ∧
      1 ≤ (EnhancedCutoutController.organicTarget { width := W, height := H }).top ∧
      (EnhancedCutoutController.organicTarget { width := W, height := H }).left +
        (EnhancedCutoutController.organicTarget { width := W, height := H }).width ≤ W - 1 ∧
      (EnhancedCutoutController.organicTarget { width := W, height := H }).top +
        (EnhancedCutoutController.organicTarget { width := W, height := H }).height ≤ H - 1) ∧
    ∀ x y, x < W → y < H → (x = 0 ∨ y = 0 ∨ x = W - 1 ∨ y = H - 1) →
      (target.composite overlay
          (EnhancedCutoutController.organicTarget { width := W, height := H }).left
          (EnhancedCutoutController.organicTarget { width := W, height := H }).top
          blend).pixel x y = target.pixel x y := by
  have hl : 1 ≤ floorMul W (JS.lit 325 1000) := by
    apply floorMul_ge W _ 1 (by norm_num)
    calc 1 * JS.one ≤ 4 * JS.lit 325 1000 := by decide
      _ ≤ W * JS.lit 325 1000 := Nat.mul_le_mul_right _ hW
  have ht : 1 ≤ floorMul H (JS.lit 8 100) := by
    apply floorMul_ge H _ 1 (by norm_num)
    calc 1 * JS.one ≤ 13 * JS.lit 8 100 := by decide
      _ ≤ H * JS.lit 8 100 := Nat.mul_le_mul_right _ hH
  have hr := floorMul_add_lt W 4 (JS.lit 325 1000) (JS.lit 35 100) (by norm_num) hW
    (by decide) (by decide) (by decide)
  have hb := floorMul_add_lt H 13 (JS.lit 8 100) (JS.lit 45 100) (by norm_num) hH
    (by decide) (by decide) (by decide)
  obtain ⟨how, hoh⟩ := hoverlay
  simp only [EnhancedCutoutController.organicTarget] at how hoh ⊢
  refine ⟨⟨hl, ht, by omega, by omega⟩, ?_⟩
  intro x y hx hy hborder
  simp only [Raster.composite]
  rw [if_neg]
  rw [how, hoh]
  omega

/-- C15 (witness): the 800 x 1000 scenario, target and face of one colour each. -/
theorem C15_organic_overlay_strictly_inside_witness :
    (4 ≤ 800 ∧ 13 ≤ 1000 ∧
      ((Example.solid 800 1000 Example.targetColour).width = 800 ∧
        (Example.solid 800 1000 Example.targetColour).height = 1000) ∧
      ((Example.solid 280 450 Example.faceColour).width =
          (EnhancedCutoutController.organicTarget { width := 800, height := 1000 }).width ∧
        (Example.solid 280 450 Example.faceColour).height =
          (EnhancedCutoutController.organicTarget { width := 800, height := 1000 }).height)) ∧
    ((1 ≤ (EnhancedCutoutController.organicTarget { width := 800, height := 1000 }).left ∧
      1 ≤ (EnhancedCutoutController.organicTarget { width := 800, height := 1000 }).top ∧
      (EnhancedCutoutController.organicTarget { width := 800, height := 1000 }).left +
        (EnhancedCutoutController.organicTarget { width := 800, height := 1000 }).width ≤
          800 - 1 ∧
      (EnhancedCutoutController.organicTarget { width := 800, height := 1000 }).top +
        (EnhancedCutoutController.organicTarget { width := 800, height := 1000 }).height ≤
          1000 - 1) ∧
    ∀ x y, x < 800 → y < 1000 → (x = 0 ∨ y = 0 ∨ x = 800 - 1 ∨ y = 1000 - 1) →
      ((Example.solid 800 1000 Example.targetColour).composite
          (Example.solid 280 450 Example.faceColour)
          (EnhancedCutoutController.organicTarget { width := 800, height := 1000 }).left
          (EnhancedCutoutController.organicTarget { width := 800, height := 1000 }).top
          Example.replaceBlend).pixel x y =
        (Example.solid 800 1000 Example.targetColour).pixel x y) :=
  ⟨⟨by decide, by decide, ⟨rfl, rfl⟩, ⟨by decide, by decide⟩⟩,
    C15_organic_overlay_strictly_inside 800 1000 (by decide) (by decide)
      (Example.solid 800 1000 Example.targetColour) (Example.solid 280 450 Example.faceColour)
      Example.replaceBlend ⟨rfl, rfl⟩ ⟨by decide, by decide⟩⟩

/-! ## The pipelines as instances of one parameterised pipeline -/

theorem jsTry_rethrow {α : Type} (body : Except Error α) :
    jsTry body (fun error => .error error) = body := by
  cases body <;> rfl

/-- C11 (counterexample): with a library in which no region can be extracted,
`performOrganicFaceReplacement` succeeds, while the parameterised pipeline fails for
every configuration: the organic variant has no source-region extraction. -/
theorem C11_organic_is_no_instance :
    EnhancedCutoutController.performOrganicFaceReplacement Example.sharpNoExtract
        Example.face Example.product = .ok Example.modulated ∧
      ∀ cfg : Spec.PipelineConfig,
        Spec.pipeline Example.sharpNoExtract cfg Example.face Example.product =
          .error "extract_area: bad extract area" :=
  ⟨rfl, fun _ => rfl⟩

theorem matchSkinToneAndLighting_eq (sharp : Sharp) (source product : Buffer)
    (a : ProductController.ProductAnalysis) :
    ProductController.matchSkinToneAndLighting sharp source product a =
      Spec.matchColor sharp Spec.seamlessConfig.colour source product a.modelFaceRegion := by
  simp only [ProductController.matchSkinToneAndLighting, Spec.matchColor, Spec.seamlessConfig,
    Spec.referenceStats, Spec.brightness,
    ProductController.matchSkinToneAndLighting.sampleRegion,
    ProductController.matchSkinToneAndLighting.brightnessRatio,
    ProductController.matchSkinToneAndLighting.saturationAdjustment,
    ProductController.matchSkinToneAndLighting.brightness, bind_assoc, pure_bind, bind_pure]

theorem performAdvancedColorMatching_eq (sharp : Sharp) (source product : Buffer)
    (a : ProductController.ProductAnalysis) :
    ProductController.performAdvancedColorMatching sharp source product a =
      Spec.matchColor sharp Spec.advancedConfig.colour source product a.modelFaceRegion := by
  simp only [ProductController.performAdvancedColorMatching, Spec.matchColor,
    Spec.advancedConfig, Spec.referenceStats, Spec.brightness,
    ProductController.performAdvancedColorMatching.brightnessAdjustment,
    ProductController.performAdvancedColorMatching.saturationAdjustment,
    ProductController.performAdvancedColorMatching.brightness,
    ProductController.performAdvancedColorMatching.saturation, bind_assoc, pure_bind, bind_pure]

/-- C11 (amended): `performEnhancedFaceReplacement` and
`performAdvancedShoulderMatching` are instances of one parameterised pipeline: each equals
`Spec.pipeline` applied to its own configuration, for every library behaviour and every
pair of inputs. -/
theorem C11_product_pipelines_are_instances (sharp : Sharp) (face product : Buffer) :
    ProductController.performEnhancedFaceReplacement sharp face product =
        Spec.pipeline sharp Spec.seamlessConfig face product ∧
      ProductController.performAdvancedShoulderMatching sharp face product =
        Spec.pipeline sharp Spec.advancedConfig face product := by
  constructor
  · simp only [ProductController.performEnhancedFaceReplacement,
      ProductController.analyzeUserImageExtended, ProductController.analyzeProductImageExtended,
      ProductController.extractUserFaceWithShoulders,
      ProductController.createPerfectFitWithShoulders,
      ProductController.replaceWithShoulderMatching, jsTry_rethrow, Spec.pipeline,
      matchSkinToneAndLighting_eq, Spec.seamlessConfig, Spec.computeRegion, Spec.generateMask,
      bind_assoc, pure_bind, bind_pure]
  · simp only [ProductController.performAdvancedShoulderMatching,
      ProductController.analyzeUserImageForShoulders,
      ProductController.analyzeProductImageForShoulders,
      ProductController.extractUserWithShoulderArea,
      ProductController.createShoulderAlignedFit,
      ProductController.performPerfectShoulderIntegration, jsTry_rethrow, Spec.pipeline,
      performAdvancedColorMatching_eq, Spec.advancedConfig, Spec.computeRegion,
      Spec.generateMask, bind_assoc, pure_bind, bind_pure]

/-! ## Sizes of the masks and of the resizes -/

theorem ok_bind {ε α β : Type} (a : α) (f : α → Except ε β) :
    (Except.ok a >>= f) = f a := rfl

section Agreement

variable {mw mh rw rh : Nat} {s s' : Sharp}

theorem agree_buffer (h : Sharp.agreeOn mw mh rw rh s s') (b : Buffer) (ops : List SharpOp)
    (hops : ∀ op ∈ ops, op.resizesTo rw rh) :
    s.toBuffer (.buffer b) ops = s'.toBuffer (.buffer b) ops :=
  h.2.2 _ _ trivial hops

theorem agree_extractUserFaceWithShoulders (h : Sharp.agreeOn mw mh rw rh s s') (b : Buffer)
    (a : ProductController.UserAnalysis) :
    ProductController.extractUserFaceWithShoulders s b a =
      ProductController.extractUserFaceWithShoulders s' b a := by
  unfold ProductController.extractUserFaceWithShoulders
  rw [agree_buffer h]
  simp [SharpOp.resizesTo]

theorem agree_matchSkinToneAndLighting (h : Sharp.agreeOn mw mh rw rh s s') (b p : Buffer)
    (a : ProductController.ProductAnalysis) :
    ProductController.matchSkinToneAndLighting s b p a =
      ProductController.matchSkinToneAndLighting s' b p a := by
  unfold ProductController.matchSkinToneAndLighting
  rw [h.2.1]
  have hb : ∀ x y z, s.toBuffer (.buffer b) [.modulate x y z] =
      s'.toBuffer (.buffer b) [.modulate x y z] := by
    intro x y z
    apply agree_buffer h
    simp [SharpOp.resizesTo]
  simp only [hb]

theorem agree_createPerfectFitWithShoulders (h : Sharp.agreeOn mw mh rw rh s s') (b : Buffer)
    (a : ProductController.ProductAnalysis) (hw : a.modelFaceRegion.width = rw)
    (hh : a.modelFaceRegion.height = rh) :
    ProductController.createPerfectFitWithShoulders s b a =
      ProductController.createPerfectFitWithShoulders s' b a := by
  unfold ProductController.createPerfectFitWithShoulders
  simp only []
  rw [agree_buffer h]
  simp [SharpOp.resizesTo, hw, hh]

theorem agree_createTransparentSeamlessMask (h : Sharp.agreeOn mw mh rw rh s s') :
    ProductController.createTransparentSeamlessMask s mw mh =
      ProductController.createTransparentSeamlessMask s' mw mh := by
  unfold ProductController.createTransparentSeamlessMask
  rw [h.2.2 (.svg _) _ ⟨rfl, rfl⟩ (by simp [SharpOp.resizesTo]),
    h.2.2 (.create _ _ _ _ _ _ _) _ ⟨rfl, rfl⟩ (by simp [SharpOp.resizesTo])]

theorem agree_replaceWithShoulderMatching (h : Sharp.agreeOn mw mh rw rh s s') (p f : Buffer)
    (a : ProductController.ProductAnalysis) (hw : a.modelFaceRegion.width = mw)
    (hh : a.modelFaceRegion.height = mh) :
    ProductController.replaceWithShoulderMatching s p f a =
      ProductController.replaceWithShoulderMatching s' p f a := by
  unfold ProductController.replaceWithShoulderMatching
  rw [hw, hh, agree_createTransparentSeamlessMask h]
  have h1 : ∀ m, s.toBuffer (.buffer f) [.composite m none none .destIn] =
      s'.toBuffer (.buffer f) [.composite m none none .destIn] := by
    intro m
    apply agree_buffer h
    simp [SharpOp.resizesTo]
  have h2 : ∀ m l t b c d e g, s.toBuffer (.buffer p)
      [.composite m l t .over, .modulate b c none, .sharpen d e g,
        .png (some 100) (some 6) (some true)] =
      s'.toBuffer (.buffer p)
        [.composite m l t .over, .modulate b c none, .sharpen d e g,
          .png (some 100) (some 6) (some true)] := by
    intro m l t b c d e g
    apply agree_buffer h
    simp [SharpOp.resizesTo]
  simp only [h1, h2]

theorem agree_analyzeUserImageExtended (h : Sharp.agreeOn mw mh rw rh s s') (b : Buffer) :
    ProductController.analyzeUserImageExtended s b =
      ProductController.analyzeUserImageExtended s' b := by
  unfold ProductController.analyzeUserImageExtended
  rw [h.1]

theorem agree_analyzeProductImageExtended (h : Sharp.agreeOn mw mh rw rh s s') (b : Buffer) :
    ProductController.analyzeProductImageExtended s b =
      ProductController.analyzeProductImageExtended s' b := by
  unfold ProductController.analyzeProductImageExtended
  rw [h.1]

theorem agree_analyzeUserImageForShoulders (h : Sharp.agreeOn mw mh rw rh s s') (b : Buffer) :
    ProductController.analyzeUserImageForShoulders s b =
      ProductController.analyzeUserImageForShoulders s' b := by
  unfold ProductController.analyzeUserImageForShoulders
  rw [h.1]

theorem agree_analyzeProductImageForShoulders (h : Sharp.agreeOn mw mh rw rh s s') (b : Buffer) :
    ProductController.analyzeProductImageForShoulders s b =
      ProductController.analyzeProductImageForShoulders s' b := by
  unfold ProductController.analyzeProductImageForShoulders
  rw [h.1]

theorem agree_performEnhancedFaceReplacement (face product : Buffer)
    (a : ProductController.ProductAnalysis)
    (ha : ProductController.analyzeProductImageExtended s product = .ok a)
    (h : Sharp.agreeOn a.modelFaceRegion.width a.modelFaceRegion.height
      a.modelFaceRegion.width a.modelFaceRegion.height s s') :
    ProductController.performEnhancedFaceReplacement s face product =
      ProductController.performEnhancedFaceReplacement s' face product := by
  have ha' : ProductController.analyzeProductImageExtended s' product = .ok a := by
    rw [← agree_analyzeProductImageExtended h]
    exact ha
  unfold ProductController.performEnhancedFaceReplacement
  rw [ha, ha', agree_analyzeUserImageExtended h]
  simp only [ok_bind, agree_extractUserFaceWithShoulders h, agree_matchSkinToneAndLighting h,
    agree_createPerfectFitWithShoulders h _ a rfl rfl,
    agree_replaceWithShoulderMatching h _ _ a rfl rfl]

theorem agree_extractUserWithShoulderArea (h : Sharp.agreeOn mw mh rw rh s s') (b : Buffer)
    (a : ProductController.UserAnalysis) :
    ProductController.extractUserWithShoulderArea s b a =
      ProductController.extractUserWithShoulderArea s' b a := by
  unfold ProductController.extractUserWithShoulderArea
  rw [agree_buffer h]
  simp [SharpOp.resizesTo]

theorem agree_performAdvancedColorMatching (h : Sharp.agreeOn mw mh rw rh s s') (b p : Buffer)
    (a : ProductController.ProductAnalysis) :
    ProductController.performAdvancedColorMatching s b p a =
      ProductController.performAdvancedColorMatching s' b p a := by
  unfold ProductController.performAdvancedColorMatching
  rw [h.2.1]
  have hb : ∀ x y z, s.toBuffer (.buffer b) [.modulate x y z] =
      s'.toBuffer (.buffer b) [.modulate x y z] := by
    intro x y z
    apply agree_buffer h
    simp [SharpOp.resizesTo]
  simp only [hb]

theorem agree_createShoulderAlignedFit (h : Sharp.agreeOn mw mh rw rh s s') (b : Buffer)
    (a : ProductController.ProductAnalysis) (hw : a.modelFaceRegion.width = rw)
    (hh : a.modelFaceRegion.height = rh) :
    ProductController.createShoulderAlignedFit s b a =
      ProductController.createShoulderAlignedFit s' b a := by
  unfold ProductController.createShoulderAlignedFit
  simp only []
  rw [agree_buffer h]
  simp [SharpOp.resizesTo, hw, hh]

theorem agree_createPerfectShoulderMask (h : Sharp.agreeOn mw mh rw rh s s') :
    ProductController.createPerfectShoulderMask s mw mh =
      ProductController.createPerfectShoulderMask s' mw mh := by
  unfold ProductController.createPerfectShoulderMask
  rw [h.2.2 (.svg _) _ ⟨rfl, rfl⟩ (by simp [SharpOp.resizesTo])]

theorem agree_performPerfectShoulderIntegration (h : Sharp.agreeOn mw mh rw rh s s')
    (p f : Buffer) (a : ProductController.ProductAnalysis) (hw : a.modelFaceRegion.width = mw)
    (hh : a.modelFaceRegion.height = mh) :
    ProductController.performPerfectShoulderIntegration s p f a =
      ProductController.performPerfectShoulderIntegration s' p f a := by
  unfold ProductController.performPerfectShoulderIntegration
  rw [hw, hh, agree_createPerfectShoulderMask h]
  have h1 : ∀ m, s.toBuffer (.buffer f) [.composite m none none .destIn] =
      s'.toBuffer (.buffer f) [.composite m none none .destIn] := by
    intro m
    apply agree_buffer h
    simp [SharpOp.resizesTo]
  have h2 : ∀ m l t b c d e g, s.toBuffer (.buffer p)
      [.composite m l t .over, .modulate b c none, .sharpen d e g,
        .png (some 100) (some 6) (some true)] =
      s'.toBuffer (.buffer p)
        [.composite m l t .over, .modulate b c none, .sharpen d e g,
          .png (some 100) (some 6) (some true)] := by
    intro m l t b c d e g
    apply agree_buffer h
    simp [SharpOp.resizesTo]
  simp only [h1, h2]

theorem agree_performAdvancedShoulderMatching (face product : Buffer)
    (a : ProductController.ProductAnalysis)
    (ha : ProductController.analyzeProductImageForShoulders s product = .ok a)
    (h : Sharp.agreeOn a.modelFaceRegion.width a.modelFaceRegion.height
      a.modelFaceRegion.width a.modelFaceRegion.height s s') :
    ProductController.performAdvancedShoulderMatching s face product =
      ProductController.performAdvancedShoulderMatching s' face product := by
  have ha' : ProductController.analyzeProductImageForShoulders s' product = .ok a := by
    rw [← agree_analyzeProductImageForShoulders h]
    exact ha
  unfold ProductController.performAdvancedShoulderMatching
  rw [ha, ha', agree_analyzeUserImageForShoulders h]
  simp only [ok_bind, agree_extractUserWithShoulderArea h, agree_performAdvancedColorMatching h,
    agree_createShoulderAlignedFit h _ a rfl rfl,
    agree_performPerfectShoulderIntegration h _ _ a rfl rfl]

theorem agree_createOrganicFaceMask (h : Sharp.agreeOn mw mh rw rh s s') :
    EnhancedCutoutController.createOrganicFaceMask s mw mh =
      EnhancedCutoutController.createOrganicFaceMask s' mw mh := by
  unfold EnhancedCutoutController.createOrganicFaceMask
  rw [h.2.2 (.svg _) _ ⟨rfl, rfl⟩ (by simp [SharpOp.resizesTo])]

theorem agree_performOrganicFaceReplacement (face product : Buffer)
    (faceMeta productMeta : Metadata)
    (hface : s.metadata (.buffer face) = .ok faceMeta)
    (hproduct : s.metadata (.buffer product) = .ok productMeta)
    (h : Sharp.agreeOn faceMeta.width faceMeta.height
      (EnhancedCutoutController.organicTarget productMeta).width
      (EnhancedCutoutController.organicTarget productMeta).height s s') :
    EnhancedCutoutController.performOrganicFaceReplacement s face product =
      EnhancedCutoutController.performOrganicFaceReplacement s' face product := by
  have hface' : s'.metadata (.buffer face) = .ok faceMeta := h.1 ▸ hface
  have hproduct' : s'.metadata (.buffer product) = .ok productMeta := h.1 ▸ hproduct
  unfold EnhancedCutoutController.performOrganicFaceReplacement
  rw [hface, hface', hproduct, hproduct']
  have h1 : ∀ m, s.toBuffer (.buffer face)
      [.composite m none none .destIn, .png none none none] =
      s'.toBuffer (.buffer face) [.composite m none none .destIn, .png none none none] := by
    intro m
    apply agree_buffer h
    simp [SharpOp.resizesTo]
  have h2 : ∀ b, s.toBuffer (.buffer b)
      [.resize (EnhancedCutoutController.organicTarget productMeta).width
        (EnhancedCutoutController.organicTarget productMeta).height .contain false true,
        .png none none none] =
      s'.toBuffer (.buffer b)
        [.resize (EnhancedCutoutController.organicTarget productMeta).width
          (EnhancedCutoutController.organicTarget productMeta).height .contain false true,
          .png none none none] := by
    intro b
    apply agree_buffer h
    simp [SharpOp.resizesTo]
  have h3 : ∀ m l t, s.toBuffer (.buffer product)
      [.composite m l t .over, .png (some 100) (some 6) none] =
      s'.toBuffer (.buffer product) [.composite m l t .over, .png (some 100) (some 6) none] := by
    intro m l t
    apply agree_buffer h
    simp [SharpOp.resizesTo]
  simp only [ok_bind, agree_createOrganicFaceMask h, h1, h2, h3]

end Agreement

/-- C13 (counterexample): a 400 x 400 face and an 800 x 1000 product, whose target box
is 280 x 450.  Two libraries that agree on every mask of 280 x 450 and on every resize to
280 x 450 give different results of `performOrganicFaceReplacement`: its mask is
generated at 400 x 400, the size of the face image. -/
theorem C13_organic_mask_has_face_size :
    (EnhancedCutoutController.organicTarget { width := 800, height := 1000 }).width = 280 ∧
      (EnhancedCutoutController.organicTarget { width := 800, height := 1000 }).height = 450 ∧
      Sharp.agreeOn 280 450 280 450 Example.sharpTwoSizes Example.sharpNoFaceSizedSvg ∧
      EnhancedCutoutController.performOrganicFaceReplacement Example.sharpTwoSizes
          Example.face Example.product = .ok Example.modulated ∧
      EnhancedCutoutController.performOrganicFaceReplacement Example.sharpNoFaceSizedSvg
          Example.face Example.product =
        .error "Input buffer contains unsupported image format" := by
  refine ⟨by decide, by decide, ⟨rfl, rfl, ?_⟩, rfl, rfl⟩
  intro input ops hinput _
  cases input with
  | buffer b => rfl
  | create w h c r g b a => rfl
  | svg doc =>
    obtain ⟨hw, hh⟩ := hinput
    simp [Example.sharpNoFaceSizedSvg, Example.sharpTwoSizes, hw]

/-- C13 (amended): in `performEnhancedFaceReplacement` and
`performAdvancedShoulderMatching` every mask is generated with, and every resize goes to,
exactly the width and height of the target region: the result is the same for two
libraries that agree on masks and resizes of that size.  In
`performOrganicFaceReplacement` the resize goes to exactly the width and height of the
target box, and the mask is generated with the width and height of the face image. -/
theorem C13_masks_and_resizes_sized (s s' : Sharp) (face product : Buffer)
    (faceMeta productMeta : Metadata)
    (hface : s.metadata (.buffer face) = .ok faceMeta)
    (hproduct : s.metadata (.buffer product) = .ok productMeta) :
    (Sharp.agreeOn (floorMul productMeta.width (JS.lit 5 10))
        (floorMul productMeta.height (JS.lit 65 100))
        (floorMul productMeta.width (JS.lit 5 10))
        (floorMul productMeta.height (JS.lit 65 100)) s s' →
      ProductController.performEnhancedFaceReplacement s face product =
        ProductController.performEnhancedFaceReplacement s' face product) ∧
    (Sharp.agreeOn (floorMul productMeta.width (JS.lit 6 10))
        (floorMul productMeta.height (JS.lit 7 10))
        (floorMul productMeta.width (JS.lit 6 10))
        (floorMul productMeta.height (JS.lit 7 10)) s s' →
      ProductController.performAdvancedShoulderMatching s face product =
        ProductController.performAdvancedShoulderMatching s' face product) ∧
    (Sharp.agreeOn faceMeta.width faceMeta.height
        (EnhancedCutoutController.organicTarget productMeta).width
        (EnhancedCutoutController.organicTarget productMeta).height s s' →
      EnhancedCutoutController.performOrganicFaceReplacement s face product =
        EnhancedCutoutController.performOrganicFaceReplacement s' face product) := by
  refine ⟨?_, ?_, ?_⟩
  · exact agree_performEnhancedFaceReplacement face product _
      (analyzeProductImageExtended_ok s product _ hproduct)
  · exact agree_performAdvancedShoulderMatching face product _
      (analyzeProductImageForShoulders_ok s product _ hproduct)
  · exact agree_performOrganicFaceReplacement face product faceMeta productMeta hface hproduct

/-- C13 (witness): a 400 x 400 face, an 800 x 1000 product, and a second library that
cannot render an SVG of 1 x 1. -/
theorem C13_masks_and_resizes_sized_witness :
    (Example.sharpTwoSizes.metadata (.buffer Example.face) = .ok { width := 400, height := 400 } ∧
      Example.sharpTwoSizes.metadata (.buffer Example.product) =
        .ok { width := 800, height := 1000 }) ∧
    Sharp.agreeOn 400 400 280 450 Example.sharpTwoSizes Example.sharpNoUnitSvg ∧
    EnhancedCutoutController.performOrganicFaceReplacement Example.sharpTwoSizes
        Example.face Example.product =
      EnhancedCutoutController.performOrganicFaceReplacement Example.sharpNoUnitSvg
        Example.face Example.product :=
  have hagree : Sharp.agreeOn 400 400 280 450 Example.sharpTwoSizes Example.sharpNoUnitSvg :=
    ⟨rfl, rfl, fun input _ hinput _ => by
      cases input with
      | buffer b => rfl
      | create w h c r g b a => rfl
      | svg doc =>
        obtain ⟨hw, _⟩ := hinput
        simp [Example.sharpNoUnitSvg, Example.sharpTwoSizes, hw]⟩
  ⟨⟨rfl, rfl⟩, hagree,
    (C13_masks_and_resizes_sized Example.sharpTwoSizes Example.sharpNoUnitSvg Example.face
      Example.product { width := 400, height := 400 } { width := 800, height := 1000 }
      rfl rfl).2.2 hagree⟩

/-! ## The auth middleware and the product routes -/

/-- C20: for every request and every behaviour of `jwt.verify` and `User.findById`,
`protectRoute` either sets `req.user` to the user found for the verified Bearer token and
then calls `next`, once, or answers with status 401 and does not call `next`; and
`adminRoute` calls `next` if and only if `req.user` exists with role exactly `"admin"`,
and answers 403 otherwise. -/
theorem C20_auth_middleware_fail_closed (c : AuthMiddleware.Collaborators)
    (req : AuthMiddleware.Req) :
    ((∃ authHeader decoded user,
        req.authorization = some authHeader ∧ authHeader.startsWith "Bearer " = true ∧
        c.verify ((authHeader.splitOn " ").get? 1) = .ok decoded ∧
        c.findById decoded.userId = .ok (some user) ∧
        AuthMiddleware.protectRoute c req = [.setUser user, .next]) ∨
      (∃ message, (AuthMiddleware.protectRoute c req = [.respond 401 message] ∨
        ∃ logged, AuthMiddleware.protectRoute c req =
          [.consoleError logged, .respond 401 message]))) ∧
    (AuthMiddleware.adminRoute req = [.next] ↔
      ∃ user, req.user = some user ∧ user.role = "admin") ∧
    (AuthMiddleware.adminRoute req = [.next] ∨
      AuthMiddleware.adminRoute req = [.respond 403 "Access denied - Admin only"]) := by
  refine ⟨?_, ?_, ?_⟩
  · unfold AuthMiddleware.protectRoute
    cases hauth : req.authorization with
    | none => exact Or.inr ⟨_, Or.inl rfl⟩
    | some authHeader =>
      by_cases hguard : authHeader = "" ∨ ¬ authHeader.startsWith "Bearer "
      · simp only [hguard, if_true]
        exact Or.inr ⟨_, Or.inl rfl⟩
      · simp only [hguard, if_false]
        have hstart : authHeader.startsWith "Bearer " = true := by
          by_contra hcon
          exact hguard (Or.inr hcon)
        cases hver : c.verify ((authHeader.splitOn " ").get? 1) with
        | error err =>
          by_cases hname : err.name = "TokenExpiredError"
          · simp [hver, hname, bind, Except.bind]
          · simp [hver, hname, bind, Except.bind]
        | ok decoded =>
          cases hfind : c.findById decoded.userId with
          | error err =>
            by_cases hname : err.name = "TokenExpiredError"
            · simp [hver, hfind, hname, bind, Except.bind]
            · simp [hver, hfind, hname, bind, Except.bind]
          | ok found =>
            cases found with
            | none => simp [hver, hfind, bind, Except.bind, pure, Except.pure]
            | some user =>
              refine Or.inl ⟨authHeader, decoded, user, rfl, hstart, hver, hfind, ?_⟩
              simp [hver, hfind, bind, Except.bind, pure, Except.pure]
  · unfold AuthMiddleware.adminRoute
    cases huser : req.user with
    | none => simp
    | some user =>
      by_cases hrole : user.role = "admin"
      · simp [hrole]
      · simp [hrole]
  · unfold AuthMiddleware.adminRoute
    cases huser : req.user with
    | none => simp
    | some user =>
      by_cases hrole : user.role = "admin"
      · simp [hrole]
      · simp [hrole]

/-- C16: the routes under "Protected admin routes" are registered without middleware:
for every request, also one without credentials, `POST /`, `PUT /:id`, `PATCH /:id` and
`DELETE /:id` invoke the controller directly, and neither `protectRoute` nor `adminRoute`
runs.  With the chain `protectRoute, adminRoute, createProduct` a request without
credentials stops at `protectRoute`. -/
theorem C16_admin_routes_unprotected (c : AuthMiddleware.Collaborators)
    (req : AuthMiddleware.Req) (id : String) :
    ProductRoute.dispatch c .post [] req = [.createProduct] ∧
    ProductRoute.dispatch c .put [id] req = [.updateProduct] ∧
    ProductRoute.dispatch c .patch [id] req = [.toggleFeaturedProduct] ∧
    ProductRoute.dispatch c .delete [id] req = [.deleteProduct] ∧
    ProductRoute.invoked c [.protectRoute, .adminRoute, .createProduct] Example.anonymous =
      [.protectRoute] := by
  refine ⟨?_, ?_, ?_, ?_, ?_⟩
  · simp [ProductRoute.dispatch, ProductRoute.router, ProductRoute.pathMatches, ProductRoute.invoked, List.find?]
  · simp [ProductRoute.dispatch, ProductRoute.router, ProductRoute.pathMatches, ProductRoute.invoked, List.find?]
  · simp [ProductRoute.dispatch, ProductRoute.router, ProductRoute.pathMatches, ProductRoute.invoked, List.find?]
  · simp [ProductRoute.dispatch, ProductRoute.router, ProductRoute.pathMatches, ProductRoute.invoked, List.find?]
  · simp [ProductRoute.invoked, AuthMiddleware.protectRoute, AuthMiddleware.passedOn, Example.anonymous]
